import Mathlib

/-!
# AVRCP JNI bridge (`jni/com_android_bluetooth_avrcp.cpp`)

A shallow embedding of the response natives, of `initNative` / `cleanupNative`
and of the string helpers of the AVRCP JNI bridge, followed by theorems about
them.

Conventions of the embedding

* C integers are `Int`; an explicit cast `(uintN_t)x` is `x % 2^N`.
* A Java primitive array reference is `Option JArray` (`none` is the `NULL`
  reference); pinning it with `Get<T>ArrayElements` yields `Option (List Int)`
  (`none` is the `NULL` pointer).  Reading a pinned pointer past the end of the
  array is undefined in C; `rd` yields `0` there.
* Every native returns its `jboolean` together with the sequence of JNI and
  HAL calls it made, in program order.  A return value `none` means that the
  native did not return: it dereferenced a `NULL` pointer.
* Storage obtained with `new` and never written is indeterminate; the
  structures handed to the HAL record only what the code wrote.
* The constants and struct layouts of `hardware/bt_rc.h` and
  `hardware/bluetooth.h` are not part of the sources; the constants are taken
  as a parameter (`BtRc`), and a struct field holds the value assigned to it.
-/

namespace Avrcp

/-! ## Constants of the HAL headers -/

/-- Constants that the source takes from `hardware/bluetooth.h` and
`hardware/bt_rc.h`.  The headers are not among the sources, so the values are a
parameter of the embedding. -/
structure BtRc where
  BT_STATUS_SUCCESS : Int
  BT_PROFILE_AV_RC_ID : String
  sizeof_bt_bdaddr_t : Int
  BTRC_STS_NO_ERROR : Int
  BTRC_STS_INTERNAL_ERR : Int
  BTRC_ITEM_FOLDER : Int
  BTRC_ITEM_MEDIA : Int
  BTRC_SCOPE_FILE_SYSTEM : Int
  BTRC_SCOPE_SEARCH : Int
  BTRC_SCOPE_NOW_PLAYING : Int
  BTRC_UID_SIZE : Int
  BTRC_MAX_ATTR_STR_LEN : Int
  BTRC_MAX_APP_ATTR_SIZE : Int
  BTRC_MAX_ELEM_ATTR_SIZE : Int
  BTRC_CHARSET_ID_UTF8 : Int
  BTRC_MEDIA_TYPE_AUDIO : Int
  BTRC_EVT_PLAY_STATUS_CHANGED : Int
  BTRC_EVT_TRACK_CHANGE : Int
  BTRC_EVT_PLAY_POS_CHANGED : Int
  BTRC_EVT_APP_SETTINGS_CHANGED : Int
  BTRC_EVT_NOW_PLAYING_CONTENT_CHANGED : Int
  BTRC_EVT_AVAL_PLAYER_CHANGE : Int
  BTRC_EVT_ADDR_PLAYER_CHANGE : Int
  BTRC_EVT_UIDS_CHANGED : Int
  BTRC_NUM_ATTR_ALL : Int
  BTRC_NUM_ATTR_NONE : Int

/-- The values these constants have in the Android headers; used to instantiate
the theorems at concrete inputs. -/
def aospHeaders : BtRc where
  BT_STATUS_SUCCESS := 0
  BT_PROFILE_AV_RC_ID := "avrcp"
  sizeof_bt_bdaddr_t := 6
  BTRC_STS_NO_ERROR := 4
  BTRC_STS_INTERNAL_ERR := 3
  BTRC_ITEM_FOLDER := 2
  BTRC_ITEM_MEDIA := 3
  BTRC_SCOPE_FILE_SYSTEM := 1
  BTRC_SCOPE_SEARCH := 2
  BTRC_SCOPE_NOW_PLAYING := 3
  BTRC_UID_SIZE := 8
  BTRC_MAX_ATTR_STR_LEN := 255
  BTRC_MAX_APP_ATTR_SIZE := 16
  BTRC_MAX_ELEM_ATTR_SIZE := 7
  BTRC_CHARSET_ID_UTF8 := 106
  BTRC_MEDIA_TYPE_AUDIO := 0
  BTRC_EVT_PLAY_STATUS_CHANGED := 1
  BTRC_EVT_TRACK_CHANGE := 2
  BTRC_EVT_PLAY_POS_CHANGED := 5
  BTRC_EVT_APP_SETTINGS_CHANGED := 8
  BTRC_EVT_NOW_PLAYING_CONTENT_CHANGED := 9
  BTRC_EVT_AVAL_PLAYER_CHANGE := 10
  BTRC_EVT_ADDR_PLAYER_CHANGE := 11
  BTRC_EVT_UIDS_CHANGED := 12
  BTRC_NUM_ATTR_ALL := 0
  BTRC_NUM_ATTR_NONE := 255

/-! ## Machine integers and C library functions -/

/-- Cast `(uint8_t)x`. -/
def uint8_t (x : Int) : Int := x % 2 ^ 8

/-- Cast `(uint16_t)x`. -/
def uint16_t (x : Int) : Int := x % 2 ^ 16

/-- Cast `(uint32_t)x`. -/
def uint32_t (x : Int) : Int := x % 2 ^ 32

/-- Conversion of an `int` to `size_t` (64 bit). -/
def size_t (x : Int) : Nat := (x % 2 ^ 64).toNat

/-- Read `p[i]` through a pinned array pointer. -/
def rd (p : List Int) (i : Int) : Int :=
  if i < 0 then 0 else p.getD i.toNat 0

/-- Library call `memset(str, c, n)`: the first `n` bytes at `str` become `c`. -/
def memset (str : List Nat) (c : Nat) (n : Nat) : List Nat :=
  List.replicate n c ++ str.drop n

/-- Library call `memcpy(dst, src, n)`: the first `n` bytes at `dst` become those at `src`. -/
def memcpy (dst src : List Nat) (n : Nat) : List Nat :=
  src.take n ++ dst.drop n

/-- Library call `strlen(p)`; the list holds the bytes at `p`, and its end stands for
the terminating NUL. -/
def strlen (p : List Nat) : Nat :=
  (p.takeWhile (fun b => b != 0)).length

/-- Library call `strnlen(p, maxlen)`. -/
def strnlen (p : List Nat) (maxlen : Nat) : Nat :=
  min (strlen p) maxlen

/-! ## JNI references -/

/-- A Java primitive array; `elems` is what `Get<T>ArrayElements` returns for
it (`none` when the VM cannot pin or copy the array). -/
structure JArray where
  elems : Option (List Int)

/-- A `jbyteArray` / `jintArray` / `jshortArray` reference; `none` is `NULL`. -/
abbrev jarray := Option JArray

/-- JNI `Get<T>ArrayElements(a, NULL)`. -/
def GetArrayElements (a : jarray) : Option (List Int) :=
  a.bind JArray.elems

/-- A Java string; `utf` is what `GetStringUTFChars` returns for it: the
modified UTF-8 bytes, or `none` when the VM cannot allocate the copy. -/
structure JString where
  utf : Option (List Nat)

/-- A `jstring` reference; `none` is `NULL`. -/
abbrev jstring := Option JString

/-- JNI `GetStringUTFChars(s, NULL)`; for the `NULL` string it is taken to yield `NULL`. -/
def GetStringUTFChars (s : jstring) : Option (List Nat) :=
  s.bind JString.utf

/-- A `jobjectArray` of strings; `none` is `NULL`. -/
abbrev jobjectArray := Option (List jstring)

/-- JNI `GetObjectArrayElement(a, i)`; `NULL` outside the array. -/
def GetObjectArrayElement (a : jobjectArray) (i : Int) : jstring :=
  match a with
  | none => none
  | some l => if i < 0 then none else l.getD i.toNat none

/-- The part of the JNI environment and of the C++ runtime the natives depend
on: whether `new` yields storage (`newOk`; the source tests the result of `new`
against `NULL`; the requested size enters only where a definition says so), what
`NewGlobalRef` returns for an object, and what the `p_str` member of a freshly
allocated `btrc_br_folder_name_t` designates (`none` for `NULL`). -/
structure JNIEnv where
  newOk : Bool
  NewGlobalRef : Nat → Option Nat
  fresh_p_str : Option (List Nat)

/-! ## Structures of the HAL interface

The structs are declared in `hardware/bt_rc.h`, which is not among the sources.  Each
structure below has the fields the source assigns, under their names in the source,
and a field holds the value assigned to it. -/

/-- HAL struct `btrc_element_attr_val_t`; `text` is `none` while the text buffer
has not been written. -/
structure btrc_element_attr_val_t where
  attr_id : Int
  text : Option (List Nat)
deriving DecidableEq, Repr

/-- HAL struct `btrc_player_setting_text_t`; `text` holds the bytes `strlcpy` wrote. -/
structure btrc_player_setting_text_t where
  id : Int
  text : List Nat
deriving DecidableEq, Repr

/-- HAL struct `btrc_player_settings_t`; the lists hold the entries that were written. -/
structure btrc_player_settings_t where
  num_attr : Int
  attr_ids : List Int
  attr_values : List Int
deriving DecidableEq, Repr

/-- HAL struct `btrc_item_player_t`; `name` and `features` are `none` while unwritten. -/
structure btrc_item_player_t where
  player_id : Int
  major_type : Int
  sub_type : Int
  play_status : Int
  charset_id : Int
  name : Option (List Nat)
  features : Option (List Int)
deriving DecidableEq, Repr

/-- HAL struct `btrc_item_folder_t`. -/
structure btrc_item_folder_t where
  uid : List Int
  type : Int
  playable : Int
  charset_id : Int
  name : List Nat
deriving DecidableEq, Repr

/-- HAL struct `btrc_item_media_t`; `p_attrs` is `none` for the `NULL` pointer and
otherwise holds the entries written so far. -/
structure btrc_item_media_t where
  uid : List Int
  type : Int
  charset_id : Int
  name : List Nat
  num_attrs : Int
  p_attrs : Option (List btrc_element_attr_val_t)
deriving DecidableEq, Repr

/-- HAL struct `btrc_folder_items_t`: an `item_type` and a union of the three item
structs.  The constructor records which member of the union the code wrote. -/
inductive btrc_folder_items_t
  /-- storage from `new[]` that was never written -/
  | uninit
  /-- storage cleared by `memset` and not written since -/
  | zeroed
  | folder (item_type : Int) (f : btrc_item_folder_t)
  | media (item_type : Int) (m : btrc_item_media_t)
  /-- the outer `item_type` is `none` where the code never assigns it -/
  | player (item_type : Option Int) (p : btrc_item_player_t)
deriving DecidableEq, Repr

/-- HAL struct `btrc_br_folder_name_t`. -/
structure btrc_br_folder_name_t where
  str_len : Int
  p_str : Option (List Nat)
deriving DecidableEq, Repr

/-- HAL union `btrc_register_notification_t`; the constructor records the member
that was written. -/
inductive btrc_register_notification_t
  | uninit
  | play_status (v : Int)
  | track (t : List Int)
  | song_pos (v : Int)
  | uids_changed (uid_counter : Int)
  | addr_player_changed (player_id uid_counter : Int)
  | player_setting (s : btrc_player_settings_t)
deriving DecidableEq, Repr

/-- A call through one of the function pointers of `btrc_interface_t`, with its
arguments.  `bd_addr` is the pinned content of the address array. -/
inductive HalCall
  | init (max_connections : Int)
  | cleanup
  | get_play_status_rsp (bd_addr : List Int) (play_status song_len song_pos : Int)
  | list_player_app_attr_rsp (bd_addr : List Int) (num_attr : Int) (p_attrs : List Int)
  | list_player_app_value_rsp (bd_addr : List Int) (num_val : Int) (p_vals : List Int)
  | get_player_app_value_rsp (bd_addr : List Int) (p_vals : btrc_player_settings_t)
  | set_player_app_value_rsp (bd_addr : List Int) (rsp_status : Int)
  | get_player_app_attr_text_rsp (bd_addr : List Int) (num_attr : Int)
      (p_attrs : List btrc_player_setting_text_t)
  | get_player_app_value_text_rsp (bd_addr : List Int) (num_val : Int)
      (p_vals : List btrc_player_setting_text_t)
  | get_element_attr_rsp (bd_addr : List Int) (num_attr : Int)
      (p_attrs : List btrc_element_attr_val_t)
  | get_item_attr_rsp (bd_addr : List Int) (rsp_status : Int) (num_attr : Int)
      (p_attrs : List btrc_element_attr_val_t)
  | register_notification_rsp (event_id : Int) (type : Int)
      (p_param : btrc_register_notification_t) (bd_addr : List Int)
  | set_volume (volume : Int) (bd_addr : List Int)
  | get_folder_items_list_rsp (bd_addr : List Int) (rsp_status uid_counter num_items : Int)
      (p_items : Option (List btrc_folder_items_t))
  | set_addressed_player_rsp (bd_addr : List Int) (rsp_status : Int)
  | set_browsed_player_rsp (bd_addr : List Int) (rsp_status num_items charset_id
      folder_depth : Int) (p_folders : Option (List btrc_br_folder_name_t))
  | change_path_rsp (bd_addr : List Int) (rsp_status num_items : Int)
  | search_rsp (bd_addr : List Int) (rsp_status uid_counter num_items : Int)
  | play_item_rsp (bd_addr : List Int) (rsp_status : Int)
  | get_total_num_of_items_rsp (bd_addr : List Int) (rsp_status uid_counter num_items : Int)
  | add_to_now_playing_rsp (bd_addr : List Int) (rsp_status : Int)
  | is_device_active_in_handoff (bd_addr : List Int)
deriving DecidableEq, Repr

/-- HAL struct `btrc_interface_t`: `call c` is the `bt_status_t` the HAL returns for
the call `c`; `handle` tells interfaces apart. -/
structure btrc_interface_t where
  handle : Nat
  call : HalCall → Int

/-- The array and string-array parameters of the natives. -/
inductive Arg
  | address | attrIds | value | attr | textArray | track
  | playerIds | playerTypes | playerSubtypes | playStatusValues | featureBitmask
  | folderType | playable | itemType | itemUidArray | displayNameArray
  | numAttrs | attributesIds | attributesArray
deriving DecidableEq, Repr

/-- One observable step of a native: a JNI call on an argument or a HAL call. -/
inductive Event
  /-- call of `Get<T>ArrayElements` on a parameter; `ok` tells whether it returned a pointer -/
  | GetArrayElements (a : Arg) (ok : Bool)
  | ReleaseArrayElements (a : Arg)
  | GetObjectArrayElement (a : Arg) (i : Int)
  | GetStringUTFChars (ok : Bool)
  | ReleaseStringUTFChars
  | jniThrowIOException
  | DeleteGlobalRef
  | NewGlobalRef
  | hal (c : HalCall)
deriving DecidableEq, Repr

/-- The HAL calls of a trace, in order. -/
def halCalls : List Event → List HalCall
  | [] => []
  | Event.hal c :: es => c :: halCalls es
  | _ :: es => halCalls es

/-- Outcome of a native: the `jboolean` it returns (`none` when it does not
return or has no defined outcome) and the calls it made. -/
structure Result where
  ret : Option Bool
  trace : List Event

/-- Storage for `n` bytes that has not been written.  Its content is indeterminate;
every use below either overwrites all of it or records the field as unwritten. -/
def uninitBytes (n : Int) : List Nat := List.replicate n.toNat 0

/-! ## Helper functions of the source -/

/-- Outcome of `copy_jstring`: the returned `bool` (`none` when the call does not
return), the destination afterwards, and the JNI calls made. -/
structure CopyResult where
  ret : Option Bool
  str : Option (List Nat)
  trace : List Event

/-- Source function `copy_jstring(str, maxBytes, jstr, env)`.  The result of
`GetStringUTFChars` is passed to `strnlen` unchecked, so a `NULL` result is
dereferenced after the destination has been cleared. -/
def copy_jstring (str : Option (List Nat)) (maxBytes : Int) (jstr : jstring)
    (env : Option JNIEnv) : CopyResult :=
  match str, jstr, env with
  | some buf, some js, some _ =>
    let cleared := memset buf 0 (size_t maxBytes)
    match GetStringUTFChars (some js) with
    | none => { ret := none, str := some cleared, trace := [Event.GetStringUTFChars false] }
    | some p_str =>
      let len := strnlen p_str (size_t (maxBytes - 1))
      { ret := some true, str := some (memcpy cleared p_str len),
        trace := [Event.GetStringUTFChars true, Event.ReleaseStringUTFChars] }
  | _, _, _ => { ret := some false, str := str, trace := [] }

/-! ## Response natives with a single HAL call

Each of them checks `sBluetoothAvrcpInterface`, pins `address`, makes its HAL
call, releases `address` and returns whether the status was `BT_STATUS_SUCCESS`. -/

/-- Source function `getPlayStatusRspNative`. -/
def getPlayStatusRspNative (k : BtRc)
    (sBluetoothAvrcpInterface : Option btrc_interface_t)
    (address : jarray) (playStatus songLen songPos : Int) : Result :=
  match sBluetoothAvrcpInterface with
  | none => { ret := some false, trace := [] }
  | some hal =>
    match GetArrayElements address with
    | none =>
      { ret := some false,
        trace := [Event.GetArrayElements Arg.address false, Event.jniThrowIOException] }
    | some addr =>
      let c := HalCall.get_play_status_rsp addr playStatus songLen songPos
      let status := hal.call c
      { ret := some (decide (status = k.BT_STATUS_SUCCESS)),
        trace := [Event.GetArrayElements Arg.address true, Event.hal c,
          Event.ReleaseArrayElements Arg.address] }

/-- Source function `SendSetPlayerAppRspNative`. -/
def SendSetPlayerAppRspNative (k : BtRc)
    (sBluetoothAvrcpInterface : Option btrc_interface_t)
    (attr_status : Int) (address : jarray) : Result :=
  match sBluetoothAvrcpInterface with
  | none => { ret := some false, trace := [] }
  | some hal =>
    match GetArrayElements address with
    | none =>
      { ret := some false,
        trace := [Event.GetArrayElements Arg.address false, Event.jniThrowIOException] }
    | some addr =>
      let c := HalCall.set_player_app_value_rsp addr attr_status
      let status := hal.call c
      { ret := some (decide (status = k.BT_STATUS_SUCCESS)),
        trace := [Event.GetArrayElements Arg.address true, Event.hal c,
          Event.ReleaseArrayElements Arg.address] }

/-- Source function `registerNotificationRspPlayStatusNative`. -/
def registerNotificationRspPlayStatusNative (k : BtRc)
    (sBluetoothAvrcpInterface : Option btrc_interface_t)
    (type playStatus : Int) (address : jarray) : Result :=
  match sBluetoothAvrcpInterface with
  | none => { ret := some false, trace := [] }
  | some hal =>
    match GetArrayElements address with
    | none =>
      { ret := some false,
        trace := [Event.GetArrayElements Arg.address false, Event.jniThrowIOException] }
    | some addr =>
      let c := HalCall.register_notification_rsp k.BTRC_EVT_PLAY_STATUS_CHANGED type
        (btrc_register_notification_t.play_status playStatus) addr
      let status := hal.call c
      { ret := some (decide (status = k.BT_STATUS_SUCCESS)),
        trace := [Event.GetArrayElements Arg.address true, Event.hal c,
          Event.ReleaseArrayElements Arg.address] }

/-- Source function `registerNotificationRspPlayPosNative`. -/
def registerNotificationRspPlayPosNative (k : BtRc)
    (sBluetoothAvrcpInterface : Option btrc_interface_t)
    (type playPos : Int) (address : jarray) : Result :=
  match sBluetoothAvrcpInterface with
  | none => { ret := some false, trace := [] }
  | some hal =>
    match GetArrayElements address with
    | none =>
      { ret := some false,
        trace := [Event.GetArrayElements Arg.address false, Event.jniThrowIOException] }
    | some addr =>
      let c := HalCall.register_notification_rsp k.BTRC_EVT_PLAY_POS_CHANGED type
        (btrc_register_notification_t.song_pos (uint32_t playPos)) addr
      let status := hal.call c
      { ret := some (decide (status = k.BT_STATUS_SUCCESS)),
        trace := [Event.GetArrayElements Arg.address true, Event.hal c,
          Event.ReleaseArrayElements Arg.address] }

/-- Source function `registerNotificationRspNowPlayingChangedNative`. -/
def registerNotificationRspNowPlayingChangedNative (k : BtRc)
    (sBluetoothAvrcpInterface : Option btrc_interface_t)
    (type : Int) (address : jarray) : Result :=
  match sBluetoothAvrcpInterface with
  | none => { ret := some false, trace := [] }
  | some hal =>
    match GetArrayElements address with
    | none =>
      { ret := some false,
        trace := [Event.GetArrayElements Arg.address false, Event.jniThrowIOException] }
    | some addr =>
      let c := HalCall.register_notification_rsp k.BTRC_EVT_NOW_PLAYING_CONTENT_CHANGED type
        btrc_register_notification_t.uninit addr
      let status := hal.call c
      { ret := some (decide (status = k.BT_STATUS_SUCCESS)),
        trace := [Event.GetArrayElements Arg.address true, Event.hal c,
          Event.ReleaseArrayElements Arg.address] }

/-- Source function `registerNotificationRspUIDsChangedNative`. -/
def registerNotificationRspUIDsChangedNative (k : BtRc)
    (sBluetoothAvrcpInterface : Option btrc_interface_t)
    (type uidCounter : Int) (address : jarray) : Result :=
  match sBluetoothAvrcpInterface with
  | none => { ret := some false, trace := [] }
  | some hal =>
    match GetArrayElements address with
    | none =>
      { ret := some false,
        trace := [Event.GetArrayElements Arg.address false, Event.jniThrowIOException] }
    | some addr =>
      let c := HalCall.register_notification_rsp k.BTRC_EVT_UIDS_CHANGED type
        (btrc_register_notification_t.uids_changed (uint16_t uidCounter)) addr
      let status := hal.call c
      { ret := some (decide (status = k.BT_STATUS_SUCCESS)),
        trace := [Event.GetArrayElements Arg.address true, Event.hal c,
          Event.ReleaseArrayElements Arg.address] }

/-- Source function `registerNotificationRspAddrPlayerChangedNative`. -/
def registerNotificationRspAddrPlayerChangedNative (k : BtRc)
    (sBluetoothAvrcpInterface : Option btrc_interface_t)
    (type playerId uidCounter : Int) (address : jarray) : Result :=
  match sBluetoothAvrcpInterface with
  | none => { ret := some false, trace := [] }
  | some hal =>
    match GetArrayElements address with
    | none =>
      { ret := some false,
        trace := [Event.GetArrayElements Arg.address false, Event.jniThrowIOException] }
    | some addr =>
      let c := HalCall.register_notification_rsp k.BTRC_EVT_ADDR_PLAYER_CHANGE type
        (btrc_register_notification_t.addr_player_changed (uint16_t playerId)
          (uint16_t uidCounter)) addr
      let status := hal.call c
      { ret := some (decide (status = k.BT_STATUS_SUCCESS)),
        trace := [Event.GetArrayElements Arg.address true, Event.hal c,
          Event.ReleaseArrayElements Arg.address] }

/-- Source function `registerNotificationRspAvalPlayerChangedNative`. -/
def registerNotificationRspAvalPlayerChangedNative (k : BtRc)
    (sBluetoothAvrcpInterface : Option btrc_interface_t)
    (type : Int) (address : jarray) : Result :=
  match sBluetoothAvrcpInterface with
  | none => { ret := some false, trace := [] }
  | some hal =>
    match GetArrayElements address with
    | none =>
      { ret := some false,
        trace := [Event.GetArrayElements Arg.address false, Event.jniThrowIOException] }
    | some addr =>
      let c := HalCall.register_notification_rsp k.BTRC_EVT_AVAL_PLAYER_CHANGE type
        btrc_register_notification_t.uninit addr
      let status := hal.call c
      { ret := some (decide (status = k.BT_STATUS_SUCCESS)),
        trace := [Event.GetArrayElements Arg.address true, Event.hal c,
          Event.ReleaseArrayElements Arg.address] }

/-- Source function `setVolumeNative`. -/
def setVolumeNative (k : BtRc)
    (sBluetoothAvrcpInterface : Option btrc_interface_t)
    (volume : Int) (address : jarray) : Result :=
  match sBluetoothAvrcpInterface with
  | none => { ret := some false, trace := [] }
  | some hal =>
    match GetArrayElements address with
    | none =>
      { ret := some false,
        trace := [Event.GetArrayElements Arg.address false, Event.jniThrowIOException] }
    | some addr =>
      let c := HalCall.set_volume (uint8_t volume) addr
      let status := hal.call c
      { ret := some (decide (status = k.BT_STATUS_SUCCESS)),
        trace := [Event.GetArrayElements Arg.address true, Event.hal c,
          Event.ReleaseArrayElements Arg.address] }

/-- Source function `setAddressedPlayerRspNative`. -/
def setAddressedPlayerRspNative (k : BtRc)
    (sBluetoothAvrcpInterface : Option btrc_interface_t)
    (address : jarray) (rspStatus : Int) : Result :=
  match sBluetoothAvrcpInterface with
  | none => { ret := some false, trace := [] }
  | some hal =>
    match GetArrayElements address with
    | none =>
      { ret := some false,
        trace := [Event.GetArrayElements Arg.address false, Event.jniThrowIOException] }
    | some addr =>
      let c := HalCall.set_addressed_player_rsp addr rspStatus
      let status := hal.call c
      { ret := some (decide (status = k.BT_STATUS_SUCCESS)),
        trace := [Event.GetArrayElements Arg.address true, Event.hal c,
          Event.ReleaseArrayElements Arg.address] }

/-- Source function `changePathRspNative`. -/
def changePathRspNative (k : BtRc)
    (sBluetoothAvrcpInterface : Option btrc_interface_t)
    (address : jarray) (rspStatus numItems : Int) : Result :=
  match sBluetoothAvrcpInterface with
  | none => { ret := some false, trace := [] }
  | some hal =>
    match GetArrayElements address with
    | none =>
      { ret := some false,
        trace := [Event.GetArrayElements Arg.address false, Event.jniThrowIOException] }
    | some addr =>
      let c := HalCall.change_path_rsp addr rspStatus (uint32_t numItems)
      let status := hal.call c
      { ret := some (decide (status = k.BT_STATUS_SUCCESS)),
        trace := [Event.GetArrayElements Arg.address true, Event.hal c,
          Event.ReleaseArrayElements Arg.address] }

/-- Source function `searchRspNative`. -/
def searchRspNative (k : BtRc)
    (sBluetoothAvrcpInterface : Option btrc_interface_t)
    (address : jarray) (rspStatus uidCounter numItems : Int) : Result :=
  match sBluetoothAvrcpInterface with
  | none => { ret := some false, trace := [] }
  | some hal =>
    match GetArrayElements address with
    | none =>
      { ret := some false,
        trace := [Event.GetArrayElements Arg.address false, Event.jniThrowIOException] }
    | some addr =>
      let c := HalCall.search_rsp addr rspStatus (uint32_t uidCounter) (uint32_t numItems)
      let status := hal.call c
      { ret := some (decide (status = k.BT_STATUS_SUCCESS)),
        trace := [Event.GetArrayElements Arg.address true, Event.hal c,
          Event.ReleaseArrayElements Arg.address] }

/-- Source function `playItemRspNative`. -/
def playItemRspNative (k : BtRc)
    (sBluetoothAvrcpInterface : Option btrc_interface_t)
    (address : jarray) (rspStatus : Int) : Result :=
  match sBluetoothAvrcpInterface with
  | none => { ret := some false, trace := [] }
  | some hal =>
    match GetArrayElements address with
    | none =>
      { ret := some false,
        trace := [Event.GetArrayElements Arg.address false, Event.jniThrowIOException] }
    | some addr =>
      let c := HalCall.play_item_rsp addr rspStatus
      let status := hal.call c
      { ret := some (decide (status = k.BT_STATUS_SUCCESS)),
        trace := [Event.GetArrayElements Arg.address true, Event.hal c,
          Event.ReleaseArrayElements Arg.address] }

/-- Source function `getTotalNumOfItemsRspNative`. -/
def getTotalNumOfItemsRspNative (k : BtRc)
    (sBluetoothAvrcpInterface : Option btrc_interface_t)
    (address : jarray) (rspStatus uidCounter numItems : Int) : Result :=
  match sBluetoothAvrcpInterface with
  | none => { ret := some false, trace := [] }
  | some hal =>
    match GetArrayElements address with
    | none =>
      { ret := some false,
        trace := [Event.GetArrayElements Arg.address false, Event.jniThrowIOException] }
    | some addr =>
      let c := HalCall.get_total_num_of_items_rsp addr rspStatus (uint32_t uidCounter)
        (uint32_t numItems)
      let status := hal.call c
      { ret := some (decide (status = k.BT_STATUS_SUCCESS)),
        trace := [Event.GetArrayElements Arg.address true, Event.hal c,
          Event.ReleaseArrayElements Arg.address] }

/-- Source function `addToNowPlayingRspNative`. -/
def addToNowPlayingRspNative (k : BtRc)
    (sBluetoothAvrcpInterface : Option btrc_interface_t)
    (address : jarray) (rspStatus : Int) : Result :=
  match sBluetoothAvrcpInterface with
  | none => { ret := some false, trace := [] }
  | some hal =>
    match GetArrayElements address with
    | none =>
      { ret := some false,
        trace := [Event.GetArrayElements Arg.address false, Event.jniThrowIOException] }
    | some addr =>
      let c := HalCall.add_to_now_playing_rsp addr rspStatus
      let status := hal.call c
      { ret := some (decide (status = k.BT_STATUS_SUCCESS)),
        trace := [Event.GetArrayElements Arg.address true, Event.hal c,
          Event.ReleaseArrayElements Arg.address] }

/-- Source function `isDeviceActiveInHandOffNative`. -/
def isDeviceActiveInHandOffNative (k : BtRc)
    (sBluetoothAvrcpInterface : Option btrc_interface_t)
    (address : jarray) : Result :=
  match sBluetoothAvrcpInterface with
  | none => { ret := some false, trace := [] }
  | some hal =>
    match GetArrayElements address with
    | none =>
      { ret := some false,
        trace := [Event.GetArrayElements Arg.address false, Event.jniThrowIOException] }
    | some addr =>
      let c := HalCall.is_device_active_in_handoff addr
      let status := hal.call c
      { ret := some (decide (status = k.BT_STATUS_SUCCESS)),
        trace := [Event.GetArrayElements Arg.address true, Event.hal c,
          Event.ReleaseArrayElements Arg.address] }

/-- Source function `registerNotificationRspTrackChangeNative`: also pins `track` and
copies its first `BTRC_UID_SIZE` bytes into `param.track`.  When `track` cannot be
pinned it returns without releasing `address`. -/
def registerNotificationRspTrackChangeNative (k : BtRc)
    (sBluetoothAvrcpInterface : Option btrc_interface_t)
    (type : Int) (track : jarray) (address : jarray) : Result :=
  match sBluetoothAvrcpInterface with
  | none => { ret := some false, trace := [] }
  | some hal =>
    match GetArrayElements address with
    | none =>
      { ret := some false,
        trace := [Event.GetArrayElements Arg.address false, Event.jniThrowIOException] }
    | some addr =>
      match GetArrayElements track with
      | none =>
        { ret := some false,
          trace := [Event.GetArrayElements Arg.address true,
            Event.GetArrayElements Arg.track false, Event.jniThrowIOException] }
      | some trk =>
        let param := btrc_register_notification_t.track
          ((List.range k.BTRC_UID_SIZE.toNat).map (fun (uid_idx : Nat) => rd trk (uid_idx : Int)))
        let c := HalCall.register_notification_rsp k.BTRC_EVT_TRACK_CHANGE type param addr
        let status := hal.call c
        { ret := some (decide (status = k.BT_STATUS_SUCCESS)),
          trace := [Event.GetArrayElements Arg.address true,
            Event.GetArrayElements Arg.track true, Event.hal c,
            Event.ReleaseArrayElements Arg.track, Event.ReleaseArrayElements Arg.address] }

/-! ## Player application setting natives -/

/-- Source function `getListPlayerappAttrRspNative`.  The test `i < numAttr` after
the copy loop can never hold and is left out.  `address` stays pinned on the two
early returns after it was obtained. -/
def getListPlayerappAttrRspNative (k : BtRc) (env : JNIEnv)
    (sBluetoothAvrcpInterface : Option btrc_interface_t)
    (numAttr : Int) (attrIds : jarray) (address : jarray) : Result :=
  match sBluetoothAvrcpInterface with
  | none => { ret := some false, trace := [] }
  | some hal =>
    match GetArrayElements address with
    | none =>
      { ret := some false,
        trace := [Event.GetArrayElements Arg.address false, Event.jniThrowIOException] }
    | some addr =>
      if numAttr > k.BTRC_MAX_APP_ATTR_SIZE then
        { ret := some false, trace := [Event.GetArrayElements Arg.address true] }
      else if !env.newOk then
        { ret := some false, trace := [Event.GetArrayElements Arg.address true] }
      else
        match GetArrayElements attrIds with
        | none =>
          { ret := some false,
            trace := [Event.GetArrayElements Arg.address true,
              Event.GetArrayElements Arg.attrIds false, Event.jniThrowIOException] }
        | some attr =>
          let pAttrs := (List.range numAttr.toNat).map (fun (i : Nat) => rd attr (i : Int))
          let c := HalCall.list_player_app_attr_rsp addr numAttr pAttrs
          let status := hal.call c
          { ret := some (decide (status = k.BT_STATUS_SUCCESS)),
            trace := [Event.GetArrayElements Arg.address true,
              Event.GetArrayElements Arg.attrIds true, Event.hal c,
              Event.ReleaseArrayElements Arg.attrIds,
              Event.ReleaseArrayElements Arg.address] }

/-- Source function `getPlayerAppValueRspNative`.  Both arrays are pinned before
either pointer is tested. -/
def getPlayerAppValueRspNative (k : BtRc) (env : JNIEnv)
    (sBluetoothAvrcpInterface : Option btrc_interface_t)
    (numvalue : Int) (value : jarray) (address : jarray) : Result :=
  match sBluetoothAvrcpInterface with
  | none => { ret := some false, trace := [] }
  | some hal =>
    if numvalue > k.BTRC_MAX_APP_ATTR_SIZE then { ret := some false, trace := [] }
    else if !env.newOk then { ret := some false, trace := [] }
    else
      let pins := [Event.GetArrayElements Arg.value (GetArrayElements value).isSome,
        Event.GetArrayElements Arg.address (GetArrayElements address).isSome]
      match GetArrayElements address, GetArrayElements value with
      | none, _ => { ret := some false, trace := pins ++ [Event.jniThrowIOException] }
      | some _, none => { ret := some false, trace := pins ++ [Event.jniThrowIOException] }
      | some addr, some attr =>
        let pAttrs := (List.range numvalue.toNat).map (fun (i : Nat) => uint8_t (rd attr (i : Int)))
        let c := HalCall.list_player_app_value_rsp addr numvalue pAttrs
        let status := hal.call c
        { ret := some (decide (status = k.BT_STATUS_SUCCESS)),
          trace := pins ++ [Event.hal c, Event.ReleaseArrayElements Arg.value,
            Event.ReleaseArrayElements Arg.address] }

/-- The loop `for (i = 0; i < numattr; i += 2)` shared by the two natives below,
together with the assignment of `num_attr`: iteration `j` (with `i = 2 * j`) writes
`attr_ids[j] = attr[i]` and `attr_values[j] = attr[i + 1]`, and there are
`(numattr + 1) / 2` iterations when `numattr` is positive.  Division in C truncates. -/
def fillPlayerSettings (numattr : Int) (attr : List Int) : btrc_player_settings_t :=
  let iterations := ((numattr + 1) / 2).toNat
  { num_attr := Int.tdiv numattr 2,
    attr_ids := (List.range iterations).map (fun (j : Nat) => rd attr (2 * (j : Int))),
    attr_values := (List.range iterations).map (fun (j : Nat) => rd attr (2 * (j : Int) + 1)) }

/-- Source function `SendCurrentPlayerValueRspNative`. -/
def SendCurrentPlayerValueRspNative (k : BtRc) (env : JNIEnv)
    (sBluetoothAvrcpInterface : Option btrc_interface_t)
    (numattr : Int) (value : jarray) (address : jarray) : Result :=
  match sBluetoothAvrcpInterface with
  | none => { ret := some false, trace := [] }
  | some hal =>
    match GetArrayElements address with
    | none =>
      { ret := some false,
        trace := [Event.GetArrayElements Arg.address false, Event.jniThrowIOException] }
    | some addr =>
      if numattr > k.BTRC_MAX_APP_ATTR_SIZE ∨ numattr = 0 then
        { ret := some false, trace := [Event.GetArrayElements Arg.address true] }
      else if !env.newOk then
        { ret := some false, trace := [Event.GetArrayElements Arg.address true] }
      else
        match GetArrayElements value with
        | none =>
          { ret := some false,
            trace := [Event.GetArrayElements Arg.address true,
              Event.GetArrayElements Arg.value false, Event.jniThrowIOException] }
        | some attr =>
          let c := HalCall.get_player_app_value_rsp addr (fillPlayerSettings numattr attr)
          let status := hal.call c
          { ret := some (decide (status = k.BT_STATUS_SUCCESS)),
            trace := [Event.GetArrayElements Arg.address true,
              Event.GetArrayElements Arg.value true, Event.hal c,
              Event.ReleaseArrayElements Arg.value,
              Event.ReleaseArrayElements Arg.address] }

/-- Source function `registerNotificationPlayerAppRspNative`. -/
def registerNotificationPlayerAppRspNative (k : BtRc) (env : JNIEnv)
    (sBluetoothAvrcpInterface : Option btrc_interface_t)
    (type : Int) (numattr : Int) (value : jarray) (address : jarray) : Result :=
  match sBluetoothAvrcpInterface with
  | none => { ret := some false, trace := [] }
  | some hal =>
    match GetArrayElements address with
    | none =>
      { ret := some false,
        trace := [Event.GetArrayElements Arg.address false, Event.jniThrowIOException] }
    | some addr =>
      if numattr > k.BTRC_MAX_APP_ATTR_SIZE ∨ numattr = 0 then
        { ret := some false, trace := [Event.GetArrayElements Arg.address true] }
      else if !env.newOk then
        { ret := some false, trace := [Event.GetArrayElements Arg.address true] }
      else
        match GetArrayElements value with
        | none =>
          { ret := some false,
            trace := [Event.GetArrayElements Arg.address true,
              Event.GetArrayElements Arg.value false, Event.jniThrowIOException] }
        | some attr =>
          let param := btrc_register_notification_t.player_setting
            (fillPlayerSettings numattr attr)
          let c := HalCall.register_notification_rsp k.BTRC_EVT_APP_SETTINGS_CHANGED type
            param addr
          let status := hal.call c
          { ret := some (decide (status = k.BT_STATUS_SUCCESS)),
            trace := [Event.GetArrayElements Arg.address true,
              Event.GetArrayElements Arg.value true, Event.hal c,
              Event.ReleaseArrayElements Arg.value,
              Event.ReleaseArrayElements Arg.address] }

/-! ## Natives that copy strings -/

/-- Library call `strlcpy(dst, src, size)`: the bytes it writes to `dst`. -/
def strlcpy (src : List Nat) (size : Nat) : List Nat :=
  if size = 0 then [] else (src.takeWhile (fun b => b != 0)).take (size - 1) ++ [0]

/-- The loop of `sendSettingsTextRspNative` and of `sendValueTextRspNative`, run for
`n` more rounds from index `i`: it fetches `textArray[i]`, leaves the loop when
`GetStringUTFChars` yields `NULL`, and otherwise writes `pAttrs[i]`.  It yields the
entries written and the JNI calls made. -/
def settingTextLoop (k : BtRc) (arr : List Int) (textArray : jobjectArray) :
    Nat → Int → List btrc_player_setting_text_t × List Event
  | 0, _ => ([], [])
  | n + 1, i =>
    match GetStringUTFChars (GetObjectArrayElement textArray i) with
    | none =>
      ([], [Event.GetObjectArrayElement Arg.textArray i, Event.GetStringUTFChars false])
    | some textStr =>
      let rest := settingTextLoop k arr textArray n (i + 1)
      ({ id := rd arr i, text := strlcpy textStr (size_t k.BTRC_MAX_ATTR_STR_LEN) } :: rest.1,
        [Event.GetObjectArrayElement Arg.textArray i, Event.GetStringUTFChars true,
          Event.ReleaseStringUTFChars] ++ rest.2)

/-- Source function `sendSettingsTextRspNative`.  The HAL is called also when the loop was
left early. -/
def sendSettingsTextRspNative (k : BtRc) (env : JNIEnv)
    (sBluetoothAvrcpInterface : Option btrc_interface_t)
    (num_attr : Int) (attr : jarray) (textArray : jobjectArray)
    (address : jarray) : Result :=
  match sBluetoothAvrcpInterface with
  | none => { ret := some false, trace := [] }
  | some hal =>
    match GetArrayElements address with
    | none =>
      { ret := some false,
        trace := [Event.GetArrayElements Arg.address false, Event.jniThrowIOException] }
    | some addr =>
      if num_attr > k.BTRC_MAX_ELEM_ATTR_SIZE then
        { ret := some false, trace := [Event.GetArrayElements Arg.address true] }
      else if !env.newOk then
        { ret := some false, trace := [Event.GetArrayElements Arg.address true] }
      else
        match GetArrayElements attr with
        | none =>
          { ret := some false,
            trace := [Event.GetArrayElements Arg.address true,
              Event.GetArrayElements Arg.attr false, Event.jniThrowIOException] }
        | some arr =>
          let filled := settingTextLoop k arr textArray num_attr.toNat 0
          let c := HalCall.get_player_app_attr_text_rsp addr num_attr filled.1
          let status := hal.call c
          { ret := some (decide (status = k.BT_STATUS_SUCCESS)),
            trace := [Event.GetArrayElements Arg.address true,
              Event.GetArrayElements Arg.attr true] ++ filled.2 ++
              [Event.hal c, Event.ReleaseArrayElements Arg.attr,
               Event.ReleaseArrayElements Arg.address] }

/-- Source function `sendValueTextRspNative`.  The HAL is called also when the loop was
left early. -/
def sendValueTextRspNative (k : BtRc) (env : JNIEnv)
    (sBluetoothAvrcpInterface : Option btrc_interface_t)
    (num_attr : Int) (attr : jarray) (textArray : jobjectArray)
    (address : jarray) : Result :=
  match sBluetoothAvrcpInterface with
  | none => { ret := some false, trace := [] }
  | some hal =>
    match GetArrayElements address with
    | none =>
      { ret := some false,
        trace := [Event.GetArrayElements Arg.address false, Event.jniThrowIOException] }
    | some addr =>
      if num_attr > k.BTRC_MAX_ELEM_ATTR_SIZE then
        { ret := some false, trace := [Event.GetArrayElements Arg.address true] }
      else if !env.newOk then
        { ret := some false, trace := [Event.GetArrayElements Arg.address true] }
      else
        match GetArrayElements attr with
        | none =>
          { ret := some false,
            trace := [Event.GetArrayElements Arg.address true,
              Event.GetArrayElements Arg.attr false, Event.jniThrowIOException] }
        | some arr =>
          let filled := settingTextLoop k arr textArray num_attr.toNat 0
          let c := HalCall.get_player_app_value_text_rsp addr num_attr filled.1
          let status := hal.call c
          { ret := some (decide (status = k.BT_STATUS_SUCCESS)),
            trace := [Event.GetArrayElements Arg.address true,
              Event.GetArrayElements Arg.attr true] ++ filled.2 ++
              [Event.hal c, Event.ReleaseArrayElements Arg.attr,
               Event.ReleaseArrayElements Arg.address] }

/-- Outcome of an attribute copy loop.  `done` is `some true` when the loop ran to
its bound, `some false` when it was left by `break`, and `none` when `copy_jstring`
did not return. -/
structure AttrLoop where
  done : Option Bool
  attrs : List btrc_element_attr_val_t
  trace : List Event

/-- The loop that `getElementAttrRspNative`, `getItemAttrRspNative` and
`copy_item_attributes` share, run for `n` more rounds from counter `cnt`:
`p[cnt].attr_id = ids[base + cnt]`, then the string at index `base + cnt` of the
array parameter `a` is copied into `p[cnt].text` with `copy_jstring`, and the loop is
left when that fails. -/
def attrLoop (k : BtRc) (env : JNIEnv) (ids : List Int) (a : Arg) (arr : jobjectArray)
    (base : Int) : Nat → Int → AttrLoop
  | 0, _ => { done := some true, attrs := [], trace := [] }
  | n + 1, cnt =>
    let text := GetObjectArrayElement arr (base + cnt)
    let copied := copy_jstring (some (uninitBytes k.BTRC_MAX_ATTR_STR_LEN))
      k.BTRC_MAX_ATTR_STR_LEN text (some env)
    let fetch := Event.GetObjectArrayElement a (base + cnt) :: copied.trace
    match copied.ret with
    | none =>
      { done := none, attrs := [{ attr_id := rd ids (base + cnt), text := none }],
        trace := fetch }
    | some false =>
      { done := some false, attrs := [{ attr_id := rd ids (base + cnt), text := none }],
        trace := fetch }
    | some true =>
      let rest := attrLoop k env ids a arr base n (cnt + 1)
      { done := rest.done,
        attrs := { attr_id := rd ids (base + cnt), text := copied.str } :: rest.attrs,
        trace := fetch ++ rest.trace }

/-- Source function `getElementAttrRspNative`.  `numAttr` has no lower bound: for a
negative `numAttr` the expression `new btrc_element_attr_val_t[numAttr]` obtains no
storage and control does not come back.  When a string cannot be copied the native
returns without releasing `address`. -/
def getElementAttrRspNative (k : BtRc) (env : JNIEnv)
    (sBluetoothAvrcpInterface : Option btrc_interface_t)
    (address : jarray) (numAttr : Int) (attrIds : jarray)
    (textArray : jobjectArray) : Result :=
  match sBluetoothAvrcpInterface with
  | none => { ret := some false, trace := [] }
  | some hal =>
    if numAttr > k.BTRC_MAX_ELEM_ATTR_SIZE then { ret := some false, trace := [] }
    else
      match GetArrayElements address with
      | none =>
        { ret := some false,
          trace := [Event.GetArrayElements Arg.address false, Event.jniThrowIOException] }
      | some addr =>
        if numAttr < 0 then { ret := none, trace := [Event.GetArrayElements Arg.address true] }
        else if !env.newOk then
          { ret := some false,
            trace := [Event.GetArrayElements Arg.address true,
              Event.ReleaseArrayElements Arg.address] }
        else
          match GetArrayElements attrIds with
          | none =>
            { ret := some false,
              trace := [Event.GetArrayElements Arg.address true,
                Event.GetArrayElements Arg.attrIds false, Event.jniThrowIOException,
                Event.ReleaseArrayElements Arg.address] }
          | some attr =>
            let pins := [Event.GetArrayElements Arg.address true,
              Event.GetArrayElements Arg.attrIds true]
            let filled := attrLoop k env attr Arg.textArray textArray 0 numAttr.toNat 0
            match filled.done with
            | none => { ret := none, trace := pins ++ filled.trace }
            | some false =>
              { ret := some false,
                trace := pins ++ filled.trace ++ [Event.ReleaseArrayElements Arg.attrIds] }
            | some true =>
              let c := HalCall.get_element_attr_rsp addr numAttr filled.attrs
              let status := hal.call c
              { ret := some (decide (status = k.BT_STATUS_SUCCESS)),
                trace := pins ++ filled.trace ++
                  [Event.hal c, Event.ReleaseArrayElements Arg.attrIds,
                   Event.ReleaseArrayElements Arg.address] }

/-- Source function `getItemAttrRspNative`.  A failed string copy turns the status
into `BTRC_STS_INTERNAL_ERR` and the HAL is still called. -/
def getItemAttrRspNative (k : BtRc) (env : JNIEnv)
    (sBluetoothAvrcpInterface : Option btrc_interface_t)
    (address : jarray) (rspStatus : Int) (numAttr : Int) (attrIds : jarray)
    (textArray : jobjectArray) : Result :=
  match sBluetoothAvrcpInterface with
  | none => { ret := some false, trace := [] }
  | some hal =>
    match GetArrayElements address with
    | none =>
      { ret := some false,
        trace := [Event.GetArrayElements Arg.address false, Event.jniThrowIOException] }
    | some addr =>
      if numAttr > k.BTRC_MAX_ELEM_ATTR_SIZE then
        { ret := some false, trace := [Event.GetArrayElements Arg.address true] }
      else if !env.newOk then
        { ret := some false,
          trace := [Event.GetArrayElements Arg.address true,
            Event.ReleaseArrayElements Arg.address] }
      else
        match attrIds with
        | none =>
          let c := HalCall.get_item_attr_rsp addr rspStatus numAttr []
          let status := hal.call c
          { ret := some (decide (status = k.BT_STATUS_SUCCESS)),
            trace := [Event.GetArrayElements Arg.address true, Event.hal c,
              Event.ReleaseArrayElements Arg.address] }
        | some _ =>
          match GetArrayElements attrIds with
          | none =>
            { ret := some false,
              trace := [Event.GetArrayElements Arg.address true,
                Event.GetArrayElements Arg.attrIds false, Event.jniThrowIOException,
                Event.ReleaseArrayElements Arg.address] }
          | some attr =>
            let pins := [Event.GetArrayElements Arg.address true,
              Event.GetArrayElements Arg.attrIds true]
            let filled := attrLoop k env attr Arg.textArray textArray 0 numAttr.toNat 0
            match filled.done with
            | none => { ret := none, trace := pins ++ filled.trace }
            | some completed =>
              let rspStatus := if completed then rspStatus else k.BTRC_STS_INTERNAL_ERR
              let c := HalCall.get_item_attr_rsp addr rspStatus numAttr filled.attrs
              let status := hal.call c
              { ret := some (decide (status = k.BT_STATUS_SUCCESS)),
                trace := pins ++ filled.trace ++
                  [Event.hal c, Event.ReleaseArrayElements Arg.attrIds,
                   Event.ReleaseArrayElements Arg.address] }

/-! ## Folder item lists -/

/-- Outcome of `copy_item_attributes`: the returned `bool` (`none` when it does not
return), the media item afterwards, and the JNI calls made. -/
structure ItemAttrResult where
  ret : Option Bool
  pitem : btrc_item_media_t
  trace : List Event

/-- Source function `copy_item_attributes`. -/
def copy_item_attributes (k : BtRc) (env : JNIEnv) (pitem : btrc_item_media_t)
    (p_attributesIds : List Int) (attributesArray : jobjectArray)
    (_item_idx : Int) (attribCopiedIndex : Int) : ItemAttrResult :=
  if 0 < pitem.num_attrs then
    if !env.newOk then
      { ret := some false, pitem := { pitem with p_attrs := none }, trace := [] }
    else
      let filled := attrLoop k env p_attributesIds Arg.attributesArray attributesArray
        attribCopiedIndex pitem.num_attrs.toNat 0
      { ret := filled.done, pitem := { pitem with p_attrs := some filled.attrs },
        trace := filled.trace }
  else { ret := some true, pitem := pitem, trace := [] }

/-- Outcome of the item loop of `getFolderItemsRspNative`.  `done` is `some true`
when the loop ran to its bound, `some false` when it was left by `break` (each
`break` is preceded by `rspStatus = BTRC_STS_INTERNAL_ERR`), and `none` when a
string copy did not return. -/
structure ItemLoop where
  done : Option Bool
  items : List btrc_folder_items_t
  trace : List Event

/-- The bytes `p_item_uid + item_idx * BTRC_UID_SIZE` up to `BTRC_UID_SIZE` that
`memcpy` puts into the `uid` of item `item_idx`. -/
def uidSlice (k : BtRc) (p_item_uid : List Int) (item_idx : Int) : List Int :=
  (List.range k.BTRC_UID_SIZE.toNat).map
    (fun (j : Nat) => rd p_item_uid (item_idx * k.BTRC_UID_SIZE + (j : Int)))

/-- The expression `(p_num_attrs != NULL) ? p_num_attrs[item_idx] : 0`. -/
def numAttrsOf (p_num_attrs : Option (List Int)) (item_idx : Int) : Int :=
  match p_num_attrs with
  | some p => rd p item_idx
  | none => 0

/-- A name buffer of an item that `memset` has cleared. -/
def zeroName (k : BtRc) : List Nat := List.replicate k.BTRC_MAX_ATTR_STR_LEN.toNat 0

/-- The item loop of `getFolderItemsRspNative`, run for `n` more rounds from
`item_idx` with the current `attribCopiedIndex`.  The items it yields are those from
`item_idx` on; the ones the loop does not reach stay as `memset` left them. -/
def folderItemsLoop (k : BtRc) (env : JNIEnv)
    (p_folder_types p_playable p_item_types p_item_uid : List Int)
    (displayNameArray : jobjectArray) (p_num_attrs p_attributesIds : Option (List Int))
    (attributesArray : jobjectArray) : Nat → Int → Int → ItemLoop
  | 0, _, _ => { done := some true, items := [], trace := [] }
  | n + 1, item_idx, attribCopiedIndex =>
    let text := GetObjectArrayElement displayNameArray item_idx
    let copied := copy_jstring (some (zeroName k)) k.BTRC_MAX_ATTR_STR_LEN text (some env)
    let fetch := Event.GetObjectArrayElement Arg.displayNameArray item_idx :: copied.trace
    let untouched := List.replicate n btrc_folder_items_t.zeroed
    if k.BTRC_ITEM_FOLDER = rd p_item_types item_idx then
      let pitem := btrc_folder_items_t.folder (uint8_t k.BTRC_ITEM_FOLDER)
        { uid := uidSlice k p_item_uid item_idx,
          type := rd p_folder_types item_idx,
          playable := rd p_playable item_idx,
          charset_id := k.BTRC_CHARSET_ID_UTF8,
          name := copied.str.getD (zeroName k) }
      match copied.ret with
      | none => { done := none, items := pitem :: untouched, trace := fetch }
      | some false => { done := some false, items := pitem :: untouched, trace := fetch }
      | some true =>
        let rest := folderItemsLoop k env p_folder_types p_playable p_item_types p_item_uid
          displayNameArray p_num_attrs p_attributesIds attributesArray n (item_idx + 1)
          attribCopiedIndex
        { done := rest.done, items := pitem :: rest.items, trace := fetch ++ rest.trace }
    else if k.BTRC_ITEM_MEDIA = rd p_item_types item_idx then
      let media : btrc_item_media_t :=
        { uid := uidSlice k p_item_uid item_idx,
          type := k.BTRC_MEDIA_TYPE_AUDIO,
          charset_id := k.BTRC_CHARSET_ID_UTF8,
          name := copied.str.getD (zeroName k),
          num_attrs := numAttrsOf p_num_attrs item_idx,
          p_attrs := none }
      let pitem := btrc_folder_items_t.media (uint8_t k.BTRC_ITEM_MEDIA) media
      match copied.ret with
      | none => { done := none, items := pitem :: untouched, trace := fetch }
      | some false => { done := some false, items := pitem :: untouched, trace := fetch }
      | some true =>
        match p_attributesIds with
        | none => { done := some false, items := pitem :: untouched, trace := fetch }
        | some ids =>
          let attrs := copy_item_attributes k env media ids attributesArray item_idx
            attribCopiedIndex
          let pitem := btrc_folder_items_t.media (uint8_t k.BTRC_ITEM_MEDIA) attrs.pitem
          match attrs.ret with
          | none =>
            { done := none, items := pitem :: untouched, trace := fetch ++ attrs.trace }
          | some false =>
            { done := some false, items := pitem :: untouched,
              trace := fetch ++ attrs.trace }
          | some true =>
            let rest := folderItemsLoop k env p_folder_types p_playable p_item_types
              p_item_uid displayNameArray p_num_attrs p_attributesIds attributesArray n
              (item_idx + 1) (attribCopiedIndex + attrs.pitem.num_attrs)
            { done := rest.done, items := pitem :: rest.items,
              trace := fetch ++ attrs.trace ++ rest.trace }
    else
      let rest := folderItemsLoop k env p_folder_types p_playable p_item_types p_item_uid
        displayNameArray p_num_attrs p_attributesIds attributesArray n (item_idx + 1)
        attribCopiedIndex
      { done := rest.done, items := btrc_folder_items_t.zeroed :: rest.items,
        trace := rest.trace }

/-- The statement `if (arr != NULL) p = env->Get<T>ArrayElements(arr, NULL);`: the
pointer obtained (`NULL` when the call is skipped) and the JNI call made. -/
def pinIfPresent (a : Arg) (arr : jarray) : Option (List Int) × List Event :=
  match arr with
  | none => (none, [])
  | some _ =>
    (GetArrayElements arr, [Event.GetArrayElements a (GetArrayElements arr).isSome])

/-- The statement `if (p) env->Release<T>ArrayElements(arr, p, 0);`. -/
def releaseIfPinned (a : Arg) (p : Option (List Int)) : List Event :=
  if p.isSome then [Event.ReleaseArrayElements a] else []

/-- Source function `cleanup_items(p_items, numItems)`, as far as it bears on control:
whether the walk over the items returns.  It reads `item_type` of every item, and
`media.p_attrs` of an item whose type is `BTRC_ITEM_MEDIA`.  For a cleared item and for
an item written as a media item these are defined (the attribute pointer is `NULL` or
the result of `new[]`).  For an item that was never written they are indeterminate,
and so is the attribute pointer of an item that was written as a folder or player
item and whose type equals `BTRC_ITEM_MEDIA`; the walk has no defined outcome there
(`false`).  The storage it frees leaves no event. -/
def cleanup_items (k : BtRc) : List btrc_folder_items_t → Bool
  | [] => true
  | btrc_folder_items_t.uninit :: _ => false
  | btrc_folder_items_t.zeroed :: rest => cleanup_items k rest
  | btrc_folder_items_t.media _ _ :: rest => cleanup_items k rest
  | btrc_folder_items_t.folder item_type _ :: rest =>
    if k.BTRC_ITEM_MEDIA = item_type then false else cleanup_items k rest
  | btrc_folder_items_t.player none _ :: _ => false
  | btrc_folder_items_t.player (some item_type) _ :: rest =>
    if k.BTRC_ITEM_MEDIA = item_type then false else cleanup_items k rest

/-- Source function `getFolderItemsRspNative`.  For a negative `numItems` the
expression `new btrc_folder_items_t[numItems]` obtains no storage and control does not
come back.  `afterCall` stands for the statements from the HAL call to the `return`,
which all paths share: after the call `cleanup_items` walks the items whenever `new[]`
yielded storage, also on the path on which they were never cleared; where that walk
has no defined outcome the native has no return value and the releases after it are
not recorded.  The `delete[]` calls leave no event. -/
def getFolderItemsRspNative (k : BtRc) (env : JNIEnv)
    (sBluetoothAvrcpInterface : Option btrc_interface_t)
    (address : jarray) (rspStatus : Int) (uidCounter : Int) (scope : Int) (numItems : Int)
    (folderType playable itemType itemUidArray : jarray) (displayNameArray : jobjectArray)
    (numAttrs attributesIds : jarray) (attributesArray : jobjectArray) : Result :=
  match sBluetoothAvrcpInterface with
  | none => { ret := some false, trace := [] }
  | some hal =>
    match GetArrayElements address with
    | none =>
      { ret := some false,
        trace := [Event.GetArrayElements Arg.address false, Event.jniThrowIOException] }
    | some addr =>
      if rspStatus = k.BTRC_STS_NO_ERROR then
        let p_folder_types := pinIfPresent Arg.folderType folderType
        let p_playable := pinIfPresent Arg.playable playable
        let p_item_types := pinIfPresent Arg.itemType itemType
        let p_num_attrs := pinIfPresent Arg.numAttrs numAttrs
        let p_attributesIds := pinIfPresent Arg.attributesIds attributesIds
        let p_item_uid := pinIfPresent Arg.itemUidArray itemUidArray
        let pins := Event.GetArrayElements Arg.address true :: (p_folder_types.2 ++
          p_playable.2 ++ p_item_types.2 ++ p_num_attrs.2 ++ p_attributesIds.2 ++
          p_item_uid.2)
        let releases := releaseIfPinned Arg.folderType p_folder_types.1 ++
          releaseIfPinned Arg.playable p_playable.1 ++
          releaseIfPinned Arg.itemType p_item_types.1 ++
          releaseIfPinned Arg.numAttrs p_num_attrs.1 ++
          releaseIfPinned Arg.attributesIds p_attributesIds.1 ++
          releaseIfPinned Arg.itemUidArray p_item_uid.1 ++
          [Event.ReleaseArrayElements Arg.address]
        if numItems < 0 then { ret := none, trace := pins }
        else
        let p_items : Option (List btrc_folder_items_t) :=
          if env.newOk then some (List.replicate numItems.toNat btrc_folder_items_t.uninit)
          else none
        let afterCall (c : HalCall) (before : List Event)
            (items : Option (List btrc_folder_items_t)) : Result :=
          if (items.map (cleanup_items k)).getD true then
            { ret := some (decide (hal.call c = k.BT_STATUS_SUCCESS)),
              trace := before ++ [Event.hal c] ++ releases }
          else { ret := none, trace := before ++ [Event.hal c] }
        let failed : Result :=
          afterCall (HalCall.get_folder_items_list_rsp addr k.BTRC_STS_INTERNAL_ERR uidCounter
            numItems p_items) pins p_items
        match p_items, p_folder_types.1, p_playable.1, p_item_types.1, p_item_uid.1 with
        | some _, some folder_types, some playables, some item_types, some item_uid =>
          if ((numAttrs.isSome && p_num_attrs.1.isSome) ||
               (!numAttrs.isSome && !p_num_attrs.1.isSome)) &&
             ((attributesIds.isSome && p_attributesIds.1.isSome) ||
               (!attributesIds.isSome && !p_attributesIds.1.isSome)) then
            if scope = k.BTRC_SCOPE_FILE_SYSTEM ∨ scope = k.BTRC_SCOPE_SEARCH ∨
                scope = k.BTRC_SCOPE_NOW_PLAYING then
              let filled := folderItemsLoop k env folder_types playables item_types item_uid
                displayNameArray p_num_attrs.1 p_attributesIds.1 attributesArray
                numItems.toNat 0 0
              match filled.done with
              | none => { ret := none, trace := pins ++ filled.trace }
              | some completed =>
                let rspStatus := if completed then rspStatus else k.BTRC_STS_INTERNAL_ERR
                afterCall (HalCall.get_folder_items_list_rsp addr rspStatus uidCounter numItems
                  (some filled.items)) (pins ++ filled.trace) (some filled.items)
            else
              afterCall (HalCall.get_folder_items_list_rsp addr rspStatus uidCounter numItems
                (some (List.replicate numItems.toNat btrc_folder_items_t.zeroed))) pins
                (some (List.replicate numItems.toNat btrc_folder_items_t.zeroed))
          else failed
        | _, _, _, _, _ => failed
      else
        let c := HalCall.get_folder_items_list_rsp addr rspStatus uidCounter numItems none
        { ret := some (decide (hal.call c = k.BT_STATUS_SUCCESS)),
          trace := [Event.GetArrayElements Arg.address true, Event.hal c,
            Event.ReleaseArrayElements Arg.address] }

/-- The player loop of `mediaPlayerListRspNative`, run for `n` more rounds from
`itemIdx`.  Only item `0` has its outer `item_type` assigned (before the loop); the
items the loop does not reach are never written. -/
def playerItemsLoop (k : BtRc) (env : JNIEnv) (itemType : Int)
    (p_playerIds p_playerTypes p_playerSubTypes p_PlayStatusValues
      p_FeatBitMaskValues : List Int) (textArray : jobjectArray) : Nat → Int → ItemLoop
  | 0, _ => { done := some true, items := [], trace := [] }
  | n + 1, itemIdx =>
    let text := GetObjectArrayElement textArray itemIdx
    let copied := copy_jstring (some (uninitBytes k.BTRC_MAX_ATTR_STR_LEN))
      k.BTRC_MAX_ATTR_STR_LEN text (some env)
    let fetch := Event.GetObjectArrayElement Arg.textArray itemIdx :: copied.trace
    let item_type := if itemIdx = 0 then some (uint8_t itemType) else none
    let player : btrc_item_player_t :=
      { player_id := rd p_playerIds itemIdx,
        major_type := rd p_playerTypes itemIdx,
        sub_type := rd p_playerSubTypes itemIdx,
        play_status := rd p_PlayStatusValues itemIdx,
        charset_id := k.BTRC_CHARSET_ID_UTF8,
        name := none,
        features := none }
    let unwritten := List.replicate n btrc_folder_items_t.uninit
    match copied.ret with
    | none =>
      { done := none, items := btrc_folder_items_t.player item_type player :: unwritten,
        trace := fetch }
    | some false =>
      { done := some false,
        items := btrc_folder_items_t.player item_type player :: unwritten, trace := fetch }
    | some true =>
      let features := (List.range 16).map
        (fun (InnCnt : Nat) =>
          uint8_t (rd p_FeatBitMaskValues (itemIdx * 16 + (InnCnt : Int))))
      let rest := playerItemsLoop k env itemType p_playerIds p_playerTypes p_playerSubTypes
        p_PlayStatusValues p_FeatBitMaskValues textArray n (itemIdx + 1)
      { done := rest.done,
        items := btrc_folder_items_t.player item_type
          { player with name := copied.str, features := some features } :: rest.items,
        trace := fetch ++ rest.trace }

/-- Source function `mediaPlayerListRspNative`.  `playerIds` is not released after
the HAL call, and `address` is not released on the allocation-failure return. -/
def mediaPlayerListRspNative (k : BtRc) (env : JNIEnv)
    (sBluetoothAvrcpInterface : Option btrc_interface_t)
    (address : jarray) (rspStatus : Int) (uidCounter : Int) (itemType : Int)
    (numItems : Int) (playerIds playerTypes playerSubtypes playStatusValues
      featureBitmask : jarray) (textArray : jobjectArray) : Result :=
  match sBluetoothAvrcpInterface with
  | none => { ret := some false, trace := [] }
  | some hal =>
    match GetArrayElements address with
    | none =>
      { ret := some false,
        trace := [Event.GetArrayElements Arg.address false, Event.jniThrowIOException] }
    | some addr =>
      if rspStatus = k.BTRC_STS_NO_ERROR then
        let p_playerIds := GetArrayElements playerIds
        let p_playerTypes := GetArrayElements playerTypes
        let p_playerSubTypes := GetArrayElements playerSubtypes
        let p_PlayStatusValues := GetArrayElements playStatusValues
        let p_FeatBitMaskValues := GetArrayElements featureBitmask
        let pins := [Event.GetArrayElements Arg.address true,
          Event.GetArrayElements Arg.playerIds p_playerIds.isSome,
          Event.GetArrayElements Arg.playerTypes p_playerTypes.isSome,
          Event.GetArrayElements Arg.playerSubtypes p_playerSubTypes.isSome,
          Event.GetArrayElements Arg.playStatusValues p_PlayStatusValues.isSome,
          Event.GetArrayElements Arg.featureBitmask p_FeatBitMaskValues.isSome]
        match p_playerIds, p_playerTypes, p_playerSubTypes, p_PlayStatusValues,
          p_FeatBitMaskValues, env.newOk with
        | some ids, some types, some subTypes, some playStatus, some featBits, true =>
          let filled := playerItemsLoop k env itemType ids types subTypes playStatus featBits
            textArray numItems.toNat 0
          match filled.done with
          | none => { ret := none, trace := pins ++ filled.trace }
          | some completed =>
            let rspStatus := if completed then rspStatus else k.BTRC_STS_INTERNAL_ERR
            let c := HalCall.get_folder_items_list_rsp addr rspStatus uidCounter numItems
              (some filled.items)
            { ret := some (decide (hal.call c = k.BT_STATUS_SUCCESS)),
              trace := pins ++ filled.trace ++
                [Event.hal c, Event.ReleaseArrayElements Arg.playerTypes,
                 Event.ReleaseArrayElements Arg.playerSubtypes,
                 Event.ReleaseArrayElements Arg.playStatusValues,
                 Event.ReleaseArrayElements Arg.featureBitmask,
                 Event.ReleaseArrayElements Arg.address] }
        | _, _, _, _, _, _ =>
          { ret := some false,
            trace := pins ++ releaseIfPinned Arg.playerIds p_playerIds ++
              releaseIfPinned Arg.playerTypes p_playerTypes ++
              releaseIfPinned Arg.playerSubtypes p_playerSubTypes ++
              releaseIfPinned Arg.playStatusValues p_PlayStatusValues ++
              releaseIfPinned Arg.featureBitmask p_FeatBitMaskValues ++
              [Event.jniThrowIOException] }
      else
        let c := HalCall.get_folder_items_list_rsp addr rspStatus uidCounter numItems none
        { ret := some (decide (hal.call c = k.BT_STATUS_SUCCESS)),
          trace := [Event.GetArrayElements Arg.address true, Event.hal c,
            Event.ReleaseArrayElements Arg.address] }

/-- Outcome of the folder-name loop of `setBrowsedPlayerRspNative`; `done` as in
`AttrLoop`. -/
structure FolderNameLoop where
  done : Option Bool
  folders : List btrc_br_folder_name_t
  trace : List Event

/-- The folder-name loop of `setBrowsedPlayerRspNative`, run for `n` more rounds from
`folder_idx`.  The destination is the `p_str` member of a freshly allocated element. -/
def folderNameLoop (k : BtRc) (env : JNIEnv) (textArray : jobjectArray) :
    Nat → Int → FolderNameLoop
  | 0, _ => { done := some true, folders := [], trace := [] }
  | n + 1, folder_idx =>
    let text := GetObjectArrayElement textArray folder_idx
    let copied := copy_jstring env.fresh_p_str k.BTRC_MAX_ATTR_STR_LEN text (some env)
    let fetch := Event.GetObjectArrayElement Arg.textArray folder_idx :: copied.trace
    match copied.ret with
    | none => { done := none, folders := [], trace := fetch }
    | some false => { done := some false, folders := [], trace := fetch }
    | some true =>
      let rest := folderNameLoop k env textArray n (folder_idx + 1)
      { done := rest.done,
        folders := { str_len := (strlen (copied.str.getD []) : Int), p_str := copied.str }
          :: rest.folders,
        trace := fetch ++ rest.trace }

/-- Source function `setBrowsedPlayerRspNative`.  The result of `new[]` is used
unchecked, so a `NULL` result is dereferenced. -/
def setBrowsedPlayerRspNative (k : BtRc) (env : JNIEnv)
    (sBluetoothAvrcpInterface : Option btrc_interface_t)
    (address : jarray) (rspStatus : Int) (depth : Int) (numItems : Int)
    (textArray : jobjectArray) : Result :=
  match sBluetoothAvrcpInterface with
  | none => { ret := some false, trace := [] }
  | some hal =>
    match GetArrayElements address with
    | none =>
      { ret := some false,
        trace := [Event.GetArrayElements Arg.address false, Event.jniThrowIOException] }
    | some addr =>
      if rspStatus = k.BTRC_STS_NO_ERROR ∧ depth > 0 then
        if !env.newOk then
          { ret := none, trace := [Event.GetArrayElements Arg.address true] }
        else
          let filled := folderNameLoop k env textArray depth.toNat 0
          match filled.done with
          | none =>
            { ret := none, trace := Event.GetArrayElements Arg.address true :: filled.trace }
          | some false =>
            { ret := some false,
              trace := Event.GetArrayElements Arg.address true :: filled.trace ++
                [Event.ReleaseArrayElements Arg.address] }
          | some true =>
            let c := HalCall.set_browsed_player_rsp addr rspStatus numItems
              (uint16_t k.BTRC_CHARSET_ID_UTF8) (uint8_t depth) (some filled.folders)
            { ret := some (decide (hal.call c = k.BT_STATUS_SUCCESS)),
              trace := Event.GetArrayElements Arg.address true :: filled.trace ++
                [Event.hal c, Event.ReleaseArrayElements Arg.address] }
      else
        let c := HalCall.set_browsed_player_rsp addr rspStatus numItems
          (uint16_t k.BTRC_CHARSET_ID_UTF8) (uint8_t depth) none
        { ret := some (decide (hal.call c = k.BT_STATUS_SUCCESS)),
          trace := [Event.GetArrayElements Arg.address true, Event.hal c,
            Event.ReleaseArrayElements Arg.address] }

/-! ## Initialisation and teardown -/

/-- HAL struct `bt_interface_t`, as far as the source uses it. -/
structure bt_interface_t where
  get_profile_interface : String → Option btrc_interface_t

/-- The two globals `sBluetoothAvrcpInterface` and `mCallbacksObj`; a global
reference is a `Nat` handle. -/
structure Globals where
  sBluetoothAvrcpInterface : Option btrc_interface_t
  mCallbacksObj : Option Nat

/-- Source function `initNative`, run under the exclusive lock: the globals
afterwards and the calls made.  `getBluetoothInterface` is the value
`getBluetoothInterface()` returns, `object` the calling Java object. -/
def initNative (k : BtRc) (env : JNIEnv) (getBluetoothInterface : Option bt_interface_t)
    (g : Globals) (object : Nat) (maxAvrcpConnections : Int) : Globals × List Event :=
  match getBluetoothInterface with
  | none => (g, [])
  | some btInf =>
    let cleaned :=
      (if g.sBluetoothAvrcpInterface.isSome then [Event.hal HalCall.cleanup] else []) ++
      (if g.mCallbacksObj.isSome then [Event.DeleteGlobalRef] else [])
    match btInf.get_profile_interface k.BT_PROFILE_AV_RC_ID with
    | none => ({ sBluetoothAvrcpInterface := none, mCallbacksObj := none }, cleaned)
    | some hal =>
      let c := HalCall.init maxAvrcpConnections
      let status := hal.call c
      if status ≠ k.BT_STATUS_SUCCESS then
        ({ sBluetoothAvrcpInterface := none, mCallbacksObj := none },
          cleaned ++ [Event.hal c])
      else
        ({ sBluetoothAvrcpInterface := some hal, mCallbacksObj := env.NewGlobalRef object },
          cleaned ++ [Event.hal c, Event.NewGlobalRef])

/-- Source function `cleanupNative`, run under the exclusive lock. -/
def cleanupNative (getBluetoothInterface : Option bt_interface_t) (g : Globals) :
    Globals × List Event :=
  match getBluetoothInterface with
  | none => (g, [])
  | some _ =>
    ({ sBluetoothAvrcpInterface := none, mCallbacksObj := none },
      (if g.sBluetoothAvrcpInterface.isSome then [Event.hal HalCall.cleanup] else []) ++
      (if g.mCallbacksObj.isSome then [Event.DeleteGlobalRef] else []))

/-! ## The table `sMethods` -/

/-- A call of one of the response natives registered in `sMethods` (every entry
except `classInitNative`, `initNative` and `cleanupNative`), with its Java arguments
in the order of the JNI signature. -/
inductive NativeCall
  | getPlayStatusRspNative (address : jarray) (playStatus songLen songPos : Int)
  | getElementAttrRspNative (address : jarray) (numAttr : Int) (attrIds : jarray)
      (textArray : jobjectArray)
  | getListPlayerappAttrRspNative (numAttr : Int) (attrIds : jarray) (address : jarray)
  | getPlayerAppValueRspNative (numvalue : Int) (value : jarray) (address : jarray)
  | SendCurrentPlayerValueRspNative (numattr : Int) (value : jarray) (address : jarray)
  | registerNotificationPlayerAppRspNative (type : Int) (numattr : Int) (value : jarray)
      (address : jarray)
  | SendSetPlayerAppRspNative (attr_status : Int) (address : jarray)
  | sendSettingsTextRspNative (num_attr : Int) (attr : jarray) (_length : Int)
      (textArray : jobjectArray) (address : jarray)
  | sendValueTextRspNative (num_attr : Int) (attr : jarray) (_length : Int)
      (textArray : jobjectArray) (address : jarray)
  | registerNotificationRspPlayStatusNative (type playStatus : Int) (address : jarray)
  | registerNotificationRspTrackChangeNative (type : Int) (track : jarray) (address : jarray)
  | registerNotificationRspPlayPosNative (type playPos : Int) (address : jarray)
  | setVolumeNative (volume : Int) (address : jarray)
  | setAddressedPlayerRspNative (address : jarray) (rspStatus : Int)
  | setBrowsedPlayerRspNative (address : jarray) (rspStatus : Int) (depth : Int)
      (numItems : Int) (textArray : jobjectArray)
  | mediaPlayerListRspNative (address : jarray) (rspStatus uidCounter itemType numItems : Int)
      (playerIds playerTypes playerSubtypes playStatusValues featureBitmask : jarray)
      (textArray : jobjectArray)
  | getFolderItemsRspNative (address : jarray) (rspStatus uidCounter scope numItems : Int)
      (folderType playable itemType itemUidArray : jarray) (displayNameArray : jobjectArray)
      (numAttrs attributesIds : jarray) (attributesArray : jobjectArray)
  | changePathRspNative (address : jarray) (rspStatus numItems : Int)
  | getItemAttrRspNative (address : jarray) (rspStatus : Int) (numAttr : Int)
      (attrIds : jarray) (textArray : jobjectArray)
  | playItemRspNative (address : jarray) (rspStatus : Int)
  | getTotalNumOfItemsRspNative (address : jarray) (rspStatus uidCounter numItems : Int)
  | searchRspNative (address : jarray) (rspStatus uidCounter numItems : Int)
  | addToNowPlayingRspNative (address : jarray) (rspStatus : Int)
  | registerNotificationRspAddrPlayerChangedNative (type playerId uidCounter : Int)
      (address : jarray)
  | registerNotificationRspAvalPlayerChangedNative (type : Int) (address : jarray)
  | registerNotificationRspUIDsChangedNative (type uidCounter : Int) (address : jarray)
  | registerNotificationRspNowPlayingChangedNative (type : Int) (address : jarray)
  | isDeviceActiveInHandOffNative (address : jarray)

/-- Dispatch of a `NativeCall` to the source function registered under that name. -/
def runNative (k : BtRc) (env : JNIEnv) (s : Option btrc_interface_t) :
    NativeCall → Result
  | NativeCall.getPlayStatusRspNative address playStatus songLen songPos =>
    Avrcp.getPlayStatusRspNative k s address playStatus songLen songPos
  | NativeCall.getElementAttrRspNative address numAttr attrIds textArray =>
    Avrcp.getElementAttrRspNative k env s address numAttr attrIds textArray
  | NativeCall.getListPlayerappAttrRspNative numAttr attrIds address =>
    Avrcp.getListPlayerappAttrRspNative k env s numAttr attrIds address
  | NativeCall.getPlayerAppValueRspNative numvalue value address =>
    Avrcp.getPlayerAppValueRspNative k env s numvalue value address
  | NativeCall.SendCurrentPlayerValueRspNative numattr value address =>
    Avrcp.SendCurrentPlayerValueRspNative k env s numattr value address
  | NativeCall.registerNotificationPlayerAppRspNative type numattr value address =>
    Avrcp.registerNotificationPlayerAppRspNative k env s type numattr value address
  | NativeCall.SendSetPlayerAppRspNative attr_status address =>
    Avrcp.SendSetPlayerAppRspNative k s attr_status address
  | NativeCall.sendSettingsTextRspNative num_attr attr _ textArray address =>
    Avrcp.sendSettingsTextRspNative k env s num_attr attr textArray address
  | NativeCall.sendValueTextRspNative num_attr attr _ textArray address =>
    Avrcp.sendValueTextRspNative k env s num_attr attr textArray address
  | NativeCall.registerNotificationRspPlayStatusNative type playStatus address =>
    Avrcp.registerNotificationRspPlayStatusNative k s type playStatus address
  | NativeCall.registerNotificationRspTrackChangeNative type track address =>
    Avrcp.registerNotificationRspTrackChangeNative k s type track address
  | NativeCall.registerNotificationRspPlayPosNative type playPos address =>
    Avrcp.registerNotificationRspPlayPosNative k s type playPos address
  | NativeCall.setVolumeNative volume address =>
    Avrcp.setVolumeNative k s volume address
  | NativeCall.setAddressedPlayerRspNative address rspStatus =>
    Avrcp.setAddressedPlayerRspNative k s address rspStatus
  | NativeCall.setBrowsedPlayerRspNative address rspStatus depth numItems textArray =>
    Avrcp.setBrowsedPlayerRspNative k env s address rspStatus depth numItems textArray
  | NativeCall.mediaPlayerListRspNative address rspStatus uidCounter itemType numItems playerIds
      playerTypes playerSubtypes playStatusValues featureBitmask textArray =>
    Avrcp.mediaPlayerListRspNative k env s address rspStatus uidCounter itemType numItems playerIds
      playerTypes playerSubtypes playStatusValues featureBitmask textArray
  | NativeCall.getFolderItemsRspNative address rspStatus uidCounter scope numItems folderType
      playable itemType itemUidArray displayNameArray numAttrs attributesIds attributesArray =>
    Avrcp.getFolderItemsRspNative k env s address rspStatus uidCounter scope numItems folderType
      playable itemType itemUidArray displayNameArray numAttrs attributesIds attributesArray
  | NativeCall.changePathRspNative address rspStatus numItems =>
    Avrcp.changePathRspNative k s address rspStatus numItems
  | NativeCall.getItemAttrRspNative address rspStatus numAttr attrIds textArray =>
    Avrcp.getItemAttrRspNative k env s address rspStatus numAttr attrIds textArray
  | NativeCall.playItemRspNative address rspStatus =>
    Avrcp.playItemRspNative k s address rspStatus
  | NativeCall.getTotalNumOfItemsRspNative address rspStatus uidCounter numItems =>
    Avrcp.getTotalNumOfItemsRspNative k s address rspStatus uidCounter numItems
  | NativeCall.searchRspNative address rspStatus uidCounter numItems =>
    Avrcp.searchRspNative k s address rspStatus uidCounter numItems
  | NativeCall.addToNowPlayingRspNative address rspStatus =>
    Avrcp.addToNowPlayingRspNative k s address rspStatus
  | NativeCall.registerNotificationRspAddrPlayerChangedNative type playerId uidCounter address =>
    Avrcp.registerNotificationRspAddrPlayerChangedNative k s type playerId uidCounter address
  | NativeCall.registerNotificationRspAvalPlayerChangedNative type address =>
    Avrcp.registerNotificationRspAvalPlayerChangedNative k s type address
  | NativeCall.registerNotificationRspUIDsChangedNative type uidCounter address =>
    Avrcp.registerNotificationRspUIDsChangedNative k s type uidCounter address
  | NativeCall.registerNotificationRspNowPlayingChangedNative type address =>
    Avrcp.registerNotificationRspNowPlayingChangedNative k s type address
  | NativeCall.isDeviceActiveInHandOffNative address =>
    Avrcp.isDeviceActiveInHandOffNative k s address

/-! ## Callbacks from the HAL

Each callback of `sBluetoothAvrcpCallbacks` yields the sequence of its steps: taking
and dropping the shared lock on `callbacks_mutex` (the `std::shared_lock` object
drops it at every return), the test of `mCallbacksObj`, the array allocations and
the call of the Java method.  A pointer argument is given by the elements it points
to; `Set<T>ArrayRegion` copies memory, so an element is the same number before and
after. -/

/-- The cached method ids of the Java class, under their names in the source. -/
inductive jmethodID
  | method_getRcFeatures | method_getPlayStatus | method_getElementAttr
  | method_registerNotification | method_volumeChangeCallback
  | method_handlePassthroughCmd | method_getFolderItemsCallback
  | method_setAddressedPlayerCallback | method_setBrowsedPlayerCallback
  | method_changePathCallback | method_searchCallback | method_playItemCallback
  | method_onListPlayerAttributeRequest | method_onListPlayerAttributeValues
  | method_onGetPlayerAttributeValues | method_setPlayerAppSetting
  | method_getplayerattribute_text | method_getplayervalue_text
  | method_getItemAttrCallback | method_addToPlayListCallback
  | method_getTotalNumOfItemsCallback | method_onConnectionStateChanged
deriving DecidableEq, Repr

/-- An argument handed to a Java method: a number (`jbyte`, `jint`, `jlong`,
`jboolean`) or a primitive array with its elements (`none` is the `NULL` reference). -/
inductive jvalue
  | num (v : Int)
  | array (elems : Option (List Int))
deriving DecidableEq, Repr

/-- One step of a callback. -/
inductive CallbackEvent
  /-- construction of `std::shared_lock<std::shared_timed_mutex> lock(callbacks_mutex)` -/
  | lock_shared
  /-- destruction of the lock object at a return -/
  | unlock_shared
  /-- the test `if (!mCallbacksObj)` -/
  | read_mCallbacksObj
  | NewByteArray (length : Int) (ok : Bool)
  | NewIntArray (length : Int) (ok : Bool)
  | CallVoidMethod (obj : Nat) (method : jmethodID) (args : List jvalue)
deriving DecidableEq, Repr

/-- The Java calls of a callback trace, in order. -/
def javaCalls : List CallbackEvent → List (jmethodID × List jvalue)
  | [] => []
  | CallbackEvent.CallVoidMethod _ m args :: es => (m, args) :: javaCalls es
  | _ :: es => javaCalls es

/-- The class `CallbackEnv` as far as the callbacks depend on it: whether the
environment is valid on the calling thread, and whether `NewByteArray` and
`NewIntArray` yield an array of the requested length. -/
structure CallbackEnv where
  valid : Bool
  NewByteArray : Int → Bool
  NewIntArray : Int → Bool

/-- Cast `(jbyte)x`. -/
def jbyte (x : Int) : Int := (x + 2 ^ 7) % 2 ^ 8 - 2 ^ 7

/-- Cast `(jint)x`. -/
def jint (x : Int) : Int := (x + 2 ^ 31) % 2 ^ 32 - 2 ^ 31

/-- Cast `(jboolean)b`. -/
def jboolean (b : Bool) : Int := if b then 1 else 0

/-- The elements of a Java array created with `New<T>Array(length)` after
`Set<T>ArrayRegion(array, 0, len, buf)`: the first `len` elements of `buf`, then
zeros.  When the region does not fit the call throws and the array stays zero. -/
def arrayRegion (length len : Int) (buf : List Int) : List Int :=
  if len < 0 ∨ length < len then List.replicate length.toNat 0
  else (List.range len.toNat).map (fun (i : Nat) => rd buf (i : Int)) ++
    List.replicate (length.toNat - len.toNat) 0

/-- An array allocation of a callback. -/
inductive NewArray
  | bytes (length : Int)
  | ints (length : Int)

/-- The allocations of a callback in program order, each followed by
`if (!array.get()) return;`, and then the call of the Java method on `obj`. -/
def allocateThenCall (sCallbackEnv : CallbackEnv) (obj : Nat) :
    List NewArray → jmethodID → List jvalue → List CallbackEvent
  | [], method, args => [CallbackEvent.CallVoidMethod obj method args]
  | NewArray.bytes n :: rest, method, args =>
    if sCallbackEnv.NewByteArray n then
      CallbackEvent.NewByteArray n true :: allocateThenCall sCallbackEnv obj rest method args
    else [CallbackEvent.NewByteArray n false]
  | NewArray.ints n :: rest, method, args =>
    if sCallbackEnv.NewIntArray n then
      CallbackEvent.NewIntArray n true :: allocateThenCall sCallbackEnv obj rest method args
    else [CallbackEvent.NewIntArray n false]

/-- The frame all callbacks share: the shared lock when the callback takes it
(`locked`), `if (!sCallbackEnv.valid()) return;`, the test of `mCallbacksObj`, and
the rest of the body for a registered object. -/
def callbackFrame (locked : Bool) (sCallbackEnv : CallbackEnv) (mCallbacksObj : Option Nat)
    (body : Nat → List CallbackEvent) : List CallbackEvent :=
  let lock := if locked then [CallbackEvent.lock_shared] else []
  let unlock := if locked then [CallbackEvent.unlock_shared] else []
  if !sCallbackEnv.valid then lock ++ unlock
  else
    match mCallbacksObj with
    | none => lock ++ [CallbackEvent.read_mCallbacksObj] ++ unlock
    | some obj => lock ++ [CallbackEvent.read_mCallbacksObj] ++ body obj ++ unlock

/-- The Java address array: `NewByteArray(sizeof(bt_bdaddr_t))` filled from `bd_addr`. -/
def addrArray (k : BtRc) (bd_addr : List Int) : jvalue :=
  jvalue.array (some (arrayRegion k.sizeof_bt_bdaddr_t k.sizeof_bt_bdaddr_t bd_addr))

/-- Source function `btavrcp_remote_features_callback`.  The call passes `addr.get()` a
second time after the two arguments of the method. -/
def btavrcp_remote_features_callback (k : BtRc) (sCallbackEnv : CallbackEnv)
    (mCallbacksObj : Option Nat) (bd_addr : List Int) (features : Int) :
    List CallbackEvent :=
  callbackFrame true sCallbackEnv mCallbacksObj (fun obj =>
    allocateThenCall sCallbackEnv obj [NewArray.bytes k.sizeof_bt_bdaddr_t]
      jmethodID.method_getRcFeatures
      [addrArray k bd_addr,
       jvalue.num (jint features),
       addrArray k bd_addr])

/-- Source function `btavrcp_get_play_status_callback`. -/
def btavrcp_get_play_status_callback (k : BtRc) (sCallbackEnv : CallbackEnv)
    (mCallbacksObj : Option Nat) (bd_addr : List Int) :
    List CallbackEvent :=
  callbackFrame true sCallbackEnv mCallbacksObj (fun obj =>
    allocateThenCall sCallbackEnv obj [NewArray.bytes k.sizeof_bt_bdaddr_t]
      jmethodID.method_getPlayStatus
      [addrArray k bd_addr])

/-- Source function `btavrcp_get_player_attribute_id_callback`.  It takes no lock. -/
def btavrcp_get_player_attribute_id_callback (k : BtRc) (sCallbackEnv : CallbackEnv)
    (mCallbacksObj : Option Nat) (bd_addr : List Int) :
    List CallbackEvent :=
  callbackFrame false sCallbackEnv mCallbacksObj (fun obj =>
    allocateThenCall sCallbackEnv obj [NewArray.bytes k.sizeof_bt_bdaddr_t]
      jmethodID.method_onListPlayerAttributeRequest
      [addrArray k bd_addr])

/-- Source function `btavrcp_get_player_seeting_value_callback`.  It takes no lock. -/
def btavrcp_get_player_seeting_value_callback (k : BtRc) (sCallbackEnv : CallbackEnv)
    (mCallbacksObj : Option Nat) (player_att : Int) (bd_addr : List Int) :
    List CallbackEvent :=
  callbackFrame false sCallbackEnv mCallbacksObj (fun obj =>
    allocateThenCall sCallbackEnv obj [NewArray.bytes k.sizeof_bt_bdaddr_t]
      jmethodID.method_onListPlayerAttributeValues
      [jvalue.num (jbyte player_att),
       addrArray k bd_addr])

/-- Source function `btavrcp_getcurrent_player_app_setting_values`.  It takes no lock;
the int array is created with `sizeof(bt_bdaddr_t)` elements. -/
def btavrcp_getcurrent_player_app_setting_values (k : BtRc) (sCallbackEnv : CallbackEnv)
    (mCallbacksObj : Option Nat) (num_attr : Int) (p_attrs : List Int) (bd_addr : List Int) :
    List CallbackEvent :=
  callbackFrame false sCallbackEnv mCallbacksObj (fun obj =>
    allocateThenCall sCallbackEnv obj [NewArray.bytes k.sizeof_bt_bdaddr_t,
       NewArray.ints k.sizeof_bt_bdaddr_t]
      jmethodID.method_onGetPlayerAttributeValues
      [jvalue.num (jbyte num_attr),
       jvalue.array (some (arrayRegion k.sizeof_bt_bdaddr_t num_attr p_attrs)),
       addrArray k bd_addr])

/-- Source function `btavrcp_getPlayer_app_attribute_text`.  It takes no lock; `att` is
read through a `jbyte*`. -/
def btavrcp_getPlayer_app_attribute_text (k : BtRc) (sCallbackEnv : CallbackEnv)
    (mCallbacksObj : Option Nat) (num : Int) (att : List Int) (bd_addr : List Int) :
    List CallbackEvent :=
  callbackFrame false sCallbackEnv mCallbacksObj (fun obj =>
    allocateThenCall sCallbackEnv obj [NewArray.bytes k.sizeof_bt_bdaddr_t,
       NewArray.bytes num]
      jmethodID.method_getplayerattribute_text
      [jvalue.num (jbyte num),
       jvalue.array (some (arrayRegion num num att)),
       addrArray k bd_addr])

/-- Source function `btavrcp_getPlayer_app_value_text`.  It takes no lock. -/
def btavrcp_getPlayer_app_value_text (k : BtRc) (sCallbackEnv : CallbackEnv)
    (mCallbacksObj : Option Nat) (attr_id num_val : Int) (value : List Int) (bd_addr : List Int) :
    List CallbackEvent :=
  callbackFrame false sCallbackEnv mCallbacksObj (fun obj =>
    allocateThenCall sCallbackEnv obj [NewArray.bytes k.sizeof_bt_bdaddr_t,
       NewArray.bytes num_val]
      jmethodID.method_getplayervalue_text
      [jvalue.num (jbyte attr_id),
       jvalue.num (jbyte num_val),
       jvalue.array (some (arrayRegion num_val num_val value)),
       addrArray k bd_addr])

/-- Source function `btavrcp_set_playerapp_setting_value_callback`.  It takes no lock. -/
def btavrcp_set_playerapp_setting_value_callback (k : BtRc) (sCallbackEnv : CallbackEnv)
    (mCallbacksObj : Option Nat) (attr : btrc_player_settings_t) (bd_addr : List Int) :
    List CallbackEvent :=
  callbackFrame false sCallbackEnv mCallbacksObj (fun obj =>
    allocateThenCall sCallbackEnv obj [NewArray.bytes k.sizeof_bt_bdaddr_t,
       NewArray.bytes attr.num_attr,
       NewArray.bytes attr.num_attr]
      jmethodID.method_setPlayerAppSetting
      [jvalue.num (jbyte attr.num_attr),
       jvalue.array (some (arrayRegion attr.num_attr attr.num_attr attr.attr_ids)),
       jvalue.array (some (arrayRegion attr.num_attr attr.num_attr attr.attr_values)),
       addrArray k bd_addr])

/-- Source function `btavrcp_get_element_attr_callback`. -/
def btavrcp_get_element_attr_callback (k : BtRc) (sCallbackEnv : CallbackEnv)
    (mCallbacksObj : Option Nat) (num_attr : Int) (p_attrs : List Int) (bd_addr : List Int) :
    List CallbackEvent :=
  callbackFrame true sCallbackEnv mCallbacksObj (fun obj =>
    allocateThenCall sCallbackEnv obj [NewArray.bytes k.sizeof_bt_bdaddr_t,
       NewArray.ints num_attr]
      jmethodID.method_getElementAttr
      [addrArray k bd_addr,
       jvalue.num (jbyte num_attr),
       jvalue.array (some (arrayRegion num_attr num_attr p_attrs))])

/-- Source function `btavrcp_register_notification_callback`. -/
def btavrcp_register_notification_callback (k : BtRc) (sCallbackEnv : CallbackEnv)
    (mCallbacksObj : Option Nat) (event_id param : Int) (bd_addr : List Int) :
    List CallbackEvent :=
  callbackFrame true sCallbackEnv mCallbacksObj (fun obj =>
    allocateThenCall sCallbackEnv obj [NewArray.bytes k.sizeof_bt_bdaddr_t]
      jmethodID.method_registerNotification
      [addrArray k bd_addr,
       jvalue.num (jint event_id),
       jvalue.num (jint param)])

/-- Source function `btavrcp_volume_change_callback`. -/
def btavrcp_volume_change_callback (k : BtRc) (sCallbackEnv : CallbackEnv)
    (mCallbacksObj : Option Nat) (volume ctype : Int) (bd_addr : List Int) :
    List CallbackEvent :=
  callbackFrame true sCallbackEnv mCallbacksObj (fun obj =>
    allocateThenCall sCallbackEnv obj [NewArray.bytes k.sizeof_bt_bdaddr_t]
      jmethodID.method_volumeChangeCallback
      [addrArray k bd_addr,
       jvalue.num (jint volume),
       jvalue.num (jint ctype)])

/-- Source function `btavrcp_passthrough_command_callback`. -/
def btavrcp_passthrough_command_callback (k : BtRc) (sCallbackEnv : CallbackEnv)
    (mCallbacksObj : Option Nat) (id pressed : Int) (bd_addr : List Int) :
    List CallbackEvent :=
  callbackFrame true sCallbackEnv mCallbacksObj (fun obj =>
    allocateThenCall sCallbackEnv obj [NewArray.bytes k.sizeof_bt_bdaddr_t]
      jmethodID.method_handlePassthroughCmd
      [addrArray k bd_addr,
       jvalue.num (jint id),
       jvalue.num (jint pressed)])

/-- Source function `btavrcp_set_addressed_player_callback`. -/
def btavrcp_set_addressed_player_callback (k : BtRc) (sCallbackEnv : CallbackEnv)
    (mCallbacksObj : Option Nat) (player_id : Int) (bd_addr : List Int) :
    List CallbackEvent :=
  callbackFrame true sCallbackEnv mCallbacksObj (fun obj =>
    allocateThenCall sCallbackEnv obj [NewArray.bytes k.sizeof_bt_bdaddr_t]
      jmethodID.method_setAddressedPlayerCallback
      [addrArray k bd_addr,
       jvalue.num (jint player_id)])

/-- Source function `btavrcp_set_browsed_player_callback`. -/
def btavrcp_set_browsed_player_callback (k : BtRc) (sCallbackEnv : CallbackEnv)
    (mCallbacksObj : Option Nat) (player_id : Int) (bd_addr : List Int) :
    List CallbackEvent :=
  callbackFrame true sCallbackEnv mCallbacksObj (fun obj =>
    allocateThenCall sCallbackEnv obj [NewArray.bytes k.sizeof_bt_bdaddr_t]
      jmethodID.method_setBrowsedPlayerCallback
      [addrArray k bd_addr,
       jvalue.num (jint player_id)])

/-- Source function `btavrcp_get_folder_items_callback`.  The int array is allocated
only when `num_attr` is neither `BTRC_NUM_ATTR_ALL` nor `BTRC_NUM_ATTR_NONE`;
otherwise the Java method receives the `NULL` reference. -/
def btavrcp_get_folder_items_callback (k : BtRc) (sCallbackEnv : CallbackEnv)
    (mCallbacksObj : Option Nat) (scope start_item end_item num_attr : Int)
    (p_attr_ids : List Int) (bd_addr : List Int) : List CallbackEvent :=
  callbackFrame true sCallbackEnv mCallbacksObj (fun obj =>
    if num_attr ≠ k.BTRC_NUM_ATTR_ALL ∧ num_attr ≠ k.BTRC_NUM_ATTR_NONE then
      allocateThenCall sCallbackEnv obj
        [NewArray.bytes k.sizeof_bt_bdaddr_t, NewArray.ints num_attr]
        jmethodID.method_getFolderItemsCallback
        [addrArray k bd_addr, jvalue.num (jbyte scope), jvalue.num start_item,
         jvalue.num end_item, jvalue.num (jbyte num_attr),
         jvalue.array (some (arrayRegion num_attr num_attr p_attr_ids))]
    else
      allocateThenCall sCallbackEnv obj [NewArray.bytes k.sizeof_bt_bdaddr_t]
        jmethodID.method_getFolderItemsCallback
        [addrArray k bd_addr, jvalue.num (jbyte scope), jvalue.num start_item,
         jvalue.num end_item, jvalue.num (jbyte num_attr), jvalue.array none])

/-- Source function `btavrcp_change_path_callback`. -/
def btavrcp_change_path_callback (k : BtRc) (sCallbackEnv : CallbackEnv)
    (mCallbacksObj : Option Nat) (direction : Int) (folder_uid : List Int) (bd_addr : List Int) :
    List CallbackEvent :=
  callbackFrame true sCallbackEnv mCallbacksObj (fun obj =>
    allocateThenCall sCallbackEnv obj [NewArray.bytes k.BTRC_UID_SIZE,
       NewArray.bytes k.sizeof_bt_bdaddr_t]
      jmethodID.method_changePathCallback
      [addrArray k bd_addr,
       jvalue.num (jbyte direction),
       jvalue.array (some (arrayRegion k.BTRC_UID_SIZE k.BTRC_UID_SIZE folder_uid))])

/-- Source function `btavrcp_get_item_attr_callback`. -/
def btavrcp_get_item_attr_callback (k : BtRc) (sCallbackEnv : CallbackEnv)
    (mCallbacksObj : Option Nat) (scope : Int) (uid : List Int) (uid_counter num_attr : Int)
    (p_attrs : List Int) (bd_addr : List Int) :
    List CallbackEvent :=
  callbackFrame true sCallbackEnv mCallbacksObj (fun obj =>
    allocateThenCall sCallbackEnv obj [NewArray.bytes k.BTRC_UID_SIZE,
       NewArray.bytes k.sizeof_bt_bdaddr_t,
       NewArray.ints num_attr]
      jmethodID.method_getItemAttrCallback
      [addrArray k bd_addr,
       jvalue.num (jbyte scope),
       jvalue.array (some (arrayRegion k.BTRC_UID_SIZE k.BTRC_UID_SIZE uid)),
       jvalue.num (jint uid_counter),
       jvalue.num (jbyte num_attr),
       jvalue.array (some (arrayRegion num_attr num_attr p_attrs))])

/-- Source function `btavrcp_play_item_callback`. -/
def btavrcp_play_item_callback (k : BtRc) (sCallbackEnv : CallbackEnv)
    (mCallbacksObj : Option Nat) (scope uid_counter : Int) (uid : List Int) (bd_addr : List Int) :
    List CallbackEvent :=
  callbackFrame true sCallbackEnv mCallbacksObj (fun obj =>
    allocateThenCall sCallbackEnv obj [NewArray.bytes k.BTRC_UID_SIZE,
       NewArray.bytes k.sizeof_bt_bdaddr_t]
      jmethodID.method_playItemCallback
      [addrArray k bd_addr,
       jvalue.num (jbyte scope),
       jvalue.num (jint uid_counter),
       jvalue.array (some (arrayRegion k.BTRC_UID_SIZE k.BTRC_UID_SIZE uid))])

/-- Source function `btavrcp_get_total_num_items_callback`. -/
def btavrcp_get_total_num_items_callback (k : BtRc) (sCallbackEnv : CallbackEnv)
    (mCallbacksObj : Option Nat) (scope : Int) (bd_addr : List Int) :
    List CallbackEvent :=
  callbackFrame true sCallbackEnv mCallbacksObj (fun obj =>
    allocateThenCall sCallbackEnv obj [NewArray.bytes k.sizeof_bt_bdaddr_t]
      jmethodID.method_getTotalNumOfItemsCallback
      [addrArray k bd_addr,
       jvalue.num (jbyte scope)])

/-- Source function `btavrcp_search_callback`. -/
def btavrcp_search_callback (k : BtRc) (sCallbackEnv : CallbackEnv)
    (mCallbacksObj : Option Nat) (charset_id str_len : Int) (p_str : List Int)
      (bd_addr : List Int) :
    List CallbackEvent :=
  callbackFrame true sCallbackEnv mCallbacksObj (fun obj =>
    allocateThenCall sCallbackEnv obj [NewArray.bytes str_len,
       NewArray.bytes k.sizeof_bt_bdaddr_t]
      jmethodID.method_searchCallback
      [addrArray k bd_addr,
       jvalue.num (jint charset_id),
       jvalue.array (some (arrayRegion str_len str_len p_str))])

/-- Source function `btavrcp_add_to_play_list_callback`. -/
def btavrcp_add_to_play_list_callback (k : BtRc) (sCallbackEnv : CallbackEnv)
    (mCallbacksObj : Option Nat) (scope : Int) (uid : List Int) (uid_counter : Int)
      (bd_addr : List Int) :
    List CallbackEvent :=
  callbackFrame true sCallbackEnv mCallbacksObj (fun obj =>
    allocateThenCall sCallbackEnv obj [NewArray.bytes k.sizeof_bt_bdaddr_t,
       NewArray.bytes k.BTRC_UID_SIZE]
      jmethodID.method_addToPlayListCallback
      [addrArray k bd_addr,
       jvalue.num (jbyte scope),
       jvalue.array (some (arrayRegion k.BTRC_UID_SIZE k.BTRC_UID_SIZE uid)),
       jvalue.num (jint uid_counter)])

/-- Source function `btavrcp_connection_state_callback`. -/
def btavrcp_connection_state_callback (k : BtRc) (sCallbackEnv : CallbackEnv)
    (mCallbacksObj : Option Nat) (rc_connect br_connect : Bool) (bd_addr : List Int) :
    List CallbackEvent :=
  callbackFrame true sCallbackEnv mCallbacksObj (fun obj =>
    allocateThenCall sCallbackEnv obj [NewArray.bytes k.sizeof_bt_bdaddr_t]
      jmethodID.method_onConnectionStateChanged
      [jvalue.num (jboolean rc_connect),
       jvalue.num (jboolean br_connect),
       addrArray k bd_addr])

/-- A call of one of the 22 callbacks registered in `sBluetoothAvrcpCallbacks`, in the
order of that table, with its arguments. -/
inductive CallbackCall
  | btavrcp_remote_features_callback (bd_addr : List Int) (features : Int)
  | btavrcp_get_play_status_callback (bd_addr : List Int)
  | btavrcp_get_player_attribute_id_callback (bd_addr : List Int)
  | btavrcp_get_player_seeting_value_callback (player_att : Int) (bd_addr : List Int)
  | btavrcp_getcurrent_player_app_setting_values (num_attr : Int) (p_attrs : List Int)
      (bd_addr : List Int)
  | btavrcp_getPlayer_app_attribute_text (num : Int) (att : List Int) (bd_addr : List Int)
  | btavrcp_getPlayer_app_value_text (attr_id num_val : Int) (value : List Int) (bd_addr : List Int)
  | btavrcp_set_playerapp_setting_value_callback (attr : btrc_player_settings_t)
      (bd_addr : List Int)
  | btavrcp_get_element_attr_callback (num_attr : Int) (p_attrs : List Int) (bd_addr : List Int)
  | btavrcp_register_notification_callback (event_id param : Int) (bd_addr : List Int)
  | btavrcp_volume_change_callback (volume ctype : Int) (bd_addr : List Int)
  | btavrcp_passthrough_command_callback (id pressed : Int) (bd_addr : List Int)
  | btavrcp_set_addressed_player_callback (player_id : Int) (bd_addr : List Int)
  | btavrcp_set_browsed_player_callback (player_id : Int) (bd_addr : List Int)
  | btavrcp_get_folder_items_callback (scope start_item end_item num_attr : Int)
      (p_attr_ids : List Int) (bd_addr : List Int)
  | btavrcp_change_path_callback (direction : Int) (folder_uid : List Int) (bd_addr : List Int)
  | btavrcp_get_item_attr_callback (scope : Int) (uid : List Int) (uid_counter num_attr : Int)
      (p_attrs : List Int) (bd_addr : List Int)
  | btavrcp_play_item_callback (scope uid_counter : Int) (uid : List Int) (bd_addr : List Int)
  | btavrcp_get_total_num_items_callback (scope : Int) (bd_addr : List Int)
  | btavrcp_search_callback (charset_id str_len : Int) (p_str : List Int) (bd_addr : List Int)
  | btavrcp_add_to_play_list_callback (scope : Int) (uid : List Int) (uid_counter : Int)
      (bd_addr : List Int)
  | btavrcp_connection_state_callback (rc_connect br_connect : Bool) (bd_addr : List Int)

/-- Dispatch of a `CallbackCall` to the source function registered in the table. -/
def runCallback (k : BtRc) (sCallbackEnv : CallbackEnv) (mCallbacksObj : Option Nat) :
    CallbackCall → List CallbackEvent
  | CallbackCall.btavrcp_remote_features_callback bd_addr features =>
    Avrcp.btavrcp_remote_features_callback k sCallbackEnv mCallbacksObj bd_addr features
  | CallbackCall.btavrcp_get_play_status_callback bd_addr =>
    Avrcp.btavrcp_get_play_status_callback k sCallbackEnv mCallbacksObj bd_addr
  | CallbackCall.btavrcp_get_player_attribute_id_callback bd_addr =>
    Avrcp.btavrcp_get_player_attribute_id_callback k sCallbackEnv mCallbacksObj bd_addr
  | CallbackCall.btavrcp_get_player_seeting_value_callback player_att bd_addr =>
    Avrcp.btavrcp_get_player_seeting_value_callback k sCallbackEnv mCallbacksObj player_att bd_addr
  | CallbackCall.btavrcp_getcurrent_player_app_setting_values num_attr p_attrs bd_addr =>
    Avrcp.btavrcp_getcurrent_player_app_setting_values k sCallbackEnv mCallbacksObj num_attr
      p_attrs bd_addr
  | CallbackCall.btavrcp_getPlayer_app_attribute_text num att bd_addr =>
    Avrcp.btavrcp_getPlayer_app_attribute_text k sCallbackEnv mCallbacksObj num att bd_addr
  | CallbackCall.btavrcp_getPlayer_app_value_text attr_id num_val value bd_addr =>
    Avrcp.btavrcp_getPlayer_app_value_text k sCallbackEnv mCallbacksObj attr_id num_val value
      bd_addr
  | CallbackCall.btavrcp_set_playerapp_setting_value_callback attr bd_addr =>
    Avrcp.btavrcp_set_playerapp_setting_value_callback k sCallbackEnv mCallbacksObj attr bd_addr
  | CallbackCall.btavrcp_get_element_attr_callback num_attr p_attrs bd_addr =>
    Avrcp.btavrcp_get_element_attr_callback k sCallbackEnv mCallbacksObj num_attr p_attrs bd_addr
  | CallbackCall.btavrcp_register_notification_callback event_id param bd_addr =>
    Avrcp.btavrcp_register_notification_callback k sCallbackEnv mCallbacksObj event_id param bd_addr
  | CallbackCall.btavrcp_volume_change_callback volume ctype bd_addr =>
    Avrcp.btavrcp_volume_change_callback k sCallbackEnv mCallbacksObj volume ctype bd_addr
  | CallbackCall.btavrcp_passthrough_command_callback id pressed bd_addr =>
    Avrcp.btavrcp_passthrough_command_callback k sCallbackEnv mCallbacksObj id pressed bd_addr
  | CallbackCall.btavrcp_set_addressed_player_callback player_id bd_addr =>
    Avrcp.btavrcp_set_addressed_player_callback k sCallbackEnv mCallbacksObj player_id bd_addr
  | CallbackCall.btavrcp_set_browsed_player_callback player_id bd_addr =>
    Avrcp.btavrcp_set_browsed_player_callback k sCallbackEnv mCallbacksObj player_id bd_addr
  | CallbackCall.btavrcp_get_folder_items_callback scope start_item end_item num_attr
      p_attr_ids bd_addr =>
    Avrcp.btavrcp_get_folder_items_callback k sCallbackEnv mCallbacksObj scope start_item
      end_item num_attr p_attr_ids bd_addr
  | CallbackCall.btavrcp_change_path_callback direction folder_uid bd_addr =>
    Avrcp.btavrcp_change_path_callback k sCallbackEnv mCallbacksObj direction folder_uid bd_addr
  | CallbackCall.btavrcp_get_item_attr_callback scope uid uid_counter num_attr p_attrs bd_addr =>
    Avrcp.btavrcp_get_item_attr_callback k sCallbackEnv mCallbacksObj scope uid uid_counter
      num_attr p_attrs bd_addr
  | CallbackCall.btavrcp_play_item_callback scope uid_counter uid bd_addr =>
    Avrcp.btavrcp_play_item_callback k sCallbackEnv mCallbacksObj scope uid_counter uid bd_addr
  | CallbackCall.btavrcp_get_total_num_items_callback scope bd_addr =>
    Avrcp.btavrcp_get_total_num_items_callback k sCallbackEnv mCallbacksObj scope bd_addr
  | CallbackCall.btavrcp_search_callback charset_id str_len p_str bd_addr =>
    Avrcp.btavrcp_search_callback k sCallbackEnv mCallbacksObj charset_id str_len p_str bd_addr
  | CallbackCall.btavrcp_add_to_play_list_callback scope uid uid_counter bd_addr =>
    Avrcp.btavrcp_add_to_play_list_callback k sCallbackEnv mCallbacksObj scope uid uid_counter
      bd_addr
  | CallbackCall.btavrcp_connection_state_callback rc_connect br_connect bd_addr =>
    Avrcp.btavrcp_connection_state_callback k sCallbackEnv mCallbacksObj rc_connect br_connect
      bd_addr

/-! ## Notions used to state the properties -/

/-- The natives with a single HAL call, each with the array
arguments it pins; `none` for the other natives. -/
def singleCallArrays : NativeCall → Option (List jarray)
  | NativeCall.getPlayStatusRspNative address _ _ _ => some [address]
  | NativeCall.SendSetPlayerAppRspNative _ address => some [address]
  | NativeCall.setVolumeNative _ address => some [address]
  | NativeCall.setAddressedPlayerRspNative address _ => some [address]
  | NativeCall.changePathRspNative address _ _ => some [address]
  | NativeCall.searchRspNative address _ _ _ => some [address]
  | NativeCall.playItemRspNative address _ => some [address]
  | NativeCall.getTotalNumOfItemsRspNative address _ _ _ => some [address]
  | NativeCall.addToNowPlayingRspNative address _ => some [address]
  | NativeCall.isDeviceActiveInHandOffNative address => some [address]
  | NativeCall.registerNotificationRspPlayStatusNative _ _ address => some [address]
  | NativeCall.registerNotificationRspTrackChangeNative _ track address =>
    some [address, track]
  | NativeCall.registerNotificationRspPlayPosNative _ _ address => some [address]
  | NativeCall.registerNotificationRspAddrPlayerChangedNative _ _ _ address => some [address]
  | NativeCall.registerNotificationRspAvalPlayerChangedNative _ address => some [address]
  | NativeCall.registerNotificationRspUIDsChangedNative _ _ address => some [address]
  | NativeCall.registerNotificationRspNowPlayingChangedNative _ address => some [address]
  | _ => none

/-- The attribute entry the copy loop writes for the string at index `i` of `arr`. -/
def copiedAttr (k : BtRc) (env : JNIEnv) (ids : List Int) (arr : jobjectArray) (i : Int) :
    btrc_element_attr_val_t :=
  { attr_id := rd ids i,
    text := (copy_jstring (some (uninitBytes k.BTRC_MAX_ATTR_STR_LEN))
      k.BTRC_MAX_ATTR_STR_LEN (GetObjectArrayElement arr i) (some env)).str }

/-- The sum of `numAttrs[j]` over the media items `j < i`. -/
def attrOffset (k : BtRc) (item_types : List Int) (p_num_attrs : Option (List Int)) :
    Nat → Int
  | 0 => 0
  | i + 1 => attrOffset k item_types p_num_attrs i +
      (if rd item_types i = k.BTRC_ITEM_MEDIA then numAttrsOf p_num_attrs i else 0)

/-- The name buffer of an item after `copy_jstring` has copied `s` into the cleared
buffer of `BTRC_MAX_ATTR_STR_LEN` bytes. -/
def copiedName (k : BtRc) (env : JNIEnv) (s : jstring) : List Nat :=
  (copy_jstring (some (zeroName k)) k.BTRC_MAX_ATTR_STR_LEN s (some env)).str.getD (zeroName k)

/-- The item at index `i` of a response in which every string could be copied. -/
def expectedItem (k : BtRc) (env : JNIEnv)
    (folder_types playables item_types item_uid : List Int)
    (displayNameArray : jobjectArray) (p_num_attrs : Option (List Int)) (ids : List Int)
    (attributesArray : jobjectArray) (i : Nat) : btrc_folder_items_t :=
  if k.BTRC_ITEM_FOLDER = rd item_types i then
    btrc_folder_items_t.folder (uint8_t k.BTRC_ITEM_FOLDER)
      { uid := uidSlice k item_uid i,
        type := rd folder_types i,
        playable := rd playables i,
        charset_id := k.BTRC_CHARSET_ID_UTF8,
        name := copiedName k env (GetObjectArrayElement displayNameArray i) }
  else if k.BTRC_ITEM_MEDIA = rd item_types i then
    btrc_folder_items_t.media (uint8_t k.BTRC_ITEM_MEDIA)
      { uid := uidSlice k item_uid i,
        type := k.BTRC_MEDIA_TYPE_AUDIO,
        charset_id := k.BTRC_CHARSET_ID_UTF8,
        name := copiedName k env (GetObjectArrayElement displayNameArray i),
        num_attrs := numAttrsOf p_num_attrs i,
        p_attrs :=
          if 0 < numAttrsOf p_num_attrs i then
            some ((List.range (numAttrsOf p_num_attrs i).toNat).map (fun (t : Nat) =>
              copiedAttr k env ids attributesArray
                (attrOffset k item_types p_num_attrs i + (t : Int))))
          else none }
  else btrc_folder_items_t.zeroed

/-- The indices at which a trace fetches an element of the object array parameter `a`
with `GetObjectArrayElement`, in order. -/
def fetchedIndices (a : Arg) : List Event → List Int
  | [] => []
  | Event.GetObjectArrayElement b i :: es =>
    if b = a then i :: fetchedIndices a es else fetchedIndices a es
  | _ :: es => fetchedIndices a es

/-- The indices of `attributesArray` that belong to item `i`: `off_i, ..., off_i +
numAttrs[i] - 1` for a media item and none for any other item, `off_i` being
`attrOffset` at `i`. -/
def itemAttrIndices (k : BtRc) (item_types : List Int) (p_num_attrs : Option (List Int))
    (i : Nat) : List Int :=
  if rd item_types i = k.BTRC_ITEM_MEDIA then
    (List.range (numAttrsOf p_num_attrs i).toNat).map
      (fun (t : Nat) => attrOffset k item_types p_num_attrs i + (t : Int))
  else []

/-- The number of attribute entries before those of item `i`: the sum of `counts[j]`
over the indices `j < i` whose item type is `BTRC_ITEM_MEDIA`. -/
def mediaAttrStart (k : BtRc) (item_types counts : List Int) : Nat → Int
  | 0 => 0
  | i + 1 => mediaAttrStart k item_types counts i +
      (if rd item_types i = k.BTRC_ITEM_MEDIA then rd counts i else 0)

/-- A JNI environment in which `new` and `NewGlobalRef` succeed; used to instantiate
the theorems at concrete inputs. -/
def sampleEnv : JNIEnv :=
  { newOk := true, NewGlobalRef := fun obj => some obj, fresh_p_str := none }

/-- A HAL interface whose calls all return status `0`; used to instantiate the
theorems at concrete inputs. -/
def sampleHal : btrc_interface_t := { handle := 1, call := fun _ => 0 }

/-- A Bluetooth interface that hands out `sampleHal` for every profile. -/
def sampleBtInterface : bt_interface_t := { get_profile_interface := fun _ => some sampleHal }

/-- A pinnable six-byte address array. -/
def sampleAddress : jarray := some { elems := some [0, 1, 2, 3, 4, 5] }

/-- A Java string with the given modified UTF-8 bytes. -/
def sampleString (bytes : List Nat) : jstring := some { utf := some bytes }

/-- A pinnable Java array with the given elements. -/
def sampleArray (l : List Int) : jarray := some { elems := some l }


/-- The item type array of the sample response: a folder item followed by a media
item. -/
def sampleItemTypes : List Int := [aospHeaders.BTRC_ITEM_FOLDER, aospHeaders.BTRC_ITEM_MEDIA]

/-- The uid array of the sample response, `BTRC_UID_SIZE` bytes an item. -/
def sampleUids : List Int := [0, 0, 0, 0, 0, 0, 0, 1, 0, 0, 0, 0, 0, 0, 0, 2]

/-- The display names of the sample response. -/
def sampleNames : jobjectArray := some [sampleString [77, 117, 115, 105, 99],
  sampleString [83, 111, 110, 103]]

/-- The attribute strings of the sample response: one attribute, of the media item. -/
def sampleAttrs : jobjectArray := some [sampleString [84, 105, 116, 108, 101]]

/-- The C string held at `p`: the bytes before the first NUL. -/
def cString (p : List Nat) : List Nat := p.takeWhile (fun b => b != 0)

/-- The number of times a trace obtains the elements of the array parameter `a`:
the calls of `Get<T>ArrayElements` on `a` that returned a pointer. -/
def pinCount (a : Arg) : List Event → Nat
  | [] => 0
  | Event.GetArrayElements b ok :: es =>
    (if b = a ∧ ok = true then 1 else 0) + pinCount a es
  | _ :: es => pinCount a es

/-- The number of times a trace releases the elements of the array parameter `a`. -/
def releaseCount (a : Arg) : List Event → Nat
  | [] => 0
  | Event.ReleaseArrayElements b :: es => (if b = a then 1 else 0) + releaseCount a es
  | _ :: es => releaseCount a es

/-- A call of `initNative` or of `cleanupNative`, with what its environment delivers:
the JNI environment, the value of `getBluetoothInterface()` and the arguments. -/
inductive LifecycleCall
  | initNative (env : JNIEnv) (getBluetoothInterface : Option bt_interface_t) (object : Nat)
      (maxAvrcpConnections : Int)
  | cleanupNative (getBluetoothInterface : Option bt_interface_t)

/-- The globals after one lifecycle call. -/
def lifecycleStep (k : BtRc) (g : Globals) : LifecycleCall → Globals
  | LifecycleCall.initNative env bt object maxAvrcpConnections =>
    (initNative k env bt g object maxAvrcpConnections).1
  | LifecycleCall.cleanupNative bt => (cleanupNative bt g).1

/-- The globals after a sequence of lifecycle calls, made one after the other. -/
def runLifecycle (k : BtRc) (g : Globals) (calls : List LifecycleCall) : Globals :=
  calls.foldl (lifecycleStep k) g

/-- The initial globals: both `NULL`. -/
def initialGlobals : Globals := { sBluetoothAvrcpInterface := none, mCallbacksObj := none }

/-- `NewGlobalRef` returns a reference in this call (trivially so for `cleanupNative`). -/
def globalRefDelivered : LifecycleCall → Prop
  | LifecycleCall.initNative env _ object _ => (env.NewGlobalRef object).isSome = true
  | LifecycleCall.cleanupNative _ => True

/-- The call is an `initNative` that succeeds: the Bluetooth interface is loaded, it
hands out an AVRCP interface, and `init` returns `BT_STATUS_SUCCESS`. -/
def initSucceeds (k : BtRc) : LifecycleCall → Prop
  | LifecycleCall.initNative _ (some btInf) _ maxAvrcpConnections =>
    ∃ hal : btrc_interface_t, btInf.get_profile_interface k.BT_PROFILE_AV_RC_ID = some hal ∧
      hal.call (HalCall.init maxAvrcpConnections) = k.BT_STATUS_SUCCESS
  | _ => False

/-- A callback environment that is attached and whose array allocations succeed. -/
def sampleCallbackEnv : CallbackEnv :=
  { valid := true, NewByteArray := fun _ => true, NewIntArray := fun _ => true }

/-! ## Lemmas -/

theorem size_t_of_nonneg (x : Int) (h0 : 0 ≤ x) (h1 : x < 2 ^ 64) : size_t x = x.toNat := by
  unfold size_t
  rw [Int.emod_eq_of_lt h0 h1]

theorem strlen_of_no_zero (s : List Nat) (hs : ∀ b ∈ s, b ≠ 0) : strlen s = s.length := by
  unfold strlen
  induction s with
  | nil => rfl
  | cons b t ih =>
    have hb : b ≠ 0 := hs b (List.mem_cons_self _ _)
    have ht : ∀ c ∈ t, c ≠ 0 := fun c hc => hs c (List.mem_cons_of_mem _ hc)
    simp [List.takeWhile_cons, hb, ih ht]

theorem strlen_append_zero (p q : List Nat) (hp : ∀ b ∈ p, b ≠ 0) :
    strlen (p ++ 0 :: q) = p.length := by
  unfold strlen
  induction p with
  | nil => simp [List.takeWhile_cons]
  | cons b t ih =>
    have hb : b ≠ 0 := hp b (List.mem_cons_self _ _)
    have ht : ∀ c ∈ t, c ≠ 0 := fun c hc => hp c (List.mem_cons_of_mem _ hc)
    simp [List.takeWhile_cons, hb, ih ht]

theorem copy_jstring_of_chars (buf : List Nat) (maxBytes : Int) (bytes : List Nat)
    (env : JNIEnv) :
    copy_jstring (some buf) maxBytes (some { utf := some bytes }) (some env) =
      { ret := some true,
        str := some (memcpy (memset buf 0 (size_t maxBytes)) bytes
          (strnlen bytes (size_t (maxBytes - 1)))),
        trace := [Event.GetStringUTFChars true, Event.ReleaseStringUTFChars] } := by
  simp [copy_jstring, GetStringUTFChars]

/-- With a destination and an environment, `copy_jstring` returns `true` exactly for a
string whose characters `GetStringUTFChars` delivers. -/
theorem copy_jstring_ret_true_iff (buf : List Nat) (maxBytes : Int) (jstr : jstring)
    (env : JNIEnv) :
    (copy_jstring (some buf) maxBytes jstr (some env)).ret = some true ↔
      (GetStringUTFChars jstr).isSome = true := by
  rcases jstr with _ | ⟨_ | bytes⟩ <;> simp [copy_jstring, GetStringUTFChars]

theorem copy_jstring_str_isSome (buf : List Nat) (maxBytes : Int) (jstr : jstring)
    (env : Option JNIEnv) :
    ∃ out, (copy_jstring (some buf) maxBytes jstr env).str = some out := by
  rcases jstr with _ | ⟨_ | bytes⟩ <;> rcases env with _ | e <;>
    simp [copy_jstring, GetStringUTFChars]

theorem attrLoop_done_iff (k : BtRc) (env : JNIEnv) (ids : List Int) (a : Arg)
    (arr : jobjectArray) (base : Int) (n : Nat) (cnt : Int) :
    (attrLoop k env ids a arr base n cnt).done = some true ↔
      ∀ t : Nat, t < n →
        (GetStringUTFChars (GetObjectArrayElement arr (base + (cnt + t)))).isSome = true := by
  induction n generalizing cnt with
  | zero => simp [attrLoop]
  | succ n ih =>
    have hiff := copy_jstring_ret_true_iff (uninitBytes k.BTRC_MAX_ATTR_STR_LEN)
      k.BTRC_MAX_ATTR_STR_LEN (GetObjectArrayElement arr (base + cnt)) env
    rw [attrLoop]
    constructor
    · intro h t ht
      rcases hret : (copy_jstring (some (uninitBytes k.BTRC_MAX_ATTR_STR_LEN))
        k.BTRC_MAX_ATTR_STR_LEN (GetObjectArrayElement arr (base + cnt)) (some env)).ret
        with _ | _ | _
      · simp [hret] at h
      · simp [hret] at h
      · simp only [hret] at h
        cases t with
        | zero => simpa using hiff.mp hret
        | succ t =>
          have := (ih (cnt + 1)).mp h t (by omega)
          have e : base + (cnt + ((t + 1 : Nat) : Int)) = base + (cnt + 1 + (t : Int)) := by
            push_cast; ring
          rw [e]; exact this
    · intro h
      have h0 := hiff.mpr (by simpa using h 0 (by omega))
      simp only [h0]
      apply (ih (cnt + 1)).mpr
      intro t ht
      have := h (t + 1) (by omega)
      have e : base + (cnt + ((t + 1 : Nat) : Int)) = base + (cnt + 1 + (t : Int)) := by
        push_cast; ring
      rw [e] at this; exact this

theorem attrLoop_attrs (k : BtRc) (env : JNIEnv) (ids : List Int) (a : Arg)
    (arr : jobjectArray) (base : Int) (n : Nat) (cnt : Int)
    (h : (attrLoop k env ids a arr base n cnt).done = some true) :
    (attrLoop k env ids a arr base n cnt).attrs =
      (List.range n).map
        (fun (t : Nat) => copiedAttr k env ids arr (base + (cnt + (t : Int)))) := by
  induction n generalizing cnt with
  | zero => simp [attrLoop]
  | succ n ih =>
    rw [attrLoop] at h ⊢
    rcases hret : (copy_jstring (some (uninitBytes k.BTRC_MAX_ATTR_STR_LEN))
      k.BTRC_MAX_ATTR_STR_LEN (GetObjectArrayElement arr (base + cnt)) (some env)).ret
      with _ | _ | _
    · simp [hret] at h
    · simp [hret] at h
    · simp only [hret] at h ⊢
      rw [ih (cnt + 1) h, List.range_succ_eq_map, List.map_cons, List.map_map]
      congr 1
      · simp [copiedAttr]
      · apply List.map_congr_left
        intro t _
        simp only [Function.comp, copiedAttr]
        have e : base + (cnt + ((t + 1 : Nat) : Int)) = base + (cnt + 1 + (t : Int)) := by
          push_cast; ring
        rw [e]

@[simp] theorem halCalls_nil : halCalls [] = [] := rfl

theorem halCalls_append (xs ys : List Event) :
    halCalls (xs ++ ys) = halCalls xs ++ halCalls ys := by
  induction xs with
  | nil => rfl
  | cons e t ih => cases e <;> simp [halCalls, ih]

@[simp] theorem halCalls_pinIfPresent (a : Arg) (arr : jarray) :
    halCalls (pinIfPresent a arr).2 = [] := by
  cases arr <;> rfl

@[simp] theorem halCalls_releaseIfPinned (a : Arg) (p : Option (List Int)) :
    halCalls (releaseIfPinned a p) = [] := by
  cases p <;> rfl

theorem pinIfPresent_fst (a : Arg) (arr : jarray) :
    (pinIfPresent a arr).1 = GetArrayElements arr := by
  cases arr <;> rfl

theorem folderItemsLoop_complete (k : BtRc) (env : JNIEnv)
    (folder_types playables item_types item_uid : List Int)
    (displayNameArray : jobjectArray) (p_num_attrs : Option (List Int)) (ids : List Int)
    (attributesArray : jobjectArray)
    (hnew : env.newOk = true) (hne : k.BTRC_ITEM_FOLDER ≠ k.BTRC_ITEM_MEDIA)
    (n idx : Nat)
    (hnames : ∀ i : Nat, idx ≤ i → i < idx + n →
      (GetStringUTFChars (GetObjectArrayElement displayNameArray i)).isSome = true)
    (hattrs : ∀ i : Nat, idx ≤ i → i < idx + n → rd item_types i = k.BTRC_ITEM_MEDIA →
      ∀ t : Nat, (t : Int) < numAttrsOf p_num_attrs i →
        (GetStringUTFChars (GetObjectArrayElement attributesArray
          (attrOffset k item_types p_num_attrs i + (t : Int)))).isSome = true) :
    (folderItemsLoop k env folder_types playables item_types item_uid displayNameArray
        p_num_attrs (some ids) attributesArray n idx
        (attrOffset k item_types p_num_attrs idx)).done = some true ∧
    (folderItemsLoop k env folder_types playables item_types item_uid displayNameArray
        p_num_attrs (some ids) attributesArray n idx
        (attrOffset k item_types p_num_attrs idx)).items =
      (List.range n).map (fun (j : Nat) => expectedItem k env folder_types playables item_types
        item_uid displayNameArray p_num_attrs ids attributesArray (idx + j)) := by
  induction n generalizing idx with
  | zero => simp [folderItemsLoop]
  | succ n ih =>
    have hname := (copy_jstring_ret_true_iff (zeroName k) k.BTRC_MAX_ATTR_STR_LEN
      (GetObjectArrayElement displayNameArray idx) env).mpr (hnames idx le_rfl (by omega))
    have hrest := ih (idx + 1) (fun i h1 h2 => hnames i (by omega) (by omega))
      (fun i h1 h2 => hattrs i (by omega) (by omega))
    have hcast : ((idx : Nat) : Int) + 1 = ((idx + 1 : Nat) : Int) := by push_cast; ring
    have hshift : (List.range (n + 1)).map (fun (j : Nat) => expectedItem k env folder_types
          playables item_types item_uid displayNameArray p_num_attrs ids attributesArray
          (idx + j)) =
        expectedItem k env folder_types playables item_types item_uid displayNameArray
          p_num_attrs ids attributesArray idx ::
        (List.range n).map (fun (j : Nat) => expectedItem k env folder_types playables
          item_types item_uid displayNameArray p_num_attrs ids attributesArray
          (idx + 1 + j)) := by
      rw [List.range_succ_eq_map, List.map_cons, List.map_map]
      congr 1
      apply List.map_congr_left
      intro j _
      simp only [Function.comp]
      congr 1
      omega
    rw [hshift]
    simp only [folderItemsLoop]
    by_cases hF : k.BTRC_ITEM_FOLDER = rd item_types idx
    · have hoff : attrOffset k item_types p_num_attrs (idx + 1) =
          attrOffset k item_types p_num_attrs idx := by
        have : rd item_types idx ≠ k.BTRC_ITEM_MEDIA := fun h => hne (hF.trans h)
        simp [attrOffset, this]
      rw [hoff] at hrest
      simp only [if_pos hF, hname, hcast]
      refine ⟨hrest.1, ?_⟩
      rw [hrest.2]
      simp [expectedItem, hF, copiedName]
    · by_cases hM : k.BTRC_ITEM_MEDIA = rd item_types idx
      · have hoff : attrOffset k item_types p_num_attrs (idx + 1) =
            attrOffset k item_types p_num_attrs idx + numAttrsOf p_num_attrs idx := by
          simp [attrOffset, hM.symm]
        rw [hoff] at hrest
        simp only [if_neg hF, if_pos hM, hname]
        by_cases hpos : 0 < numAttrsOf p_num_attrs idx
        · have hdone := (attrLoop_done_iff k env ids Arg.attributesArray attributesArray
            (attrOffset k item_types p_num_attrs idx) (numAttrsOf p_num_attrs idx).toNat 0).mpr
            (by
              intro t ht
              have := hattrs idx le_rfl (by omega) hM.symm t (by omega)
              simpa using this)
          have hattrsEq := attrLoop_attrs k env ids Arg.attributesArray attributesArray
            (attrOffset k item_types p_num_attrs idx) (numAttrsOf p_num_attrs idx).toNat 0
            hdone
          simp only [copy_item_attributes, if_pos hpos, hnew, Bool.not_true, Bool.false_eq_true,
            if_false, hdone, hcast]
          refine ⟨hrest.1, ?_⟩
          rw [hrest.2, hattrsEq]
          simp [expectedItem, hF, hM, copiedName, hpos]
        · simp only [copy_item_attributes, if_neg hpos, hcast]
          refine ⟨hrest.1, ?_⟩
          rw [hrest.2]
          simp [expectedItem, hF, hM, copiedName, hpos]
      · have hoff : attrOffset k item_types p_num_attrs (idx + 1) =
            attrOffset k item_types p_num_attrs idx := by
          have : rd item_types idx ≠ k.BTRC_ITEM_MEDIA := fun h => hM h.symm
          simp [attrOffset, this]
        rw [hoff] at hrest
        simp only [if_neg hF, if_neg hM, hcast]
        refine ⟨hrest.1, ?_⟩
        rw [hrest.2]
        simp [expectedItem, hF, hM]

theorem halCalls_copy_jstring (str : Option (List Nat)) (maxBytes : Int) (jstr : jstring)
    (env : Option JNIEnv) : halCalls (copy_jstring str maxBytes jstr env).trace = [] := by
  rcases str with _ | buf <;> rcases jstr with _ | ⟨_ | bytes⟩ <;> rcases env with _ | e <;>
    simp [copy_jstring, GetStringUTFChars, halCalls]

theorem halCalls_attrLoop (k : BtRc) (env : JNIEnv) (ids : List Int) (a : Arg)
    (arr : jobjectArray) (base : Int) (n : Nat) (cnt : Int) :
    halCalls (attrLoop k env ids a arr base n cnt).trace = [] := by
  induction n generalizing cnt with
  | zero => simp [attrLoop]
  | succ n ih =>
    simp only [attrLoop]
    split <;> simp [halCalls, halCalls_append, halCalls_copy_jstring, ih]

theorem halCalls_copy_item_attributes (k : BtRc) (env : JNIEnv) (pitem : btrc_item_media_t)
    (ids : List Int) (arr : jobjectArray) (item_idx aci : Int) :
    halCalls (copy_item_attributes k env pitem ids arr item_idx aci).trace = [] := by
  unfold copy_item_attributes
  split
  · split
    · rfl
    · exact halCalls_attrLoop _ _ _ _ _ _ _ _
  · rfl

theorem halCalls_folderItemsLoop (k : BtRc) (env : JNIEnv)
    (folder_types playables item_types item_uid : List Int)
    (displayNameArray : jobjectArray) (p_num_attrs p_ids : Option (List Int))
    (attributesArray : jobjectArray) (n : Nat) (idx aci : Int) :
    halCalls (folderItemsLoop k env folder_types playables item_types item_uid
      displayNameArray p_num_attrs p_ids attributesArray n idx aci).trace = [] := by
  induction n generalizing idx aci with
  | zero => simp [folderItemsLoop]
  | succ n ih =>
    simp only [folderItemsLoop]
    repeat' split
    all_goals
      simp [halCalls, halCalls_append, halCalls_copy_jstring, halCalls_copy_item_attributes, ih]

/-- The HAL call and the return value of `getFolderItemsRspNative` when every array
is pinned and every string can be copied. -/
theorem getFolderItemsRspNative_complete (k : BtRc) (env : JNIEnv) (hal : btrc_interface_t)
    (address : jarray) (uidCounter scope numItems : Int)
    (folderType playable itemType itemUidArray numAttrs attributesIds : jarray)
    (displayNameArray attributesArray : jobjectArray)
    (addr folder_types playables item_types item_uid ids : List Int)
    (haddr : GetArrayElements address = some addr)
    (hft : GetArrayElements folderType = some folder_types)
    (hpl : GetArrayElements playable = some playables)
    (hit : GetArrayElements itemType = some item_types)
    (huid : GetArrayElements itemUidArray = some item_uid)
    (hna : numAttrs.isSome = (GetArrayElements numAttrs).isSome)
    (hids : GetArrayElements attributesIds = some ids)
    (hnew : env.newOk = true) (hnum : 0 ≤ numItems)
    (hne : k.BTRC_ITEM_FOLDER ≠ k.BTRC_ITEM_MEDIA)
    (hscope : scope = k.BTRC_SCOPE_FILE_SYSTEM ∨ scope = k.BTRC_SCOPE_SEARCH ∨
      scope = k.BTRC_SCOPE_NOW_PLAYING)
    (hnames : ∀ i : Nat, (i : Int) < numItems →
      (GetStringUTFChars (GetObjectArrayElement displayNameArray i)).isSome = true)
    (hattrs : ∀ i : Nat, (i : Int) < numItems → rd item_types i = k.BTRC_ITEM_MEDIA →
      ∀ t : Nat, (t : Int) < numAttrsOf (GetArrayElements numAttrs) i →
        (GetStringUTFChars (GetObjectArrayElement attributesArray
          (attrOffset k item_types (GetArrayElements numAttrs) i + (t : Int)))).isSome = true) :
    halCalls (getFolderItemsRspNative k env (some hal) address k.BTRC_STS_NO_ERROR uidCounter
        scope numItems folderType playable itemType itemUidArray displayNameArray numAttrs
        attributesIds attributesArray).trace =
      [HalCall.get_folder_items_list_rsp addr k.BTRC_STS_NO_ERROR uidCounter numItems
        (some ((List.range numItems.toNat).map (fun (i : Nat) => expectedItem k env folder_types
          playables item_types item_uid displayNameArray (GetArrayElements numAttrs) ids
          attributesArray i)))] := by
  have hloop := folderItemsLoop_complete k env folder_types playables item_types item_uid
    displayNameArray (GetArrayElements numAttrs) ids attributesArray hnew hne numItems.toNat 0
    (fun i _ h => hnames i (by omega)) (fun i _ h => hattrs i (by omega))
  simp only [attrOffset, Nat.cast_zero, zero_add] at hloop
  have hidsSome : attributesIds.isSome = true := by
    cases attributesIds with
    | none => simp [GetArrayElements] at hids
    | some _ => rfl
  simp only [getFolderItemsRspNative, haddr, if_true, pinIfPresent_fst, hft, hpl, hit, huid,
    hids, hnew, hna, hidsSome, if_pos hscope, hloop.1, hloop.2, if_neg (not_lt.mpr hnum)]
  have hcond : (((GetArrayElements numAttrs).isSome && (GetArrayElements numAttrs).isSome ||
        !(GetArrayElements numAttrs).isSome && !(GetArrayElements numAttrs).isSome) &&
      (true && (some ids).isSome || !true && !(some ids).isSome)) = true := by
    cases GetArrayElements numAttrs <;> rfl
  rw [if_pos hcond]
  split <;> simp [halCalls_append, halCalls, halCalls_folderItemsLoop]


theorem expectedItem_getElem (k : BtRc) (env : JNIEnv)
    (folder_types playables item_types item_uid : List Int)
    (displayNameArray : jobjectArray) (p_num_attrs : Option (List Int)) (ids : List Int)
    (attributesArray : jobjectArray) (numItems : Int) (i : Nat) (hi : (i : Int) < numItems) :
    ((List.range numItems.toNat).map (fun (i : Nat) => expectedItem k env folder_types
      playables item_types item_uid displayNameArray p_num_attrs ids attributesArray i))[i]? =
    some (expectedItem k env folder_types playables item_types item_uid displayNameArray
      p_num_attrs ids attributesArray i) := by
  have : i < numItems.toNat := by omega
  simp [List.getElem?_map, List.getElem?_range this]

theorem fetchedIndices_append (a : Arg) (xs ys : List Event) :
    fetchedIndices a (xs ++ ys) = fetchedIndices a xs ++ fetchedIndices a ys := by
  induction xs with
  | nil => rfl
  | cons e t ih =>
    cases e <;> simp [fetchedIndices, ih]
    split <;> simp

theorem fetchedIndices_copy_jstring (a : Arg) (str : Option (List Nat)) (maxBytes : Int)
    (jstr : jstring) (env : Option JNIEnv) :
    fetchedIndices a (copy_jstring str maxBytes jstr env).trace = [] := by
  rcases str with _ | buf <;> rcases jstr with _ | ⟨_ | bytes⟩ <;> rcases env with _ | e <;>
    simp [copy_jstring, GetStringUTFChars, fetchedIndices]

theorem fetchedIndices_attrLoop (k : BtRc) (env : JNIEnv) (ids : List Int) (a : Arg)
    (arr : jobjectArray) (base : Int) (n : Nat) (cnt : Int)
    (h : (attrLoop k env ids a arr base n cnt).done = some true) :
    fetchedIndices a (attrLoop k env ids a arr base n cnt).trace =
      (List.range n).map (fun (t : Nat) => base + (cnt + (t : Int))) := by
  induction n generalizing cnt with
  | zero => simp [attrLoop, fetchedIndices]
  | succ n ih =>
    simp only [attrLoop] at h ⊢
    rcases hret : (copy_jstring (some (uninitBytes k.BTRC_MAX_ATTR_STR_LEN))
      k.BTRC_MAX_ATTR_STR_LEN (GetObjectArrayElement arr (base + cnt)) (some env)).ret
      with _ | _ | _
    · simp [hret] at h
    · simp [hret] at h
    · simp only [hret] at h ⊢
      rw [List.range_succ_eq_map, List.map_cons, List.map_map, fetchedIndices_append,
        ih (cnt + 1) h]
      simp only [fetchedIndices, if_true, fetchedIndices_copy_jstring, List.cons_append,
        List.nil_append, Nat.cast_zero, add_zero]
      congr 1
      apply List.map_congr_left
      intro t _
      simp only [Function.comp]
      push_cast
      ring

theorem attrOffset_mono (k : BtRc) (item_types : List Int) (p_num_attrs : Option (List Int))
    (idx n : Nat)
    (hnn : ∀ i : Nat, idx ≤ i → i < idx + n → rd item_types i = k.BTRC_ITEM_MEDIA →
      0 ≤ numAttrsOf p_num_attrs i) :
    attrOffset k item_types p_num_attrs idx ≤ attrOffset k item_types p_num_attrs (idx + n) := by
  induction n with
  | zero => simp
  | succ n ih =>
    have h1 := ih (fun i h1 h2 => hnn i h1 (by omega))
    have h2 : attrOffset k item_types p_num_attrs (idx + (n + 1)) =
        attrOffset k item_types p_num_attrs (idx + n) +
          (if rd item_types ((idx + n : Nat) : Int) = k.BTRC_ITEM_MEDIA then
            numAttrsOf p_num_attrs ((idx + n : Nat) : Int) else 0) := rfl
    rw [h2]
    split
    · rename_i hM
      have := hnn (idx + n) (by omega) (by omega) hM
      omega
    · omega

theorem range_map_add (a m : Nat) :
    (List.range m).map (fun (t : Nat) => (a : Int) + (0 + (t : Int))) =
      (List.range' a m).map (fun (t : Nat) => (t : Int)) := by
  rw [List.range'_eq_map_range, List.map_map]
  apply List.map_congr_left
  intro t _
  simp [Function.comp]

theorem fetch_concat (A M B : Int) (hA : 0 ≤ A) (hM : 0 ≤ M) (hB : A + M ≤ B) :
    (List.range M.toNat).map (fun (t : Nat) => A + (0 + (t : Int))) ++
      (List.range' (A + M).toNat (B - (A + M)).toNat).map (fun (t : Nat) => (t : Int)) =
    (List.range' A.toNat (B - A).toNat).map (fun (t : Nat) => (t : Int)) := by
  obtain ⟨a, rfl⟩ : ∃ a : Nat, A = (a : Int) := ⟨_, (Int.toNat_of_nonneg hA).symm⟩
  obtain ⟨m, rfl⟩ : ∃ m : Nat, M = (m : Int) := ⟨_, (Int.toNat_of_nonneg hM).symm⟩
  obtain ⟨b, rfl⟩ : ∃ b : Nat, B = (b : Int) := ⟨_, (Int.toNat_of_nonneg (by omega)).symm⟩
  have e1 : ((a : Int) + (m : Int)).toNat = a + m := by omega
  have e2 : ((b : Int) - ((a : Int) + (m : Int))).toNat = b - (a + m) := by omega
  have e3 : ((b : Int) - (a : Int)).toNat = m + (b - (a + m)) := by omega
  simp only [Int.toNat_ofNat, e1, e2, e3, range_map_add]
  rw [← List.map_append, List.range'_append_1, Nat.add_comm]

theorem folderItemsLoop_fetches (k : BtRc) (env : JNIEnv)
    (folder_types playables item_types item_uid : List Int)
    (displayNameArray : jobjectArray) (p_num_attrs : Option (List Int)) (ids : List Int)
    (attributesArray : jobjectArray)
    (hnew : env.newOk = true) (hne : k.BTRC_ITEM_FOLDER ≠ k.BTRC_ITEM_MEDIA)
    (n idx : Nat)
    (hnames : ∀ i : Nat, idx ≤ i → i < idx + n →
      (GetStringUTFChars (GetObjectArrayElement displayNameArray i)).isSome = true)
    (hattrs : ∀ i : Nat, idx ≤ i → i < idx + n → rd item_types i = k.BTRC_ITEM_MEDIA →
      ∀ t : Nat, (t : Int) < numAttrsOf p_num_attrs i →
        (GetStringUTFChars (GetObjectArrayElement attributesArray
          (attrOffset k item_types p_num_attrs i + (t : Int)))).isSome = true)
    (hnn : ∀ i : Nat, idx ≤ i → i < idx + n → rd item_types i = k.BTRC_ITEM_MEDIA →
      0 ≤ numAttrsOf p_num_attrs i)
    (hoff0 : 0 ≤ attrOffset k item_types p_num_attrs idx) :
    fetchedIndices Arg.attributesArray
      (folderItemsLoop k env folder_types playables item_types item_uid displayNameArray
        p_num_attrs (some ids) attributesArray n idx
        (attrOffset k item_types p_num_attrs idx)).trace =
      (List.range' (attrOffset k item_types p_num_attrs idx).toNat
        (attrOffset k item_types p_num_attrs (idx + n) -
          attrOffset k item_types p_num_attrs idx).toNat).map (fun (t : Nat) => (t : Int)) := by
  induction n generalizing idx with
  | zero => simp [folderItemsLoop, fetchedIndices]
  | succ n ih =>
    have hname := (copy_jstring_ret_true_iff (zeroName k) k.BTRC_MAX_ATTR_STR_LEN
      (GetObjectArrayElement displayNameArray idx) env).mpr (hnames idx le_rfl (by omega))
    have hstep : attrOffset k item_types p_num_attrs (idx + 1) =
        attrOffset k item_types p_num_attrs idx +
          (if rd item_types (idx : Int) = k.BTRC_ITEM_MEDIA then
            numAttrsOf p_num_attrs (idx : Int) else 0) := rfl
    have hmono := attrOffset_mono k item_types p_num_attrs (idx + 1) n
      (fun i h1 h2 => hnn i (by omega) (by omega))
    have hidx : idx + 1 + n = idx + (n + 1) := by omega
    rw [hidx] at hmono
    have hcast : ((idx : Nat) : Int) + 1 = ((idx + 1 : Nat) : Int) := by push_cast; ring
    have hrest := fun h0 => ih (idx + 1) (fun i h1 h2 => hnames i (by omega) (by omega))
      (fun i h1 h2 => hattrs i (by omega) (by omega))
      (fun i h1 h2 => hnn i (by omega) (by omega)) h0
    rw [hidx] at hrest
    simp only [folderItemsLoop]
    by_cases hF : k.BTRC_ITEM_FOLDER = rd item_types idx
    · have hnM : rd item_types idx ≠ k.BTRC_ITEM_MEDIA := fun h => hne (hF.trans h)
      rw [if_neg hnM, add_zero] at hstep
      rw [hstep] at hrest hmono
      simp only [if_pos hF, hname, hcast, List.cons_append, fetchedIndices, List.append_eq,
        fetchedIndices_append, fetchedIndices_copy_jstring, reduceCtorEq, if_false,
        List.nil_append]
      exact hrest hoff0
    · by_cases hM : k.BTRC_ITEM_MEDIA = rd item_types idx
      · rw [if_pos hM.symm] at hstep
        have hn0 := hnn idx le_rfl (by omega) hM.symm
        rw [hstep] at hrest hmono
        have hrest2 := hrest (by omega)
        simp only [if_neg hF, if_pos hM, hname]
        by_cases hpos : 0 < numAttrsOf p_num_attrs idx
        · have hdone := (attrLoop_done_iff k env ids Arg.attributesArray attributesArray
            (attrOffset k item_types p_num_attrs idx) (numAttrsOf p_num_attrs idx).toNat 0).mpr
            (by
              intro t ht
              have := hattrs idx le_rfl (by omega) hM.symm t (by omega)
              simpa using this)
          have hf := fetchedIndices_attrLoop k env ids Arg.attributesArray attributesArray
            (attrOffset k item_types p_num_attrs idx) (numAttrsOf p_num_attrs idx).toNat 0
            hdone
          simp only [copy_item_attributes, if_pos hpos, hnew, Bool.not_true, Bool.false_eq_true,
            if_false, hdone, hcast, List.cons_append, fetchedIndices, List.append_eq,
            fetchedIndices_append, fetchedIndices_copy_jstring, reduceCtorEq, List.nil_append,
            hf, hrest2]
          exact fetch_concat _ _ _ hoff0 hn0 hmono
        · have hz : numAttrsOf p_num_attrs idx = 0 := by omega
          simp only [copy_item_attributes, if_neg hpos, hcast, List.cons_append, fetchedIndices,
            List.append_eq, fetchedIndices_append, fetchedIndices_copy_jstring, reduceCtorEq,
            if_false, List.nil_append, List.append_nil, hrest2]
          rw [hz, add_zero]
      · have hnM : rd item_types idx ≠ k.BTRC_ITEM_MEDIA := fun h => hM h.symm
        rw [if_neg hnM, add_zero] at hstep
        rw [hstep] at hrest hmono
        simp only [if_neg hF, if_neg hM, hcast]
        exact hrest hoff0

theorem folderItemsLoop_fetches_by_item (k : BtRc) (env : JNIEnv)
    (folder_types playables item_types item_uid : List Int)
    (displayNameArray : jobjectArray) (p_num_attrs : Option (List Int)) (ids : List Int)
    (attributesArray : jobjectArray)
    (hnew : env.newOk = true) (hne : k.BTRC_ITEM_FOLDER ≠ k.BTRC_ITEM_MEDIA)
    (n idx : Nat)
    (hnames : ∀ i : Nat, idx ≤ i → i < idx + n →
      (GetStringUTFChars (GetObjectArrayElement displayNameArray i)).isSome = true)
    (hattrs : ∀ i : Nat, idx ≤ i → i < idx + n → rd item_types i = k.BTRC_ITEM_MEDIA →
      ∀ t : Nat, (t : Int) < numAttrsOf p_num_attrs i →
        (GetStringUTFChars (GetObjectArrayElement attributesArray
          (attrOffset k item_types p_num_attrs i + (t : Int)))).isSome = true) :
    fetchedIndices Arg.attributesArray
      (folderItemsLoop k env folder_types playables item_types item_uid displayNameArray
        p_num_attrs (some ids) attributesArray n idx
        (attrOffset k item_types p_num_attrs idx)).trace =
      (List.range n).flatMap
        (fun (j : Nat) => itemAttrIndices k item_types p_num_attrs (idx + j)) := by
  induction n generalizing idx with
  | zero => simp [folderItemsLoop, fetchedIndices]
  | succ n ih =>
    have hname := (copy_jstring_ret_true_iff (zeroName k) k.BTRC_MAX_ATTR_STR_LEN
      (GetObjectArrayElement displayNameArray idx) env).mpr (hnames idx le_rfl (by omega))
    have hstep : attrOffset k item_types p_num_attrs (idx + 1) =
        attrOffset k item_types p_num_attrs idx +
          (if rd item_types (idx : Int) = k.BTRC_ITEM_MEDIA then
            numAttrsOf p_num_attrs (idx : Int) else 0) := rfl
    have hcast : ((idx : Nat) : Int) + 1 = ((idx + 1 : Nat) : Int) := by push_cast; ring
    have hrest := ih (idx + 1) (fun i h1 h2 => hnames i (by omega) (by omega))
      (fun i h1 h2 => hattrs i (by omega) (by omega))
    have hshift : (List.range (n + 1)).flatMap
          (fun (j : Nat) => itemAttrIndices k item_types p_num_attrs (idx + j)) =
        itemAttrIndices k item_types p_num_attrs idx ++
          (List.range n).flatMap
            (fun (j : Nat) => itemAttrIndices k item_types p_num_attrs (idx + 1 + j)) := by
      rw [List.range_succ_eq_map, List.flatMap_cons, List.flatMap_map]
      congr 1
      apply List.flatMap_congr
      intro j _
      show itemAttrIndices k item_types p_num_attrs (idx + (j + 1)) =
        itemAttrIndices k item_types p_num_attrs (idx + 1 + j)
      congr 1
      omega
    rw [hshift]
    simp only [folderItemsLoop]
    by_cases hF : k.BTRC_ITEM_FOLDER = rd item_types idx
    · have hnM : rd item_types idx ≠ k.BTRC_ITEM_MEDIA := fun h => hne (hF.trans h)
      rw [if_neg hnM, add_zero] at hstep
      rw [hstep] at hrest
      simp only [if_pos hF, hname, hcast, List.cons_append, fetchedIndices, List.append_eq,
        fetchedIndices_append, fetchedIndices_copy_jstring, reduceCtorEq, if_false,
        List.nil_append, hrest, itemAttrIndices, if_neg hnM]
    · by_cases hM : k.BTRC_ITEM_MEDIA = rd item_types idx
      · rw [if_pos hM.symm] at hstep
        rw [hstep] at hrest
        simp only [if_neg hF, if_pos hM, hname]
        by_cases hpos : 0 < numAttrsOf p_num_attrs idx
        · have hdone := (attrLoop_done_iff k env ids Arg.attributesArray attributesArray
            (attrOffset k item_types p_num_attrs idx) (numAttrsOf p_num_attrs idx).toNat 0).mpr
            (by
              intro t ht
              have := hattrs idx le_rfl (by omega) hM.symm t (by omega)
              simpa using this)
          have hf := fetchedIndices_attrLoop k env ids Arg.attributesArray attributesArray
            (attrOffset k item_types p_num_attrs idx) (numAttrsOf p_num_attrs idx).toNat 0
            hdone
          simp only [copy_item_attributes, if_pos hpos, hnew, Bool.not_true, Bool.false_eq_true,
            if_false, hdone, hcast, List.cons_append, fetchedIndices, List.append_eq,
            fetchedIndices_append, fetchedIndices_copy_jstring, reduceCtorEq, List.nil_append,
            hf, hrest, itemAttrIndices, if_pos hM.symm, zero_add]
        · have hz : (numAttrsOf p_num_attrs idx).toNat = 0 := by omega
          simp only [copy_item_attributes, if_neg hpos, hcast, List.cons_append, fetchedIndices,
            List.append_eq, fetchedIndices_append, fetchedIndices_copy_jstring, reduceCtorEq,
            if_false, List.nil_append, List.append_nil, hrest, itemAttrIndices,
            if_pos hM.symm, hz, List.range_zero, List.map_nil]
      · have hnM : rd item_types idx ≠ k.BTRC_ITEM_MEDIA := fun h => hM h.symm
        rw [if_neg hnM, add_zero] at hstep
        rw [hstep] at hrest
        simp only [if_neg hF, if_neg hM, hcast, hrest, itemAttrIndices, if_neg hnM,
          List.nil_append]

@[simp] theorem fetchedIndices_pinIfPresent (a b : Arg) (arr : jarray) :
    fetchedIndices a (pinIfPresent b arr).2 = [] := by
  cases arr <;> rfl

@[simp] theorem fetchedIndices_releaseIfPinned (a b : Arg) (p : Option (List Int)) :
    fetchedIndices a (releaseIfPinned b p) = [] := by
  cases p <;> rfl

theorem copy_item_attributes_ret (k : BtRc) (env : JNIEnv) (hnew : env.newOk = true)
    (pitem : btrc_item_media_t) (ids : List Int) (arr : jobjectArray) (item_idx aci : Int) :
    ((copy_item_attributes k env pitem ids arr item_idx aci).ret = some true ↔
      ∀ t : Nat, (t : Int) < pitem.num_attrs →
        (GetStringUTFChars (GetObjectArrayElement arr (aci + (t : Int)))).isSome = true) ∧
    (pitem.num_attrs ≤ 0 →
      (copy_item_attributes k env pitem ids arr item_idx aci).ret = some true ∧
      (copy_item_attributes k env pitem ids arr item_idx aci).pitem = pitem ∧
      (copy_item_attributes k env pitem ids arr item_idx aci).trace = []) := by
  constructor
  · by_cases hpos : 0 < pitem.num_attrs
    · simp only [copy_item_attributes, if_pos hpos, hnew, Bool.not_true, Bool.false_eq_true,
        if_false, attrLoop_done_iff]
      constructor
      · intro h t ht
        have := h t (by omega)
        simpa using this
      · intro h t ht
        have := h t (by omega)
        simpa using this
    · simp only [copy_item_attributes, if_neg hpos, true_iff]
      intro t ht
      omega
  · intro hle
    have hpos : ¬ 0 < pitem.num_attrs := by omega
    simp only [copy_item_attributes, if_neg hpos, and_self]

theorem getFolderItemsRspNative_fetches (k : BtRc) (env : JNIEnv) (hal : btrc_interface_t)
    (address : jarray) (uidCounter scope numItems : Int)
    (folderType playable itemType itemUidArray numAttrs attributesIds : jarray)
    (displayNameArray attributesArray : jobjectArray)
    (addr folder_types playables item_types item_uid ids : List Int)
    (haddr : GetArrayElements address = some addr)
    (hft : GetArrayElements folderType = some folder_types)
    (hpl : GetArrayElements playable = some playables)
    (hit : GetArrayElements itemType = some item_types)
    (huid : GetArrayElements itemUidArray = some item_uid)
    (hna : numAttrs.isSome = (GetArrayElements numAttrs).isSome)
    (hids : GetArrayElements attributesIds = some ids)
    (hnew : env.newOk = true) (hnum : 0 ≤ numItems)
    (hne : k.BTRC_ITEM_FOLDER ≠ k.BTRC_ITEM_MEDIA)
    (hscope : scope = k.BTRC_SCOPE_FILE_SYSTEM ∨ scope = k.BTRC_SCOPE_SEARCH ∨
      scope = k.BTRC_SCOPE_NOW_PLAYING)
    (hnames : ∀ i : Nat, (i : Int) < numItems →
      (GetStringUTFChars (GetObjectArrayElement displayNameArray i)).isSome = true)
    (hattrs : ∀ i : Nat, (i : Int) < numItems → rd item_types i = k.BTRC_ITEM_MEDIA →
      ∀ t : Nat, (t : Int) < numAttrsOf (GetArrayElements numAttrs) i →
        (GetStringUTFChars (GetObjectArrayElement attributesArray
          (attrOffset k item_types (GetArrayElements numAttrs) i + (t : Int)))).isSome = true)
    (hnn : ∀ i : Nat, (i : Int) < numItems → rd item_types i = k.BTRC_ITEM_MEDIA →
      0 ≤ numAttrsOf (GetArrayElements numAttrs) i) :
    fetchedIndices Arg.attributesArray
      (getFolderItemsRspNative k env (some hal) address k.BTRC_STS_NO_ERROR uidCounter
        scope numItems folderType playable itemType itemUidArray displayNameArray numAttrs
        attributesIds attributesArray).trace =
      (List.range (attrOffset k item_types (GetArrayElements numAttrs) numItems.toNat).toNat).map
        (fun (t : Nat) => (t : Int)) := by
  have hloop := folderItemsLoop_complete k env folder_types playables item_types item_uid
    displayNameArray (GetArrayElements numAttrs) ids attributesArray hnew hne numItems.toNat 0
    (fun i _ h => hnames i (by omega)) (fun i _ h => hattrs i (by omega))
  have hf := folderItemsLoop_fetches k env folder_types playables item_types item_uid
    displayNameArray (GetArrayElements numAttrs) ids attributesArray hnew hne numItems.toNat 0
    (fun i _ h => hnames i (by omega)) (fun i _ h => hattrs i (by omega))
    (fun i _ h => hnn i (by omega)) (by simp [attrOffset])
  simp only [attrOffset, Nat.cast_zero, zero_add, Int.toNat_zero, sub_zero] at hloop hf
  have hidsSome : attributesIds.isSome = true := by
    cases attributesIds with
    | none => simp [GetArrayElements] at hids
    | some _ => rfl
  simp only [getFolderItemsRspNative, haddr, if_true, pinIfPresent_fst, hft, hpl, hit, huid,
    hids, hnew, hna, hidsSome, if_pos hscope, hloop.1, hloop.2, if_neg (not_lt.mpr hnum)]
  have hcond : (((GetArrayElements numAttrs).isSome && (GetArrayElements numAttrs).isSome ||
        !(GetArrayElements numAttrs).isSome && !(GetArrayElements numAttrs).isSome) &&
      (true && (some ids).isSome || !true && !(some ids).isSome)) = true := by
    cases GetArrayElements numAttrs <;> rfl
  rw [if_pos hcond]
  split <;>
    simp only [List.cons_append, fetchedIndices, List.append_eq, fetchedIndices_append,
      fetchedIndices_pinIfPresent, fetchedIndices_releaseIfPinned, List.nil_append,
      List.append_nil, hf, List.range_eq_range']

theorem getFolderItemsRspNative_fetches_by_item (k : BtRc) (env : JNIEnv) (hal : btrc_interface_t)
    (address : jarray) (uidCounter scope numItems : Int)
    (folderType playable itemType itemUidArray numAttrs attributesIds : jarray)
    (displayNameArray attributesArray : jobjectArray)
    (addr folder_types playables item_types item_uid ids : List Int)
    (haddr : GetArrayElements address = some addr)
    (hft : GetArrayElements folderType = some folder_types)
    (hpl : GetArrayElements playable = some playables)
    (hit : GetArrayElements itemType = some item_types)
    (huid : GetArrayElements itemUidArray = some item_uid)
    (hna : numAttrs.isSome = (GetArrayElements numAttrs).isSome)
    (hids : GetArrayElements attributesIds = some ids)
    (hnew : env.newOk = true) (hnum : 0 ≤ numItems)
    (hne : k.BTRC_ITEM_FOLDER ≠ k.BTRC_ITEM_MEDIA)
    (hscope : scope = k.BTRC_SCOPE_FILE_SYSTEM ∨ scope = k.BTRC_SCOPE_SEARCH ∨
      scope = k.BTRC_SCOPE_NOW_PLAYING)
    (hnames : ∀ i : Nat, (i : Int) < numItems →
      (GetStringUTFChars (GetObjectArrayElement displayNameArray i)).isSome = true)
    (hattrs : ∀ i : Nat, (i : Int) < numItems → rd item_types i = k.BTRC_ITEM_MEDIA →
      ∀ t : Nat, (t : Int) < numAttrsOf (GetArrayElements numAttrs) i →
        (GetStringUTFChars (GetObjectArrayElement attributesArray
          (attrOffset k item_types (GetArrayElements numAttrs) i + (t : Int)))).isSome = true) :
    fetchedIndices Arg.attributesArray
      (getFolderItemsRspNative k env (some hal) address k.BTRC_STS_NO_ERROR uidCounter
        scope numItems folderType playable itemType itemUidArray displayNameArray numAttrs
        attributesIds attributesArray).trace =
      (List.range numItems.toNat).flatMap
        (fun (i : Nat) => itemAttrIndices k item_types (GetArrayElements numAttrs) i) := by
  have hloop := folderItemsLoop_complete k env folder_types playables item_types item_uid
    displayNameArray (GetArrayElements numAttrs) ids attributesArray hnew hne numItems.toNat 0
    (fun i _ h => hnames i (by omega)) (fun i _ h => hattrs i (by omega))
  have hf := folderItemsLoop_fetches_by_item k env folder_types playables item_types item_uid
    displayNameArray (GetArrayElements numAttrs) ids attributesArray hnew hne numItems.toNat 0
    (fun i _ h => hnames i (by omega)) (fun i _ h => hattrs i (by omega))
  simp only [attrOffset, Nat.cast_zero, zero_add, Int.toNat_zero, sub_zero] at hloop hf
  have hidsSome : attributesIds.isSome = true := by
    cases attributesIds with
    | none => simp [GetArrayElements] at hids
    | some _ => rfl
  simp only [getFolderItemsRspNative, haddr, if_true, pinIfPresent_fst, hft, hpl, hit, huid,
    hids, hnew, hna, hidsSome, if_pos hscope, hloop.1, hloop.2, if_neg (not_lt.mpr hnum)]
  have hcond : (((GetArrayElements numAttrs).isSome && (GetArrayElements numAttrs).isSome ||
        !(GetArrayElements numAttrs).isSome && !(GetArrayElements numAttrs).isSome) &&
      (true && (some ids).isSome || !true && !(some ids).isSome)) = true := by
    cases GetArrayElements numAttrs <;> rfl
  rw [if_pos hcond]
  split <;>
    simp only [List.cons_append, fetchedIndices, List.append_eq, fetchedIndices_append,
      fetchedIndices_pinIfPresent, fetchedIndices_releaseIfPinned, List.nil_append,
      List.append_nil, hf, List.range_eq_range']

theorem numAttrsOf_some (counts : List Int) (i : Int) :
    numAttrsOf (some counts) i = rd counts i := rfl

theorem attrOffset_some (k : BtRc) (item_types counts : List Int) (i : Nat) :
    attrOffset k item_types (some counts) i = mediaAttrStart k item_types counts i := by
  induction i with
  | zero => rfl
  | succ i ih => simp only [attrOffset, mediaAttrStart, ih, numAttrsOf_some]

theorem cString_append_zero (p q : List Nat) (hp : ∀ b ∈ p, b ≠ 0) :
    cString (p ++ 0 :: q) = p := by
  unfold cString
  induction p with
  | nil => simp [List.takeWhile_cons]
  | cons b t ih =>
    have hb : b ≠ 0 := hp b (List.mem_cons_self _ _)
    have ht : ∀ c ∈ t, c ≠ 0 := fun c hc => hp c (List.mem_cons_of_mem _ hc)
    simp [List.takeWhile_cons, hb, ih ht]

theorem take_le_cString (s : List Nat) (n : Nat) (hn : n ≤ (cString s).length) :
    s.take n = (cString s).take n := by
  unfold cString at hn ⊢
  induction s generalizing n with
  | nil => simp
  | cons b t ih =>
    cases n with
    | zero => simp
    | succ n =>
      by_cases hb : b = 0
      · simp [List.takeWhile_cons, hb] at hn
      · simp only [List.takeWhile_cons, bne_iff_ne, ne_eq, hb, not_false_eq_true, decide_True,
          if_true, List.length_cons] at hn ⊢
        simp only [List.take_succ_cons]
        rw [ih n (by omega)]

theorem cString_ne_zero (s : List Nat) : ∀ b ∈ cString s, b ≠ 0 := by
  intro b hb
  have := List.mem_takeWhile_imp hb
  simpa using this

/-- What `copy_jstring` leaves in a destination of at least `maxBytes` bytes: the C
string of the source cut to `maxBytes - 1` bytes. -/
theorem copy_jstring_cString (buf s : List Nat) (maxBytes : Int) (env : JNIEnv)
    (hmax : 1 ≤ maxBytes) (hint : maxBytes < 2 ^ 31) (hbuf : maxBytes ≤ buf.length) :
    ∃ out : List Nat,
      (copy_jstring (some buf) maxBytes (some { utf := some s }) (some env)).str = some out ∧
      cString out = (cString s).take (maxBytes.toNat - 1) ∧
      strlen out = min (strlen s) (maxBytes.toNat - 1) := by
  obtain ⟨m, rfl⟩ : ∃ m : Nat, maxBytes = (m : Int) := ⟨maxBytes.toNat, by omega⟩
  have hm1 : 1 ≤ m := by omega
  have hmb : m ≤ buf.length := by omega
  have e1 : size_t (m : Int) = m := by
    rw [size_t_of_nonneg _ (by omega) (by omega)]; simp
  have e2 : size_t ((m : Int) - 1) = m - 1 := by
    rw [size_t_of_nonneg _ (by omega) (by omega)]; omega
  have hsl : strlen s = (cString s).length := rfl
  have hlen : strnlen s (m - 1) = min (cString s).length (m - 1) := rfl
  set n := min (cString s).length (m - 1) with hn
  have hnm : n < m := by omega
  have hns : n ≤ (cString s).length := by omega
  have hout : memcpy (memset buf 0 m) s n =
      (cString s).take n ++ 0 :: (List.replicate (m - n - 1) 0 ++ buf.drop m) := by
    unfold memcpy memset
    rw [List.drop_append_of_le_length (by simp; omega), take_le_cString s n hns]
    have hrep : List.replicate (m - n) 0 = 0 :: List.replicate (m - n - 1) 0 := by
      have : m - n = (m - n - 1) + 1 := by omega
      rw [this, List.replicate_succ]; simp
    simp [List.drop_replicate, hrep]
  have hnz : ∀ b ∈ (cString s).take n, b ≠ 0 :=
    fun b hb => cString_ne_zero s b (List.mem_of_mem_take hb)
  have htake : (cString s).take n = (cString s).take (m - 1) := by
    by_cases h : (cString s).length ≤ m - 1
    · rw [List.take_of_length_le (by omega), List.take_of_length_le h]
    · have : n = m - 1 := by omega
      rw [this]
  have hcs : cString (memcpy (memset buf 0 m) s n) = (cString s).take (m - 1) := by
    rw [hout, cString_append_zero _ _ hnz, htake]
  refine ⟨memcpy (memset buf 0 m) s n, ?_, ?_, ?_⟩
  · rw [copy_jstring_of_chars, e1, e2, hlen]
  · simpa using hcs
  · show (cString (memcpy (memset buf 0 m) s n)).length = _
    rw [hcs, hsl]
    simp [List.length_take, Nat.min_comm]

theorem copy_jstring_uninit_cString (k : BtRc) (env : JNIEnv) (jstr : jstring) (s : List Nat)
    (hmax : 1 ≤ k.BTRC_MAX_ATTR_STR_LEN) (hint : k.BTRC_MAX_ATTR_STR_LEN < 2 ^ 31)
    (hs : GetStringUTFChars jstr = some s) :
    ∃ out : List Nat,
      (copy_jstring (some (uninitBytes k.BTRC_MAX_ATTR_STR_LEN)) k.BTRC_MAX_ATTR_STR_LEN
        jstr (some env)).str = some out ∧
      cString out = (cString s).take (k.BTRC_MAX_ATTR_STR_LEN.toNat - 1) := by
  rcases jstr with _ | ⟨_ | bytes⟩
  · simp [GetStringUTFChars] at hs
  · simp [GetStringUTFChars] at hs
  · have hb : bytes = s := by simpa [GetStringUTFChars] using hs
    subst hb
    obtain ⟨out, h1, h2, _⟩ := copy_jstring_cString (uninitBytes k.BTRC_MAX_ATTR_STR_LEN) bytes
      k.BTRC_MAX_ATTR_STR_LEN env hmax hint (by simp [uninitBytes])
    exact ⟨out, h1, h2⟩

/-- Where every string that is present delivers its characters, the attribute loop
returns. -/
theorem attrLoop_done_ne_none (k : BtRc) (env : JNIEnv) (ids : List Int) (a : Arg)
    (arr : jobjectArray) (base : Int) (n : Nat) (cnt : Int)
    (hchars : ∀ t : Nat, t < n → GetObjectArrayElement arr (base + (cnt + t)) ≠ none →
      (GetStringUTFChars (GetObjectArrayElement arr (base + (cnt + t)))).isSome = true) :
    (attrLoop k env ids a arr base n cnt).done ≠ none := by
  induction n generalizing cnt with
  | zero => simp [attrLoop]
  | succ n ih =>
    have h0 := hchars 0 (by omega)
    simp only [Nat.cast_zero, add_zero] at h0
    have hrest := ih (cnt + 1) (fun t ht => by
      have := hchars (t + 1) (by omega)
      have e : base + (cnt + ((t + 1 : Nat) : Int)) = base + (cnt + 1 + (t : Int)) := by
        push_cast; ring
      rw [e] at this; exact this)
    rw [attrLoop]
    rcases hj : GetObjectArrayElement arr (base + cnt) with _ | ⟨_ | bytes⟩
    · simp [copy_jstring]
    · simp [hj, GetStringUTFChars] at h0
    · simp only [copy_jstring_of_chars]
      exact hrest

theorem getElem?_range_map {α : Type} (f : Nat → α) (n i : Nat) (hi : i < n) :
    ((List.range n).map f)[i]? = some (f i) := by
  simp [List.getElem?_map, List.getElem?_range, hi]

theorem fillPlayerSettings_even (numattr : Int) (attr : List Int) (heven : numattr % 2 = 0)
    (hpos : 0 < numattr) :
    (fillPlayerSettings numattr attr).num_attr = numattr / 2 ∧
    ((fillPlayerSettings numattr attr).attr_ids.length : Int) = numattr / 2 ∧
    ((fillPlayerSettings numattr attr).attr_values.length : Int) = numattr / 2 ∧
    ∀ j : Nat, (j : Int) < numattr / 2 →
      (fillPlayerSettings numattr attr).attr_ids[j]? = some (rd attr (2 * (j : Int))) ∧
      (fillPlayerSettings numattr attr).attr_values[j]? = some (rd attr (2 * (j : Int) + 1)) := by
  have hiter : (((numattr + 1) / 2).toNat : Int) = numattr / 2 := by omega
  refine ⟨?_, ?_, ?_, ?_⟩
  · simp only [fillPlayerSettings]
    exact Int.tdiv_eq_ediv (by omega) (by omega)
  · simp only [fillPlayerSettings, List.length_map, List.length_range]
    exact hiter
  · simp only [fillPlayerSettings, List.length_map, List.length_range]
    exact hiter
  · intro j hj
    have hj2 : j < ((numattr + 1) / 2).toNat := by omega
    simp [fillPlayerSettings, List.getElem?_map, List.getElem?_range, hj2]

theorem javaCalls_append (xs ys : List CallbackEvent) :
    javaCalls (xs ++ ys) = javaCalls xs ++ javaCalls ys := by
  induction xs with
  | nil => rfl
  | cons e t ih => cases e <;> simp [javaCalls, ih]

theorem javaCalls_callbackFrame_none (locked : Bool) (env : CallbackEnv)
    (body : Nat → List CallbackEvent) :
    javaCalls (callbackFrame locked env none body) = [] := by
  cases locked <;> cases hv : env.valid <;> simp [callbackFrame, hv, javaCalls]

theorem javaCalls_callbackFrame_some (locked : Bool) (env : CallbackEnv) (obj : Nat)
    (body : Nat → List CallbackEvent) (hvalid : env.valid = true) :
    javaCalls (callbackFrame locked env (some obj) body) = javaCalls (body obj) := by
  cases locked <;> simp [callbackFrame, hvalid, javaCalls, javaCalls_append]

theorem javaCalls_allocateThenCall (env : CallbackEnv) (obj : Nat) (allocs : List NewArray)
    (method : jmethodID) (args : List jvalue)
    (hb : ∀ n, NewArray.bytes n ∈ allocs → env.NewByteArray n = true)
    (hi : ∀ n, NewArray.ints n ∈ allocs → env.NewIntArray n = true) :
    javaCalls (allocateThenCall env obj allocs method args) = [(method, args)] := by
  induction allocs with
  | nil => simp [allocateThenCall, javaCalls]
  | cons a rest ih =>
    have ihr := ih (fun n hn => hb n (List.mem_cons_of_mem _ hn))
      (fun n hn => hi n (List.mem_cons_of_mem _ hn))
    cases a with
    | bytes n =>
      simp [allocateThenCall, hb n (List.mem_cons_self _ _), javaCalls, ihr]
    | ints n =>
      simp [allocateThenCall, hi n (List.mem_cons_self _ _), javaCalls, ihr]

theorem arrayRegion_full (n : Int) (buf : List Int) (hn : 0 ≤ n) :
    ((arrayRegion n n buf).length : Int) = n ∧
    ∀ i : Nat, (i : Int) < n → (arrayRegion n n buf)[i]? = some (rd buf (i : Int)) := by
  have hc : ¬ n < 0 := by omega
  constructor
  · simp [arrayRegion, hc]; omega
  · intro i hi
    have hi2 : i < n.toNat := by omega
    simp [arrayRegion, hc, List.getElem?_map, List.getElem?_range, hi2]

theorem lock_not_mem_allocateThenCall (env : CallbackEnv) (obj : Nat) (allocs : List NewArray)
    (method : jmethodID) (args : List jvalue) :
    CallbackEvent.lock_shared ∉ allocateThenCall env obj allocs method args := by
  induction allocs with
  | nil => simp [allocateThenCall]
  | cons a rest ih =>
    cases a with
    | bytes n => cases h : env.NewByteArray n <;> simp [allocateThenCall, h, ih]
    | ints n => cases h : env.NewIntArray n <;> simp [allocateThenCall, h, ih]

theorem lock_not_mem_unlocked_frame (env : CallbackEnv) (mCallbacksObj : Option Nat)
    (body : Nat → List CallbackEvent)
    (hbody : ∀ obj, CallbackEvent.lock_shared ∉ body obj) :
    CallbackEvent.lock_shared ∉ callbackFrame false env mCallbacksObj body := by
  cases hv : env.valid <;> cases mCallbacksObj <;> simp [callbackFrame, hv, hbody]

theorem lifecycleStep_invariant (k : BtRc) (g : Globals) (c : LifecycleCall)
    (hg : g.sBluetoothAvrcpInterface.isSome = g.mCallbacksObj.isSome)
    (hc : globalRefDelivered c) :
    (lifecycleStep k g c).sBluetoothAvrcpInterface.isSome =
      (lifecycleStep k g c).mCallbacksObj.isSome := by
  cases c with
  | initNative env bt object m =>
    cases bt with
    | none => simpa [lifecycleStep, initNative] using hg
    | some btInf =>
      simp only [lifecycleStep, initNative]
      cases hget : btInf.get_profile_interface k.BT_PROFILE_AV_RC_ID with
      | none => rfl
      | some hal =>
        by_cases hinit : hal.call (HalCall.init m) = k.BT_STATUS_SUCCESS
        · simp only [hinit, ne_eq, not_true_eq_false, if_false]
          simp only [globalRefDelivered] at hc
          simp [hc]
        · simp [hinit]
  | cleanupNative bt =>
    cases bt with
    | none => simpa [lifecycleStep, cleanupNative] using hg
    | some btInf => rfl

theorem runLifecycle_invariant (k : BtRc) (calls : List LifecycleCall) (g : Globals)
    (hg : g.sBluetoothAvrcpInterface.isSome = g.mCallbacksObj.isSome)
    (hc : ∀ c ∈ calls, globalRefDelivered c) :
    (runLifecycle k g calls).sBluetoothAvrcpInterface.isSome =
      (runLifecycle k g calls).mCallbacksObj.isSome := by
  induction calls generalizing g with
  | nil => exact hg
  | cons c rest ih =>
    simp only [runLifecycle, List.foldl_cons]
    exact ih (lifecycleStep k g c)
      (lifecycleStep_invariant k g c hg (hc c (List.mem_cons_self _ _)))
      (fun d hd => hc d (List.mem_cons_of_mem _ hd))

theorem lifecycleStep_no_object (k : BtRc) (g : Globals) (c : LifecycleCall)
    (hg : g.mCallbacksObj = none) (hc : ¬ initSucceeds k c) :
    (lifecycleStep k g c).mCallbacksObj = none := by
  cases c with
  | initNative env bt object m =>
    cases bt with
    | none => simpa [lifecycleStep, initNative] using hg
    | some btInf =>
      simp only [lifecycleStep, initNative]
      cases hget : btInf.get_profile_interface k.BT_PROFILE_AV_RC_ID with
      | none => rfl
      | some hal =>
        have hinit : hal.call (HalCall.init m) ≠ k.BT_STATUS_SUCCESS :=
          fun h => hc ⟨hal, hget, h⟩
        simp [hinit]
  | cleanupNative bt =>
    cases bt with
    | none => simpa [lifecycleStep, cleanupNative] using hg
    | some btInf => rfl

theorem runLifecycle_no_object (k : BtRc) (calls : List LifecycleCall) (g : Globals)
    (hg : g.mCallbacksObj = none) (hc : ∀ c ∈ calls, ¬ initSucceeds k c) :
    (runLifecycle k g calls).mCallbacksObj = none := by
  induction calls generalizing g with
  | nil => exact hg
  | cons c rest ih =>
    simp only [runLifecycle, List.foldl_cons]
    exact ih (lifecycleStep k g c)
      (lifecycleStep_no_object k g c hg (hc c (List.mem_cons_self _ _)))
      (fun d hd => hc d (List.mem_cons_of_mem _ hd))

/-! ## The claims -/

/-- C1: each native of the single-call family (`getPlayStatusRspNative`,
`SendSetPlayerAppRspNative`, `setVolumeNative`, `setAddressedPlayerRspNative`,
`changePathRspNative`, `searchRspNative`, `playItemRspNative`,
`getTotalNumOfItemsRspNative`, `addToNowPlayingRspNative`,
`isDeviceActiveInHandOffNative` and the seven `registerNotificationRsp*Native`),
called with the interface initialised and with array arguments that can be pinned,
makes exactly one HAL call and returns `true` iff that call returned
`BT_STATUS_SUCCESS`. -/
theorem single_call_natives (k : BtRc) (env : JNIEnv) (hal : btrc_interface_t)
    (call : NativeCall) (arrays : List jarray)
    (hfamily : singleCallArrays call = some arrays)
    (hpinned : ∀ a ∈ arrays, (GetArrayElements a).isSome = true) :
    ∃ c : HalCall,
      halCalls (runNative k env (some hal) call).trace = [c] ∧
      (runNative k env (some hal) call).ret =
        some (decide (hal.call c = k.BT_STATUS_SUCCESS)) := by
  cases call <;> simp only [singleCallArrays, Option.some.injEq, reduceCtorEq] at hfamily <;>
    subst hfamily <;>
    simp only [List.mem_cons, List.mem_singleton, forall_eq_or_imp, forall_eq,
      List.not_mem_nil, false_imp_iff, implies_true, and_true, Option.isSome_iff_exists] at hpinned
  all_goals
    first
    | (obtain ⟨⟨addr, ha⟩, ⟨trk, ht⟩⟩ := hpinned
       simp only [runNative, registerNotificationRspTrackChangeNative, ha, ht, halCalls]
       exact ⟨_, rfl, rfl⟩)
    | (obtain ⟨addr, ha⟩ := hpinned
       simp only [runNative, getPlayStatusRspNative, SendSetPlayerAppRspNative,
           setVolumeNative, setAddressedPlayerRspNative, changePathRspNative, searchRspNative,
           playItemRspNative, getTotalNumOfItemsRspNative, addToNowPlayingRspNative,
           isDeviceActiveInHandOffNative, registerNotificationRspPlayStatusNative,
           registerNotificationRspPlayPosNative,
           registerNotificationRspAddrPlayerChangedNative,
           registerNotificationRspAvalPlayerChangedNative,
           registerNotificationRspUIDsChangedNative,
           registerNotificationRspNowPlayingChangedNative, ha, halCalls]
       exact ⟨_, rfl, rfl⟩)

/-- C1 at a concrete call of `registerNotificationRspTrackChangeNative`. -/
theorem single_call_natives_witness :
    ∃ c : HalCall,
      halCalls (runNative aospHeaders sampleEnv (some sampleHal)
        (NativeCall.registerNotificationRspTrackChangeNative 1 (sampleArray sampleUids)
          sampleAddress)).trace = [c] ∧
      (runNative aospHeaders sampleEnv (some sampleHal)
        (NativeCall.registerNotificationRspTrackChangeNative 1 (sampleArray sampleUids)
          sampleAddress)).ret =
        some (decide (sampleHal.call c = aospHeaders.BT_STATUS_SUCCESS)) :=
  single_call_natives aospHeaders sampleEnv sampleHal
    (NativeCall.registerNotificationRspTrackChangeNative 1 (sampleArray sampleUids)
      sampleAddress) [sampleAddress, sampleArray sampleUids] rfl
    (fun a ha => by
      simp only [List.mem_cons, List.mem_singleton, List.not_mem_nil, or_false] at ha
      rcases ha with rfl | rfl <;> rfl)

/-- C2: each of the 28 response natives registered in `sMethods`, called while
`sBluetoothAvrcpInterface` is `NULL`, returns `false` and makes no HAL call and no JNI
call on any array or string argument. -/
theorem natives_without_interface (k : BtRc) (env : JNIEnv) (call : NativeCall) :
    (runNative k env none call).ret = some false ∧
    (runNative k env none call).trace = [] := by
  cases call <;> exact ⟨rfl, rfl⟩

/-- C3: `initNative` with a loaded Bluetooth interface.  When
`get_profile_interface(BT_PROFILE_AV_RC_ID)` yields an interface whose `init` returns
`BT_STATUS_SUCCESS`, the globals afterwards are that interface and the result of
`NewGlobalRef(object)`; when it yields `NULL`, or `init` returns another status, both
globals are `NULL` afterwards, whatever they were before. -/
theorem initNative_globals (k : BtRc) (env : JNIEnv) (btInf : bt_interface_t) (g : Globals)
    (object : Nat) (maxAvrcpConnections : Int) :
    (∀ hal : btrc_interface_t,
      btInf.get_profile_interface k.BT_PROFILE_AV_RC_ID = some hal →
      hal.call (HalCall.init maxAvrcpConnections) = k.BT_STATUS_SUCCESS →
      (initNative k env (some btInf) g object maxAvrcpConnections).1 =
        { sBluetoothAvrcpInterface := some hal, mCallbacksObj := env.NewGlobalRef object }) ∧
    ((btInf.get_profile_interface k.BT_PROFILE_AV_RC_ID = none ∨
       ∃ hal : btrc_interface_t,
         btInf.get_profile_interface k.BT_PROFILE_AV_RC_ID = some hal ∧
         hal.call (HalCall.init maxAvrcpConnections) ≠ k.BT_STATUS_SUCCESS) →
      (initNative k env (some btInf) g object maxAvrcpConnections).1 =
        { sBluetoothAvrcpInterface := none, mCallbacksObj := none }) := by
  constructor
  · intro hal hget hinit
    simp [initNative, hget, hinit]
  · rintro (hget | ⟨hal, hget, hinit⟩)
    · simp [initNative, hget]
    · simp [initNative, hget, hinit]

/-- C3 at a concrete call: initialisation over stale globals succeeds. -/
theorem initNative_globals_witness :
    (initNative aospHeaders sampleEnv (some sampleBtInterface)
        { sBluetoothAvrcpInterface := none, mCallbacksObj := some 3 } 9 1).1 =
      { sBluetoothAvrcpInterface := some sampleHal,
        mCallbacksObj := sampleEnv.NewGlobalRef 9 } :=
  (initNative_globals aospHeaders sampleEnv sampleBtInterface
    { sBluetoothAvrcpInterface := none, mCallbacksObj := some 3 } 9 1).1 sampleHal rfl rfl

/-- C4: for a destination of at least `maxBytes >= 1` bytes and a Java string whose
modified UTF-8 bytes are `s` (none of them zero), `copy_jstring` returns `true` and
leaves the first `min |s| (maxBytes - 1)` bytes of `s` followed by zero bytes up to
index `maxBytes - 1`; so the byte at `maxBytes - 1` is NUL, the C-string length is
`min |s| (maxBytes - 1)`, nothing from index `maxBytes` on is changed, and a string
shorter than `maxBytes` is copied whole. -/
theorem copy_jstring_buffer (buf s : List Nat) (maxBytes : Int) (env : JNIEnv)
    (hmax : 1 ≤ maxBytes) (hint : maxBytes < 2 ^ 31) (hbuf : maxBytes ≤ buf.length)
    (hs : ∀ b ∈ s, b ≠ 0) :
    ∃ out : List Nat,
      copy_jstring (some buf) maxBytes (some { utf := some s }) (some env) =
        { ret := some true, str := some out,
          trace := [Event.GetStringUTFChars true, Event.ReleaseStringUTFChars] } ∧
      out = s.take (min s.length (maxBytes.toNat - 1)) ++
        List.replicate (maxBytes.toNat - min s.length (maxBytes.toNat - 1)) 0 ++
        buf.drop maxBytes.toNat ∧
      out.getD (maxBytes.toNat - 1) 1 = 0 ∧
      strlen out = min s.length (maxBytes.toNat - 1) ∧
      out.length = buf.length ∧
      out.drop maxBytes.toNat = buf.drop maxBytes.toNat ∧
      (s.length < maxBytes → out.take s.length = s) := by
  obtain ⟨m, rfl⟩ : ∃ m : Nat, maxBytes = (m : Int) := ⟨maxBytes.toNat, by omega⟩
  have hm1 : 1 ≤ m := by omega
  have hmb : m ≤ buf.length := by omega
  have e1 : size_t (m : Int) = m := by
    rw [size_t_of_nonneg _ (by omega) (by omega)]; simp
  have e2 : size_t ((m : Int) - 1) = m - 1 := by
    rw [size_t_of_nonneg _ (by omega) (by omega)]; omega
  have hlen : strnlen s (m - 1) = min s.length (m - 1) := by
    unfold strnlen; rw [strlen_of_no_zero s hs]
  set n := min s.length (m - 1) with hn
  have hnm : n < m := by omega
  have hns : n ≤ s.length := by omega
  have hout : memcpy (memset buf 0 m) s n =
      s.take n ++ List.replicate (m - n) 0 ++ buf.drop m := by
    unfold memcpy memset
    rw [List.drop_append_of_le_length (by simp; omega)]
    simp [List.drop_replicate, List.append_assoc]
  refine ⟨s.take n ++ List.replicate (m - n) 0 ++ buf.drop m, ?_, ?_, ?_, ?_, ?_, ?_, ?_⟩
  · rw [copy_jstring_of_chars, e1, e2, hlen, hout]
  · simp
  · simp only [Int.toNat_ofNat]
    rw [List.getD_eq_getElem?_getD, List.getElem?_append_left (by simp; omega),
      List.getElem?_append_right (by simp; omega)]
    rw [List.getElem?_replicate]
    simp only [List.length_take]
    rw [if_pos (by omega)]
    rfl
  · have htake : ∀ b ∈ s.take n, b ≠ 0 := fun b hb => hs b (List.mem_of_mem_take hb)
    have hrep : List.replicate (m - n) 0 = 0 :: List.replicate (m - n - 1) 0 := by
      have : m - n = (m - n - 1) + 1 := by omega
      rw [this, List.replicate_succ]; simp
    rw [List.append_assoc, hrep, List.cons_append, strlen_append_zero _ _ htake]
    simp [hns]
  · simp; omega
  · simp only [Int.toNat_ofNat]
    rw [List.drop_append_of_le_length (by simp; omega)]
    rw [List.drop_eq_nil_of_le (by simp; omega)]
    simp
  · intro hlt
    have hsn : n = s.length := by omega
    rw [List.append_assoc, List.take_append_of_le_length (by simp; omega)]
    simp [hsn]

/-- C4 at a concrete call: five bytes into a buffer limited to four. -/
theorem copy_jstring_buffer_witness :
    ∃ out : List Nat,
      copy_jstring (some [9, 9, 9, 9, 9, 9]) 4 (some { utf := some [97, 98, 99, 100, 101] })
          (some sampleEnv) =
        { ret := some true, str := some out,
          trace := [Event.GetStringUTFChars true, Event.ReleaseStringUTFChars] } ∧
      out = [97, 98, 99, 100, 101].take (min [97, 98, 99, 100, 101].length ((4 : Int).toNat - 1)) ++
        List.replicate ((4 : Int).toNat -
          min [97, 98, 99, 100, 101].length ((4 : Int).toNat - 1)) 0 ++
        [9, 9, 9, 9, 9, 9].drop (4 : Int).toNat ∧
      out.getD ((4 : Int).toNat - 1) 1 = 0 ∧
      strlen out = min [97, 98, 99, 100, 101].length ((4 : Int).toNat - 1) ∧
      out.length = [9, 9, 9, 9, 9, 9].length ∧
      out.drop (4 : Int).toNat = [9, 9, 9, 9, 9, 9].drop (4 : Int).toNat ∧
      (([97, 98, 99, 100, 101].length : Int) < 4 →
        out.take [97, 98, 99, 100, 101].length = [97, 98, 99, 100, 101]) :=
  copy_jstring_buffer [9, 9, 9, 9, 9, 9] [97, 98, 99, 100, 101] 4 sampleEnv (by decide)
    (by decide) (by decide) (by decide)

/-- C5: `copy_jstring` returns `false` and writes nothing whenever the string is not
copied.  Evaluated on a string for which `GetStringUTFChars` yields `NULL`, the code
does otherwise: it has already cleared the destination and, passing `NULL` on to
`strnlen`, does not return at all. -/
theorem copy_jstring_unchecked_chars :
    (copy_jstring (some [7, 7, 7, 7]) 4 (some { utf := none }) (some sampleEnv)).ret = none ∧
    (copy_jstring (some [7, 7, 7, 7]) 4 (some { utf := none }) (some sampleEnv)).str =
      some [0, 0, 0, 0] := by
  constructor <;> rfl

/-- C6: for every list of folder and media items whose names are non-null, item `i`
handed to the HAL is the folder or media item of index `i`.  The code does otherwise
when `attributesIds` is null, which its allocation check accepts: evaluated on a media
item followed by a folder item, with `numAttrs` and `attributesIds` null, it hands the
HAL the status `BTRC_STS_INTERNAL_ERR`, the media item with `num_attrs = 0` and its
name, and in place of the folder item an item that is still all zero. -/
theorem folder_item_after_media_left_clear :
    ∃ media : btrc_item_media_t,
      halCalls (getFolderItemsRspNative aospHeaders sampleEnv (some sampleHal) sampleAddress
        aospHeaders.BTRC_STS_NO_ERROR 0 aospHeaders.BTRC_SCOPE_NOW_PLAYING 2
        (sampleArray [0, 1]) (sampleArray [0, 0])
        (sampleArray [aospHeaders.BTRC_ITEM_MEDIA, aospHeaders.BTRC_ITEM_FOLDER])
        (sampleArray sampleUids) (some [sampleString [97], sampleString [98]])
        none none none).trace =
        [HalCall.get_folder_items_list_rsp [0, 1, 2, 3, 4, 5]
          aospHeaders.BTRC_STS_INTERNAL_ERR 0 2
          (some [btrc_folder_items_t.media (uint8_t aospHeaders.BTRC_ITEM_MEDIA) media,
            btrc_folder_items_t.zeroed])] ∧
      media.num_attrs = 0 ∧ media.p_attrs = none ∧ cString media.name = [97] :=
  ⟨_, rfl, rfl, rfl, by decide⟩

/-- C7: in `getFolderItemsRspNative` with status `BTRC_STS_NO_ERROR`, all arrays
obtained, a browsable scope, `0 <= numItems` and every string delivering its
characters, write `off_i` for the sum of `numAttrs[j]` over the media items `j < i`.
The media item at index `i` handed to the HAL has `num_attrs = numAttrs[i]`; when
`numAttrs[i] > 0` it carries `numAttrs[i]` entries, entry `t` with
`attr_id = attributesIds[off_i + t]` and as text the C string of
`attributesArray[off_i + t]` cut to `BTRC_MAX_ATTR_STR_LEN - 1` bytes, and a `NULL`
attribute pointer otherwise.  The native fetches from `attributesArray`, item by item
in item order, the indices `off_i, ..., off_i + numAttrs[i] - 1` for a media item and
none for any other item, and when no count is negative these are exactly
`0, 1, ..., off_numItems - 1` in this order.  `copy_item_attributes` returns `true` iff
every string at the indices `attribCopiedIndex + t`, `t < num_attrs`, delivers its
characters, and for `num_attrs <= 0` it returns `true`, leaves the item as it was and
makes no JNI call. -/
theorem item_attributes_consumed_in_order (k : BtRc) (env : JNIEnv) (hal : btrc_interface_t)
    (address : jarray) (uidCounter scope numItems : Int)
    (folderType playable itemType itemUidArray numAttrs attributesIds : jarray)
    (displayNameArray attributesArray : jobjectArray)
    (addr folder_types playables item_types item_uid counts ids : List Int)
    (haddr : GetArrayElements address = some addr)
    (hft : GetArrayElements folderType = some folder_types)
    (hpl : GetArrayElements playable = some playables)
    (hit : GetArrayElements itemType = some item_types)
    (huid : GetArrayElements itemUidArray = some item_uid)
    (hcounts : GetArrayElements numAttrs = some counts)
    (hids : GetArrayElements attributesIds = some ids)
    (hnew : env.newOk = true) (hnum : 0 ≤ numItems)
    (hmax : 1 ≤ k.BTRC_MAX_ATTR_STR_LEN) (hint : k.BTRC_MAX_ATTR_STR_LEN < 2 ^ 31)
    (hne : k.BTRC_ITEM_FOLDER ≠ k.BTRC_ITEM_MEDIA)
    (hscope : scope = k.BTRC_SCOPE_FILE_SYSTEM ∨ scope = k.BTRC_SCOPE_SEARCH ∨
      scope = k.BTRC_SCOPE_NOW_PLAYING)
    (hnames : ∀ i : Nat, (i : Int) < numItems →
      (GetStringUTFChars (GetObjectArrayElement displayNameArray i)).isSome = true)
    (hattrs : ∀ i : Nat, (i : Int) < numItems → rd item_types i = k.BTRC_ITEM_MEDIA →
      ∀ t : Nat, (t : Int) < rd counts i →
        (GetStringUTFChars (GetObjectArrayElement attributesArray
          (mediaAttrStart k item_types counts i + (t : Int)))).isSome = true) :
    (∃ items : List btrc_folder_items_t,
      halCalls (getFolderItemsRspNative k env (some hal) address k.BTRC_STS_NO_ERROR uidCounter
        scope numItems folderType playable itemType itemUidArray displayNameArray numAttrs
        attributesIds attributesArray).trace =
        [HalCall.get_folder_items_list_rsp addr k.BTRC_STS_NO_ERROR uidCounter numItems
          (some items)] ∧
      ∀ i : Nat, (i : Int) < numItems → rd item_types i = k.BTRC_ITEM_MEDIA →
        ∃ m : btrc_item_media_t,
          items[i]? = some (btrc_folder_items_t.media (uint8_t k.BTRC_ITEM_MEDIA) m) ∧
          m.num_attrs = rd counts i ∧
          (rd counts i ≤ 0 → m.p_attrs = none) ∧
          (0 < rd counts i →
            ∃ p_attrs : List btrc_element_attr_val_t,
              m.p_attrs = some p_attrs ∧ p_attrs.length = (rd counts i).toNat ∧
              ∀ t : Nat, (t : Int) < rd counts i → ∀ s : List Nat,
                GetStringUTFChars (GetObjectArrayElement attributesArray
                  (mediaAttrStart k item_types counts i + (t : Int))) = some s →
                ∃ text : List Nat,
                  p_attrs[t]? = some
                    { attr_id := rd ids (mediaAttrStart k item_types counts i + (t : Int)),
                      text := some text } ∧
                  cString text = (cString s).take (k.BTRC_MAX_ATTR_STR_LEN.toNat - 1))) ∧
    fetchedIndices Arg.attributesArray
        (getFolderItemsRspNative k env (some hal) address k.BTRC_STS_NO_ERROR uidCounter
        scope numItems folderType playable itemType itemUidArray displayNameArray numAttrs
        attributesIds attributesArray).trace =
      (List.range numItems.toNat).flatMap (fun (i : Nat) =>
        if rd item_types i = k.BTRC_ITEM_MEDIA then
          (List.range (rd counts i).toNat).map (fun (t : Nat) =>
            mediaAttrStart k item_types counts i + (t : Int))
        else []) ∧
    ((∀ i : Nat, (i : Int) < numItems → rd item_types i = k.BTRC_ITEM_MEDIA →
        0 ≤ rd counts i) →
      fetchedIndices Arg.attributesArray
        (getFolderItemsRspNative k env (some hal) address k.BTRC_STS_NO_ERROR uidCounter
        scope numItems folderType playable itemType itemUidArray displayNameArray numAttrs
        attributesIds attributesArray).trace =
        (List.range (mediaAttrStart k item_types counts numItems.toNat).toNat).map
          (fun (t : Nat) => (t : Int))) ∧
    (∀ (pitem : btrc_item_media_t) (p_attributesIds : List Int) (arr : jobjectArray)
        (item_idx attribCopiedIndex : Int),
      ((copy_item_attributes k env pitem p_attributesIds arr item_idx attribCopiedIndex).ret =
          some true ↔
        ∀ t : Nat, (t : Int) < pitem.num_attrs →
          (GetStringUTFChars
            (GetObjectArrayElement arr (attribCopiedIndex + (t : Int)))).isSome = true) ∧
      (pitem.num_attrs ≤ 0 →
        (copy_item_attributes k env pitem p_attributesIds arr item_idx
          attribCopiedIndex).ret = some true ∧
        (copy_item_attributes k env pitem p_attributesIds arr item_idx
          attribCopiedIndex).pitem = pitem ∧
        (copy_item_attributes k env pitem p_attributesIds arr item_idx
          attribCopiedIndex).trace = [])) := by
  have hna : numAttrs.isSome = (GetArrayElements numAttrs).isSome := by
    cases numAttrs with
    | none => simp [GetArrayElements] at hcounts
    | some _ => rw [hcounts]; rfl
  have hattrs2 : ∀ i : Nat, (i : Int) < numItems → rd item_types i = k.BTRC_ITEM_MEDIA →
      ∀ t : Nat, (t : Int) < numAttrsOf (GetArrayElements numAttrs) i →
        (GetStringUTFChars (GetObjectArrayElement attributesArray
          (attrOffset k item_types (GetArrayElements numAttrs) i + (t : Int)))).isSome =
          true := by
    intro i hi hM t ht
    rw [hcounts, numAttrsOf_some] at ht
    rw [hcounts, attrOffset_some]
    exact hattrs i hi hM t ht
  have hcall := getFolderItemsRspNative_complete k env hal address uidCounter scope numItems
    folderType playable itemType itemUidArray numAttrs attributesIds displayNameArray
    attributesArray addr folder_types playables item_types item_uid ids haddr hft hpl hit huid
    hna hids hnew hnum hne hscope hnames hattrs2
  have hby := getFolderItemsRspNative_fetches_by_item k env hal address uidCounter scope
    numItems folderType playable itemType itemUidArray numAttrs attributesIds displayNameArray
    attributesArray addr folder_types playables item_types item_uid ids haddr hft hpl hit
    huid hna hids hnew hnum hne hscope hnames hattrs2
  refine ⟨⟨_, hcall, ?_⟩, ?_, ?_, ?_⟩
  · intro i hi hM
    have hF : ¬ k.BTRC_ITEM_FOLDER = rd item_types i := fun h => hne (h.trans hM)
    rw [expectedItem_getElem _ _ _ _ _ _ _ _ _ _ _ _ hi]
    simp only [expectedItem, if_neg hF, if_pos hM.symm, hcounts, numAttrsOf_some,
      attrOffset_some]
    refine ⟨_, rfl, rfl, ?_, ?_⟩
    · intro hle
      simp only [if_neg (not_lt.mpr hle)]
    · intro hpos
      simp only [if_pos hpos]
      refine ⟨_, rfl, by simp, ?_⟩
      intro t ht s hs
      obtain ⟨text, ht1, ht2⟩ := copy_jstring_uninit_cString k env
        (GetObjectArrayElement attributesArray
          (mediaAttrStart k item_types counts i + (t : Int))) s hmax hint hs
      refine ⟨text, ?_, ht2⟩
      rw [getElem?_range_map _ _ _ (by omega)]
      simp only [copiedAttr, ht1]
  · rw [hby]
    apply List.flatMap_congr
    intro i _
    simp only [itemAttrIndices, hcounts, numAttrsOf_some, attrOffset_some]
  · intro hnn
    have := getFolderItemsRspNative_fetches k env hal address uidCounter scope numItems
      folderType playable itemType itemUidArray numAttrs attributesIds displayNameArray
      attributesArray addr folder_types playables item_types item_uid ids haddr hft hpl hit
      huid hna hids hnew hnum hne hscope hnames hattrs2
      (fun i hi hM => by rw [hcounts, numAttrsOf_some]; exact hnn i hi hM)
    rw [this, hcounts, attrOffset_some]
  · intro pitem p_attributesIds arr item_idx attribCopiedIndex
    exact copy_item_attributes_ret k env hnew pitem p_attributesIds arr item_idx
      attribCopiedIndex

/-- C7 at the concrete response of a folder item and a media item with one attribute:
exactly index `0` of `attributesArray` is fetched. -/
theorem item_attributes_consumed_in_order_witness :
    fetchedIndices Arg.attributesArray
      (getFolderItemsRspNative aospHeaders sampleEnv (some sampleHal) sampleAddress
        aospHeaders.BTRC_STS_NO_ERROR 7 aospHeaders.BTRC_SCOPE_NOW_PLAYING 2
        (sampleArray [1, 0]) (sampleArray [0, 0]) (sampleArray sampleItemTypes)
        (sampleArray sampleUids) sampleNames (sampleArray [0, 1]) (sampleArray [1])
        sampleAttrs).trace = [0] :=
  (item_attributes_consumed_in_order aospHeaders sampleEnv sampleHal sampleAddress 7
    aospHeaders.BTRC_SCOPE_NOW_PLAYING 2 (sampleArray [1, 0]) (sampleArray [0, 0])
    (sampleArray sampleItemTypes) (sampleArray sampleUids) (sampleArray [0, 1])
    (sampleArray [1]) sampleNames sampleAttrs [0, 1, 2, 3, 4, 5] [1, 0] [0, 0] sampleItemTypes
    sampleUids [0, 1] [1] rfl rfl rfl rfl rfl rfl rfl rfl (by decide) (by decide) (by decide)
    (by decide) (Or.inr (Or.inr rfl))
    (fun i hi => by
      have hcases : i = 0 ∨ i = 1 := by omega
      rcases hcases with rfl | rfl <;> rfl)
    (fun i hi hM t ht => by
      have hcases : i = 0 ∨ i = 1 := by omega
      rcases hcases with rfl | rfl
      · exact absurd hM (by decide)
      · have hone : rd [0, 1] ((1 : Nat) : Int) = 1 := rfl
        have ht0 : t = 0 := by omega
        subst ht0
        rfl)).2.2.1
    (fun i hi hM => by
      have hcases : i = 0 ∨ i = 1 := by omega
      rcases hcases with rfl | rfl <;> decide)

/-- C8: with `numAttrs` and `attributesIds` both null the status handed to the HAL
stays `BTRC_STS_NO_ERROR` for every list of folder and media items.  Evaluated on a
list of one media item whose display name can be copied, the code does otherwise: the
test `p_attributesIds == NULL` in the media branch makes the status
`BTRC_STS_INTERNAL_ERR`. -/
theorem media_item_without_attribute_ids :
    ∃ p_items : Option (List btrc_folder_items_t),
      halCalls (getFolderItemsRspNative aospHeaders sampleEnv (some sampleHal) sampleAddress
        aospHeaders.BTRC_STS_NO_ERROR 0 aospHeaders.BTRC_SCOPE_NOW_PLAYING 1
        (sampleArray [0]) (sampleArray [0]) (sampleArray [aospHeaders.BTRC_ITEM_MEDIA])
        (sampleArray [0, 0, 0, 0, 0, 0, 0, 1]) (some [sampleString [97]])
        none none none).trace =
      [HalCall.get_folder_items_list_rsp [0, 1, 2, 3, 4, 5] aospHeaders.BTRC_STS_INTERNAL_ERR
        0 1 p_items] :=
  ⟨_, rfl⟩

/-- C9, for a non-negative `numItems`: in `getFolderItemsRspNative` with status
`BTRC_STS_NO_ERROR`, the interface set and `address` obtained, if one of `folderType`,
`playable`, `itemType`, `itemUidArray` is null or does not deliver its elements,
`get_folder_items_list_rsp` is called exactly once, with status
`BTRC_STS_INTERNAL_ERR`; and when `cleanup_items` has nothing to walk afterwards
(`numItems = 0`, or `new[]` yielded no storage) the native returns `true` iff that call
returned `BT_STATUS_SUCCESS`.  Where it walks items that were never cleared, nothing is
stated about the return value. -/
theorem missing_item_array (k : BtRc) (env : JNIEnv) (hal : btrc_interface_t)
    (address : jarray) (addr : List Int) (uidCounter scope numItems : Int)
    (folderType playable itemType itemUidArray numAttrs attributesIds : jarray)
    (displayNameArray attributesArray : jobjectArray)
    (haddr : GetArrayElements address = some addr)
    (hnum : 0 ≤ numItems)
    (hmissing : GetArrayElements folderType = none ∨ GetArrayElements playable = none ∨
      GetArrayElements itemType = none ∨ GetArrayElements itemUidArray = none) :
    ∃ p_items : Option (List btrc_folder_items_t),
      halCalls (getFolderItemsRspNative k env (some hal) address k.BTRC_STS_NO_ERROR
        uidCounter scope numItems folderType playable itemType itemUidArray displayNameArray
        numAttrs attributesIds attributesArray).trace =
        [HalCall.get_folder_items_list_rsp addr k.BTRC_STS_INTERNAL_ERR uidCounter numItems
          p_items] ∧
      (numItems = 0 ∨ env.newOk = false →
        (getFolderItemsRspNative k env (some hal) address k.BTRC_STS_NO_ERROR
          uidCounter scope numItems folderType playable itemType itemUidArray displayNameArray
          numAttrs attributesIds attributesArray).ret =
          some (decide (hal.call (HalCall.get_folder_items_list_rsp addr
            k.BTRC_STS_INTERNAL_ERR uidCounter numItems p_items) = k.BT_STATUS_SUCCESS))) := by
  refine ⟨if env.newOk then
      some (List.replicate numItems.toNat btrc_folder_items_t.uninit) else none, ?_⟩
  simp only [getFolderItemsRspNative, haddr, if_true, pinIfPresent_fst,
    if_neg (not_lt.mpr hnum)]
  cases hn : env.newOk
  · simp [halCalls_append, halCalls]
  · simp only [if_true, Option.map_some', Option.getD_some]
    split
    · rename_i h1 h2 h3 h4 h5
      rcases hmissing with h | h | h | h
      · rw [h] at h2; exact absurd h2 (by simp)
      · rw [h] at h3; exact absurd h3 (by simp)
      · rw [h] at h4; exact absurd h4 (by simp)
      · rw [h] at h5; exact absurd h5 (by simp)
    · constructor
      · split <;> simp [halCalls_append, halCalls]
      · intro hwalk
        rcases hwalk with h0 | hno
        · subst h0
          simp [cleanup_items]
        · simp at hno

/-- C9 as stated fails for a negative count: with `numItems = -1` and `playable` null
the native makes no HAL call at all; `new btrc_folder_items_t[-1]` ends it. -/
theorem missing_item_array_negative_count :
    (GetArrayElements (none : jarray) = none ∧
      halCalls (getFolderItemsRspNative aospHeaders sampleEnv (some sampleHal) sampleAddress
        aospHeaders.BTRC_STS_NO_ERROR 7 aospHeaders.BTRC_SCOPE_NOW_PLAYING (-1)
        (sampleArray [1, 0]) none (sampleArray sampleItemTypes) (sampleArray sampleUids)
        sampleNames (sampleArray [0, 1]) (sampleArray [1]) sampleAttrs).trace = [] ∧
      (getFolderItemsRspNative aospHeaders sampleEnv (some sampleHal) sampleAddress
        aospHeaders.BTRC_STS_NO_ERROR 7 aospHeaders.BTRC_SCOPE_NOW_PLAYING (-1)
        (sampleArray [1, 0]) none (sampleArray sampleItemTypes) (sampleArray sampleUids)
        sampleNames (sampleArray [0, 1]) (sampleArray [1]) sampleAttrs).ret = none) :=
  ⟨rfl, by decide, by decide⟩

/-- C9 at a concrete call with a null `playable` array and no items. -/
theorem missing_item_array_witness :
    ∃ p_items : Option (List btrc_folder_items_t),
      halCalls (getFolderItemsRspNative aospHeaders sampleEnv (some sampleHal) sampleAddress
        aospHeaders.BTRC_STS_NO_ERROR 7 aospHeaders.BTRC_SCOPE_NOW_PLAYING 0
        (sampleArray []) none (sampleArray []) (sampleArray [])
        (some []) none none none).trace =
        [HalCall.get_folder_items_list_rsp [0, 1, 2, 3, 4, 5]
          aospHeaders.BTRC_STS_INTERNAL_ERR 7 0 p_items] ∧
      ((0 : Int) = 0 ∨ sampleEnv.newOk = false →
        (getFolderItemsRspNative aospHeaders sampleEnv (some sampleHal) sampleAddress
          aospHeaders.BTRC_STS_NO_ERROR 7 aospHeaders.BTRC_SCOPE_NOW_PLAYING 0
          (sampleArray []) none (sampleArray []) (sampleArray [])
          (some []) none none none).ret =
          some (decide (sampleHal.call (HalCall.get_folder_items_list_rsp [0, 1, 2, 3, 4, 5]
            aospHeaders.BTRC_STS_INTERNAL_ERR 7 0 p_items) =
              aospHeaders.BT_STATUS_SUCCESS))) :=
  missing_item_array aospHeaders sampleEnv sampleHal sampleAddress [0, 1, 2, 3, 4, 5] 7
    aospHeaders.BTRC_SCOPE_NOW_PLAYING 0 (sampleArray []) none (sampleArray [])
    (sampleArray []) none none (some []) none rfl (by decide) (Or.inr (Or.inl rfl))

/-- C10: with a status other than `BTRC_STS_NO_ERROR` on entry (interface initialised,
`address` pinned), `getFolderItemsRspNative` and `mediaPlayerListRspNative` touch no
argument but `address` and call `get_folder_items_list_rsp` exactly once, with the
caller's status and `numItems` and a null item list. -/
theorem error_status_handed_on (k : BtRc) (env : JNIEnv) (hal : btrc_interface_t)
    (address : jarray) (addr : List Int) (rspStatus uidCounter scope itemTypeByte numItems : Int)
    (folderType playable itemType itemUidArray numAttrs attributesIds : jarray)
    (displayNameArray attributesArray textArray : jobjectArray)
    (playerIds playerTypes playerSubtypes playStatusValues featureBitmask : jarray)
    (haddr : GetArrayElements address = some addr)
    (herr : rspStatus ≠ k.BTRC_STS_NO_ERROR) :
    getFolderItemsRspNative k env (some hal) address rspStatus uidCounter scope numItems
        folderType playable itemType itemUidArray displayNameArray numAttrs attributesIds
        attributesArray =
      { ret := some (decide (hal.call (HalCall.get_folder_items_list_rsp addr rspStatus
          uidCounter numItems none) = k.BT_STATUS_SUCCESS)),
        trace := [Event.GetArrayElements Arg.address true,
          Event.hal (HalCall.get_folder_items_list_rsp addr rspStatus uidCounter numItems none),
          Event.ReleaseArrayElements Arg.address] } ∧
    mediaPlayerListRspNative k env (some hal) address rspStatus uidCounter itemTypeByte
        numItems playerIds playerTypes playerSubtypes playStatusValues featureBitmask
        textArray =
      { ret := some (decide (hal.call (HalCall.get_folder_items_list_rsp addr rspStatus
          uidCounter numItems none) = k.BT_STATUS_SUCCESS)),
        trace := [Event.GetArrayElements Arg.address true,
          Event.hal (HalCall.get_folder_items_list_rsp addr rspStatus uidCounter numItems none),
          Event.ReleaseArrayElements Arg.address] } := by
  constructor
  · simp only [getFolderItemsRspNative, haddr, if_neg herr]
  · simp only [mediaPlayerListRspNative, haddr, if_neg herr]

/-- C10 at a concrete call with status `BTRC_STS_INTERNAL_ERR` and all item arrays
null. -/
theorem error_status_handed_on_witness :
    (getFolderItemsRspNative aospHeaders sampleEnv (some sampleHal) sampleAddress
        aospHeaders.BTRC_STS_INTERNAL_ERR 7 1 2 none none none none none none none none).trace =
      [Event.GetArrayElements Arg.address true,
        Event.hal (HalCall.get_folder_items_list_rsp [0, 1, 2, 3, 4, 5]
          aospHeaders.BTRC_STS_INTERNAL_ERR 7 2 none),
        Event.ReleaseArrayElements Arg.address] :=
  congrArg Result.trace
    (error_status_handed_on aospHeaders sampleEnv sampleHal sampleAddress [0, 1, 2, 3, 4, 5]
      aospHeaders.BTRC_STS_INTERNAL_ERR 7 1 0 2 none none none none none none none none none
      none none none none none rfl (by decide)).1

/-- C11, for a non-negative `numAttr`: where `new` yields storage and every string that
is present delivers its characters, `getElementAttrRspNative` with `0 <= numAttr` calls
`get_element_attr_rsp` exactly when the interface is set,
`numAttr <= BTRC_MAX_ELEM_ATTR_SIZE`, the elements of `address` and `attrIds` are
obtained and each of the first `numAttr` entries of `textArray` is non-null.  The one
call then carries the address, `numAttr` and `numAttr` entries, entry `i` with
`attr_id = attrIds[i]` and as text the C string of `textArray[i]` cut to
`BTRC_MAX_ATTR_STR_LEN - 1` bytes.  In every other case the native returns `false` and
makes no HAL call. -/
theorem element_attributes_handed_to_hal (k : BtRc) (env : JNIEnv)
    (sBluetoothAvrcpInterface : Option btrc_interface_t) (address : jarray) (numAttr : Int)
    (attrIds : jarray) (textArray : jobjectArray)
    (hnum : 0 ≤ numAttr) (hnew : env.newOk = true)
    (hmax : 1 ≤ k.BTRC_MAX_ATTR_STR_LEN) (hint : k.BTRC_MAX_ATTR_STR_LEN < 2 ^ 31)
    (hchars : ∀ i : Nat, (i : Int) < numAttr → GetObjectArrayElement textArray i ≠ none →
      (GetStringUTFChars (GetObjectArrayElement textArray i)).isSome = true) :
    ((sBluetoothAvrcpInterface ≠ none ∧ numAttr ≤ k.BTRC_MAX_ELEM_ATTR_SIZE ∧
        GetArrayElements address ≠ none ∧ GetArrayElements attrIds ≠ none ∧
        (∀ i : Nat, (i : Int) < numAttr → GetObjectArrayElement textArray i ≠ none)) →
      ∃ (hal : btrc_interface_t) (addr attr : List Int) (pAttrs : List btrc_element_attr_val_t),
        sBluetoothAvrcpInterface = some hal ∧ GetArrayElements address = some addr ∧
        GetArrayElements attrIds = some attr ∧
        halCalls (getElementAttrRspNative k env sBluetoothAvrcpInterface address numAttr
          attrIds textArray).trace = [HalCall.get_element_attr_rsp addr numAttr pAttrs] ∧
        (getElementAttrRspNative k env sBluetoothAvrcpInterface address numAttr attrIds
          textArray).ret = some (decide (hal.call
            (HalCall.get_element_attr_rsp addr numAttr pAttrs) = k.BT_STATUS_SUCCESS)) ∧
        pAttrs.length = numAttr.toNat ∧
        ∀ i : Nat, (i : Int) < numAttr → ∀ s : List Nat,
          GetStringUTFChars (GetObjectArrayElement textArray i) = some s →
          ∃ text : List Nat,
            pAttrs[i]? = some { attr_id := rd attr i, text := some text } ∧
            cString text = (cString s).take (k.BTRC_MAX_ATTR_STR_LEN.toNat - 1)) ∧
    (¬ (sBluetoothAvrcpInterface ≠ none ∧ numAttr ≤ k.BTRC_MAX_ELEM_ATTR_SIZE ∧
        GetArrayElements address ≠ none ∧ GetArrayElements attrIds ≠ none ∧
        (∀ i : Nat, (i : Int) < numAttr → GetObjectArrayElement textArray i ≠ none)) →
      (getElementAttrRspNative k env sBluetoothAvrcpInterface address numAttr attrIds
        textArray).ret = some false ∧
      halCalls (getElementAttrRspNative k env sBluetoothAvrcpInterface address numAttr attrIds
        textArray).trace = []) := by
  have hchars2 : ∀ t : Nat, t < numAttr.toNat →
      GetObjectArrayElement textArray (0 + (0 + (t : Int))) ≠ none →
      (GetStringUTFChars (GetObjectArrayElement textArray (0 + (0 + (t : Int))))).isSome =
        true := by
    intro t ht
    simp only [zero_add]
    exact hchars t (by omega)
  have hnonneg : ¬ numAttr < 0 := not_lt.mpr hnum
  constructor
  · rintro ⟨hs, hle, ha, hi, htext⟩
    obtain ⟨hal, rfl⟩ := Option.ne_none_iff_exists'.mp hs
    obtain ⟨addr, haddr⟩ := Option.ne_none_iff_exists'.mp ha
    obtain ⟨attr, hattr⟩ := Option.ne_none_iff_exists'.mp hi
    have hdone : (attrLoop k env attr Arg.textArray textArray 0 numAttr.toNat 0).done =
        some true := by
      rw [attrLoop_done_iff]
      intro t ht
      exact hchars2 t ht (by simp only [zero_add]; exact htext t (by omega))
    have hattrs := attrLoop_attrs k env attr Arg.textArray textArray 0 numAttr.toNat 0 hdone
    have hcond : ¬ numAttr > k.BTRC_MAX_ELEM_ATTR_SIZE := by omega
    refine ⟨hal, addr, attr,
      (attrLoop k env attr Arg.textArray textArray 0 numAttr.toNat 0).attrs, rfl, haddr, hattr,
      ?_, ?_, ?_, ?_⟩
    · simp [getElementAttrRspNative, hcond, hnonneg, haddr, hattr, hnew, hdone, halCalls,
        halCalls_append, halCalls_attrLoop]
    · simp [getElementAttrRspNative, hcond, hnonneg, haddr, hattr, hnew, hdone]
    · rw [hattrs]; simp
    · intro i hi s hs
      obtain ⟨text, ht1, ht2⟩ := copy_jstring_uninit_cString k env
        (GetObjectArrayElement textArray i) s hmax hint hs
      refine ⟨text, ?_, ht2⟩
      rw [hattrs, getElem?_range_map _ _ _ (by omega)]
      simp only [copiedAttr, zero_add, ht1]
  · intro hneg
    cases hs : sBluetoothAvrcpInterface with
    | none => simp [getElementAttrRspNative]
    | some hal =>
      by_cases hcond : numAttr > k.BTRC_MAX_ELEM_ATTR_SIZE
      · simp [getElementAttrRspNative, hcond]
      · cases haddr : GetArrayElements address with
        | none => simp [getElementAttrRspNative, hcond, haddr, halCalls]
        | some addr =>
          cases hattr : GetArrayElements attrIds with
          | none => simp [getElementAttrRspNative, hcond, hnonneg, haddr, hattr, hnew, halCalls]
          | some attr =>
            have hnot : ¬ (attrLoop k env attr Arg.textArray textArray 0 numAttr.toNat 0).done =
                some true := by
              rw [attrLoop_done_iff]
              intro hall
              apply hneg
              refine ⟨by simp [hs], by omega, by simp [haddr], by simp [hattr], ?_⟩
              intro i hi hnone
              have := hall i (by omega)
              simp [hnone, GetStringUTFChars] at this
            have hne := attrLoop_done_ne_none k env attr Arg.textArray textArray 0
              numAttr.toNat 0 hchars2
            have hdone : (attrLoop k env attr Arg.textArray textArray 0 numAttr.toNat 0).done =
                some false := by
              rcases h : (attrLoop k env attr Arg.textArray textArray 0 numAttr.toNat 0).done
                with _ | _ | _
              · exact absurd h hne
              · rfl
              · exact absurd h hnot
            simp [getElementAttrRspNative, hcond, hnonneg, haddr, hattr, hnew, hdone, halCalls,
              halCalls_append, halCalls_attrLoop]

/-- C11 at a concrete call: two attributes with their strings. -/
theorem element_attributes_handed_to_hal_witness :
    ∃ (hal : btrc_interface_t) (addr attr : List Int)
        (pAttrs : List btrc_element_attr_val_t),
      some sampleHal = some hal ∧ GetArrayElements sampleAddress = some addr ∧
      GetArrayElements (sampleArray [1, 2]) = some attr ∧
      halCalls (getElementAttrRspNative aospHeaders sampleEnv (some sampleHal) sampleAddress 2
        (sampleArray [1, 2]) (some [sampleString [84], sampleString [65, 66]])).trace =
        [HalCall.get_element_attr_rsp addr 2 pAttrs] ∧
      (getElementAttrRspNative aospHeaders sampleEnv (some sampleHal) sampleAddress 2
        (sampleArray [1, 2]) (some [sampleString [84], sampleString [65, 66]])).ret =
        some (decide (hal.call (HalCall.get_element_attr_rsp addr 2 pAttrs) =
          aospHeaders.BT_STATUS_SUCCESS)) ∧
      pAttrs.length = (2 : Int).toNat ∧
      ∀ i : Nat, (i : Int) < 2 → ∀ s : List Nat,
        GetStringUTFChars (GetObjectArrayElement
          (some [sampleString [84], sampleString [65, 66]]) i) = some s →
        ∃ text : List Nat,
          pAttrs[i]? = some { attr_id := rd attr i, text := some text } ∧
          cString text = (cString s).take (aospHeaders.BTRC_MAX_ATTR_STR_LEN.toNat - 1) :=
  (element_attributes_handed_to_hal aospHeaders sampleEnv (some sampleHal) sampleAddress 2
    (sampleArray [1, 2]) (some [sampleString [84], sampleString [65, 66]]) (by decide) rfl
    (by decide) (by decide)
    (fun i hi _ => by
      have h : i = 0 ∨ i = 1 := by omega
      rcases h with rfl | rfl <;> rfl)).1
    ⟨by simp, by decide, by decide, by decide, fun i hi => by
      have h : i = 0 ∨ i = 1 := by omega
      rcases h with rfl | rfl <;> simp [GetObjectArrayElement, sampleString]⟩

/-- C11 as stated fails for a negative count: with `numAttr = -1` the interface is
set, `numAttr <= BTRC_MAX_ELEM_ATTR_SIZE`, both arrays deliver their elements and no
entry of `textArray` is asked for, yet `get_element_attr_rsp` is not called, and the
native does not return `false` either: `new btrc_element_attr_val_t[-1]` ends it. -/
theorem element_attributes_negative_count :
    ((some sampleHal ≠ none ∧ (-1 : Int) ≤ aospHeaders.BTRC_MAX_ELEM_ATTR_SIZE ∧
        GetArrayElements sampleAddress ≠ none ∧ GetArrayElements (sampleArray []) ≠ none ∧
        (∀ i : Nat, (i : Int) < -1 → GetObjectArrayElement (some []) i ≠ none)) ∧
      halCalls (getElementAttrRspNative aospHeaders sampleEnv (some sampleHal) sampleAddress
        (-1) (sampleArray []) (some [])).trace = [] ∧
      (getElementAttrRspNative aospHeaders sampleEnv (some sampleHal) sampleAddress (-1)
        (sampleArray []) (some [])).ret = none) :=
  ⟨⟨by simp, by decide, by decide, by decide, fun i hi => by omega⟩, by decide, by decide⟩

/-- C12: for every even `numattr` with `0 < numattr <= BTRC_MAX_APP_ATTR_SIZE` (the
interface set, both arrays obtained, `new` yielding storage),
`SendCurrentPlayerValueRspNative` hands the HAL a `btrc_player_settings_t` with
`num_attr = numattr / 2` whose `attr_ids[j]` is `value[2 j]` and whose `attr_values[j]`
is `value[2 j + 1]` for every `j < numattr / 2`, and
`registerNotificationPlayerAppRspNative` hands over the same structure as
`player_setting`.  For `numattr = 0` or `numattr > BTRC_MAX_APP_ATTR_SIZE` both natives
return `false` without a HAL call. -/
theorem player_settings_pairs (k : BtRc) (env : JNIEnv)
    (sBluetoothAvrcpInterface : Option btrc_interface_t) (type numattr : Int)
    (value address : jarray) :
    (∀ (hal : btrc_interface_t) (addr attr : List Int),
      sBluetoothAvrcpInterface = some hal → GetArrayElements address = some addr →
      GetArrayElements value = some attr → env.newOk = true →
      numattr % 2 = 0 → 0 < numattr → numattr ≤ k.BTRC_MAX_APP_ATTR_SIZE →
      ∃ pAttrs : btrc_player_settings_t,
        halCalls (SendCurrentPlayerValueRspNative k env sBluetoothAvrcpInterface numattr value
          address).trace = [HalCall.get_player_app_value_rsp addr pAttrs] ∧
        halCalls (registerNotificationPlayerAppRspNative k env sBluetoothAvrcpInterface type
          numattr value address).trace =
          [HalCall.register_notification_rsp k.BTRC_EVT_APP_SETTINGS_CHANGED type
            (btrc_register_notification_t.player_setting pAttrs) addr] ∧
        pAttrs.num_attr = numattr / 2 ∧
        (pAttrs.attr_ids.length : Int) = numattr / 2 ∧
        (pAttrs.attr_values.length : Int) = numattr / 2 ∧
        ∀ j : Nat, (j : Int) < numattr / 2 →
          pAttrs.attr_ids[j]? = some (rd attr (2 * (j : Int))) ∧
          pAttrs.attr_values[j]? = some (rd attr (2 * (j : Int) + 1))) ∧
    (numattr = 0 ∨ numattr > k.BTRC_MAX_APP_ATTR_SIZE →
      (SendCurrentPlayerValueRspNative k env sBluetoothAvrcpInterface numattr value
        address).ret = some false ∧
      halCalls (SendCurrentPlayerValueRspNative k env sBluetoothAvrcpInterface numattr value
        address).trace = [] ∧
      (registerNotificationPlayerAppRspNative k env sBluetoothAvrcpInterface type numattr value
        address).ret = some false ∧
      halCalls (registerNotificationPlayerAppRspNative k env sBluetoothAvrcpInterface type
        numattr value address).trace = []) := by
  constructor
  · intro hal addr attr hs haddr hval hnew heven hpos hmax
    subst hs
    have hcond : ¬ (numattr > k.BTRC_MAX_APP_ATTR_SIZE ∨ numattr = 0) := by omega
    refine ⟨fillPlayerSettings numattr attr, ?_, ?_,
      fillPlayerSettings_even numattr attr heven hpos⟩
    · simp [SendCurrentPlayerValueRspNative, haddr, hval, hnew, hcond, halCalls]
    · simp [registerNotificationPlayerAppRspNative, haddr, hval, hnew, hcond, halCalls]
  · intro h
    have hcond : numattr > k.BTRC_MAX_APP_ATTR_SIZE ∨ numattr = 0 := by omega
    cases sBluetoothAvrcpInterface with
    | none => simp [SendCurrentPlayerValueRspNative, registerNotificationPlayerAppRspNative]
    | some hal =>
      cases haddr : GetArrayElements address with
      | none =>
        simp [SendCurrentPlayerValueRspNative, registerNotificationPlayerAppRspNative, haddr,
          halCalls]
      | some addr =>
        simp [SendCurrentPlayerValueRspNative, registerNotificationPlayerAppRspNative, haddr,
          hcond, halCalls]

/-- C12 at a concrete call: two pairs. -/
theorem player_settings_pairs_witness :
    (∃ pAttrs : btrc_player_settings_t,
      halCalls (SendCurrentPlayerValueRspNative aospHeaders sampleEnv (some sampleHal) 4
        (sampleArray [1, 10, 2, 20]) sampleAddress).trace =
        [HalCall.get_player_app_value_rsp [0, 1, 2, 3, 4, 5] pAttrs] ∧
      halCalls (registerNotificationPlayerAppRspNative aospHeaders sampleEnv (some sampleHal) 1
        4 (sampleArray [1, 10, 2, 20]) sampleAddress).trace =
        [HalCall.register_notification_rsp aospHeaders.BTRC_EVT_APP_SETTINGS_CHANGED 1
          (btrc_register_notification_t.player_setting pAttrs) [0, 1, 2, 3, 4, 5]] ∧
      pAttrs.num_attr = 4 / 2 ∧
      (pAttrs.attr_ids.length : Int) = 4 / 2 ∧
      (pAttrs.attr_values.length : Int) = 4 / 2 ∧
      ∀ j : Nat, (j : Int) < 4 / 2 →
        pAttrs.attr_ids[j]? = some (rd [1, 10, 2, 20] (2 * (j : Int))) ∧
        pAttrs.attr_values[j]? = some (rd [1, 10, 2, 20] (2 * (j : Int) + 1))) :=
  (player_settings_pairs aospHeaders sampleEnv (some sampleHal) 1 4
    (sampleArray [1, 10, 2, 20]) sampleAddress).1 sampleHal [0, 1, 2, 3, 4, 5] [1, 10, 2, 20]
    rfl rfl rfl rfl (by decide) (by decide) (by decide)

/-- C14: with the first `depth` entries of `textArray` non-null the HAL receives the
`depth` folder names.  The code does otherwise: it never assigns the `p_str` member of
the elements it allocates before handing it to `copy_jstring` as the destination.
Evaluated on a path of two folders, with `p_str` of the fresh elements `NULL`,
`copy_jstring` refuses the first name, and the native returns `false` without calling
`set_browsed_player_rsp`. -/
theorem browsed_player_folder_names_not_stored :
    (setBrowsedPlayerRspNative aospHeaders sampleEnv (some sampleHal) sampleAddress
      aospHeaders.BTRC_STS_NO_ERROR 2 9
      (some [sampleString [82], sampleString [65, 66]])).ret = some false ∧
    halCalls (setBrowsedPlayerRspNative aospHeaders sampleEnv (some sampleHal) sampleAddress
      aospHeaders.BTRC_STS_NO_ERROR 2 9
      (some [sampleString [82], sampleString [65, 66]])).trace = [] ∧
    sampleEnv.fresh_p_str = none := by
  refine ⟨?_, ?_, ?_⟩ <;> decide

/-- C15: with the callback environment attached, a callback object registered and the
arrays allocated, `btavrcp_get_folder_items_callback` for `0 <= num_attr` invokes
`getFolderItemsCallback` once, and its attribute-id argument is null exactly when
`num_attr` is `BTRC_NUM_ATTR_ALL` or `BTRC_NUM_ATTR_NONE`; otherwise it is an int array
of length `num_attr` whose element `i` is `p_attr_ids[i]` for every `i < num_attr`. -/
theorem folder_items_callback_attr_ids (k : BtRc) (sCallbackEnv : CallbackEnv) (obj : Nat)
    (scope start_item end_item num_attr : Int) (p_attr_ids bd_addr : List Int)
    (hvalid : sCallbackEnv.valid = true)
    (haddr : sCallbackEnv.NewByteArray k.sizeof_bt_bdaddr_t = true)
    (hints : num_attr ≠ k.BTRC_NUM_ATTR_ALL → num_attr ≠ k.BTRC_NUM_ATTR_NONE →
      sCallbackEnv.NewIntArray num_attr = true)
    (hnum : 0 ≤ num_attr) :
    ∃ attr_ids : Option (List Int),
      javaCalls (btavrcp_get_folder_items_callback k sCallbackEnv (some obj) scope start_item
        end_item num_attr p_attr_ids bd_addr) =
        [(jmethodID.method_getFolderItemsCallback,
          [addrArray k bd_addr, jvalue.num (jbyte scope), jvalue.num start_item,
           jvalue.num end_item, jvalue.num (jbyte num_attr), jvalue.array attr_ids])] ∧
      (attr_ids = none ↔
        (num_attr = k.BTRC_NUM_ATTR_ALL ∨ num_attr = k.BTRC_NUM_ATTR_NONE)) ∧
      ∀ ids : List Int, attr_ids = some ids →
        (ids.length : Int) = num_attr ∧
        ∀ i : Nat, (i : Int) < num_attr → ids[i]? = some (rd p_attr_ids (i : Int)) := by
  by_cases hc : num_attr ≠ k.BTRC_NUM_ATTR_ALL ∧ num_attr ≠ k.BTRC_NUM_ATTR_NONE
  · refine ⟨some (arrayRegion num_attr num_attr p_attr_ids), ?_, ?_, ?_⟩
    · rw [btavrcp_get_folder_items_callback, javaCalls_callbackFrame_some _ _ _ _ hvalid]
      simp only [if_pos hc]
      apply javaCalls_allocateThenCall
      · intro n hn
        simp at hn
        rw [hn]; exact haddr
      · intro n hn
        simp at hn
        rw [hn]; exact hints hc.1 hc.2
    · simp; omega
    · intro ids hids
      cases hids
      exact arrayRegion_full num_attr p_attr_ids hnum
  · refine ⟨none, ?_, ?_, ?_⟩
    · rw [btavrcp_get_folder_items_callback, javaCalls_callbackFrame_some _ _ _ _ hvalid]
      simp only [if_neg hc]
      apply javaCalls_allocateThenCall
      · intro n hn
        simp at hn
        rw [hn]; exact haddr
      · intro n hn
        simp at hn
    · simp; omega
    · intro ids hids
      cases hids

/-- C15 at a concrete call: two attribute ids. -/
theorem folder_items_callback_attr_ids_witness :
    ∃ attr_ids : Option (List Int),
      javaCalls (btavrcp_get_folder_items_callback aospHeaders sampleCallbackEnv (some 5) 1 0 9
        2 [7, 8, 9] [0, 1, 2, 3, 4, 5]) =
        [(jmethodID.method_getFolderItemsCallback,
          [addrArray aospHeaders [0, 1, 2, 3, 4, 5], jvalue.num (jbyte 1), jvalue.num 0,
           jvalue.num 9, jvalue.num (jbyte 2), jvalue.array attr_ids])] ∧
      (attr_ids = none ↔
        ((2 : Int) = aospHeaders.BTRC_NUM_ATTR_ALL ∨
          (2 : Int) = aospHeaders.BTRC_NUM_ATTR_NONE)) ∧
      ∀ ids : List Int, attr_ids = some ids →
        (ids.length : Int) = 2 ∧
        ∀ i : Nat, (i : Int) < 2 → ids[i]? = some (rd [7, 8, 9] (i : Int)) :=
  folder_items_callback_attr_ids aospHeaders sampleCallbackEnv 5 1 0 9 2 [7, 8, 9]
    [0, 1, 2, 3, 4, 5] rfl rfl (fun _ _ => rfl) (by decide)

/-- C16: every callback takes the shared lock before it reads `mCallbacksObj`.  The
code does otherwise in six of the 22 callbacks: evaluated with a registered object,
`btavrcp_get_player_seeting_value_callback` reads `mCallbacksObj` and invokes
`onListPlayerAttributeValues` without any lock event, whereas
`btavrcp_get_play_status_callback` brackets the same steps with the shared lock; and
on no input does the trace of `btavrcp_get_player_seeting_value_callback`,
`btavrcp_get_player_attribute_id_callback`,
`btavrcp_getcurrent_player_app_setting_values`,
`btavrcp_set_playerapp_setting_value_callback`, `btavrcp_getPlayer_app_attribute_text`
or `btavrcp_getPlayer_app_value_text` contain the taking of the shared lock. -/
theorem vendor_callbacks_take_no_lock (k : BtRc) (sCallbackEnv : CallbackEnv)
    (mCallbacksObj : Option Nat) :
    (btavrcp_get_player_seeting_value_callback aospHeaders sampleCallbackEnv (some 5) 2
        [0, 1, 2, 3, 4, 5] =
      [CallbackEvent.read_mCallbacksObj, CallbackEvent.NewByteArray 6 true,
       CallbackEvent.CallVoidMethod 5 jmethodID.method_onListPlayerAttributeValues
         [jvalue.num 2, jvalue.array (some [0, 1, 2, 3, 4, 5])]]) ∧
    (btavrcp_get_play_status_callback aospHeaders sampleCallbackEnv (some 5)
        [0, 1, 2, 3, 4, 5] =
      [CallbackEvent.lock_shared, CallbackEvent.read_mCallbacksObj,
       CallbackEvent.NewByteArray 6 true,
       CallbackEvent.CallVoidMethod 5 jmethodID.method_getPlayStatus
         [jvalue.array (some [0, 1, 2, 3, 4, 5])], CallbackEvent.unlock_shared]) ∧
    (∀ (player_att : Int) (bd_addr : List Int), CallbackEvent.lock_shared ∉
      btavrcp_get_player_seeting_value_callback k sCallbackEnv mCallbacksObj player_att
        bd_addr) ∧
    (∀ bd_addr : List Int, CallbackEvent.lock_shared ∉
      btavrcp_get_player_attribute_id_callback k sCallbackEnv mCallbacksObj bd_addr) ∧
    (∀ (num_attr : Int) (p_attrs bd_addr : List Int), CallbackEvent.lock_shared ∉
      btavrcp_getcurrent_player_app_setting_values k sCallbackEnv mCallbacksObj num_attr
        p_attrs bd_addr) ∧
    (∀ (attr : btrc_player_settings_t) (bd_addr : List Int), CallbackEvent.lock_shared ∉
      btavrcp_set_playerapp_setting_value_callback k sCallbackEnv mCallbacksObj attr
        bd_addr) ∧
    (∀ (num : Int) (att bd_addr : List Int), CallbackEvent.lock_shared ∉
      btavrcp_getPlayer_app_attribute_text k sCallbackEnv mCallbacksObj num att bd_addr) ∧
    (∀ (attr_id num_val : Int) (value bd_addr : List Int), CallbackEvent.lock_shared ∉
      btavrcp_getPlayer_app_value_text k sCallbackEnv mCallbacksObj attr_id num_val value
        bd_addr) := by
  refine ⟨by decide, by decide, ?_, ?_, ?_, ?_, ?_, ?_⟩ <;> intros <;>
    exact lock_not_mem_unlocked_frame _ _ _ (fun _ => lock_not_mem_allocateThenCall _ _ _ _ _)

/-- C17: every array a native obtains is released exactly once on every return path.
The code does otherwise: on its normal path, with one player and the HAL reporting
success, `mediaPlayerListRspNative` obtains the elements of `playerIds` once and
never releases them; and `getListPlayerappAttrRspNative` called with
`BTRC_MAX_APP_ATTR_SIZE + 1` attributes, and `getElementAttrRspNative` called with a
null string, return `false` with the elements of `address` obtained once and never
released. -/
theorem pinned_arrays_left_unreleased :
    (mediaPlayerListRspNative aospHeaders sampleEnv (some sampleHal) sampleAddress
      aospHeaders.BTRC_STS_NO_ERROR 0 1 1 (sampleArray [7]) (sampleArray [1])
      (sampleArray [0]) (sampleArray [1])
      (sampleArray [0, 0, 0, 0, 0, 0, 0, 0, 0, 0, 0, 0, 0, 0, 0, 0])
      (some [sampleString [80]])).ret = some true ∧
    pinCount Arg.playerIds (mediaPlayerListRspNative aospHeaders sampleEnv (some sampleHal)
      sampleAddress aospHeaders.BTRC_STS_NO_ERROR 0 1 1 (sampleArray [7]) (sampleArray [1])
      (sampleArray [0]) (sampleArray [1])
      (sampleArray [0, 0, 0, 0, 0, 0, 0, 0, 0, 0, 0, 0, 0, 0, 0, 0])
      (some [sampleString [80]])).trace = 1 ∧
    releaseCount Arg.playerIds (mediaPlayerListRspNative aospHeaders sampleEnv (some sampleHal)
      sampleAddress aospHeaders.BTRC_STS_NO_ERROR 0 1 1 (sampleArray [7]) (sampleArray [1])
      (sampleArray [0]) (sampleArray [1])
      (sampleArray [0, 0, 0, 0, 0, 0, 0, 0, 0, 0, 0, 0, 0, 0, 0, 0])
      (some [sampleString [80]])).trace = 0 ∧
    (getListPlayerappAttrRspNative aospHeaders sampleEnv (some sampleHal)
      (aospHeaders.BTRC_MAX_APP_ATTR_SIZE + 1) (sampleArray []) sampleAddress).ret =
      some false ∧
    pinCount Arg.address (getListPlayerappAttrRspNative aospHeaders sampleEnv (some sampleHal)
      (aospHeaders.BTRC_MAX_APP_ATTR_SIZE + 1) (sampleArray []) sampleAddress).trace = 1 ∧
    releaseCount Arg.address (getListPlayerappAttrRspNative aospHeaders sampleEnv
      (some sampleHal) (aospHeaders.BTRC_MAX_APP_ATTR_SIZE + 1) (sampleArray [])
      sampleAddress).trace = 0 ∧
    (getElementAttrRspNative aospHeaders sampleEnv (some sampleHal) sampleAddress 1
      (sampleArray [1]) (some [none])).ret = some false ∧
    pinCount Arg.address (getElementAttrRspNative aospHeaders sampleEnv (some sampleHal)
      sampleAddress 1 (sampleArray [1]) (some [none])).trace = 1 ∧
    releaseCount Arg.address (getElementAttrRspNative aospHeaders sampleEnv (some sampleHal)
      sampleAddress 1 (sampleArray [1]) (some [none])).trace = 0 := by
  refine ⟨?_, ?_, ?_, ?_, ?_, ?_, ?_, ?_, ?_⟩ <;> decide

/-- C18: after any sequence of `initNative` and `cleanupNative` calls from the initial
state, whatever the Bluetooth interface and the HAL deliver in each call,
`sBluetoothAvrcpInterface` is non-null exactly when `mCallbacksObj` is non-null,
provided `NewGlobalRef` returns a reference in every `initNative`. -/
theorem globals_null_together (k : BtRc) (calls : List LifecycleCall)
    (hrefs : ∀ c ∈ calls, globalRefDelivered c) :
    ((runLifecycle k initialGlobals calls).sBluetoothAvrcpInterface ≠ none ↔
      (runLifecycle k initialGlobals calls).mCallbacksObj ≠ none) := by
  have h := runLifecycle_invariant k calls initialGlobals rfl hrefs
  cases h1 : (runLifecycle k initialGlobals calls).sBluetoothAvrcpInterface <;>
    cases h2 : (runLifecycle k initialGlobals calls).mCallbacksObj <;>
    simp [h1, h2] at h ⊢

/-- C18 at a concrete sequence: an initialisation, a cleanup, and an initialisation
without a Bluetooth interface. -/
theorem globals_null_together_witness :
    ((runLifecycle aospHeaders initialGlobals
        [LifecycleCall.initNative sampleEnv (some sampleBtInterface) 7 1,
         LifecycleCall.cleanupNative (some sampleBtInterface),
         LifecycleCall.initNative sampleEnv none 8 1]).sBluetoothAvrcpInterface ≠ none ↔
      (runLifecycle aospHeaders initialGlobals
        [LifecycleCall.initNative sampleEnv (some sampleBtInterface) 7 1,
         LifecycleCall.cleanupNative (some sampleBtInterface),
         LifecycleCall.initNative sampleEnv none 8 1]).mCallbacksObj ≠ none) :=
  globals_null_together aospHeaders
    [LifecycleCall.initNative sampleEnv (some sampleBtInterface) 7 1,
     LifecycleCall.cleanupNative (some sampleBtInterface),
     LifecycleCall.initNative sampleEnv none 8 1]
    (fun c hc => by
      simp only [List.mem_cons, List.mem_singleton, List.not_mem_nil, or_false] at hc
      rcases hc with rfl | rfl | rfl <;> simp [globalRefDelivered, sampleEnv])

/-- C19: each of the 22 callbacks of `sBluetoothAvrcpCallbacks`, run while
`mCallbacksObj` is `NULL`, invokes no Java method; and after a `cleanupNative` with the
Bluetooth interface loaded, followed by any lifecycle calls none of which is a
successful `initNative`, `mCallbacksObj` is `NULL`, so that no callback run in that
state invokes a Java method.  Calls are taken one after the other. -/
theorem no_java_call_without_object (k : BtRc) :
    (∀ (sCallbackEnv : CallbackEnv) (call : CallbackCall),
      javaCalls (runCallback k sCallbackEnv none call) = []) ∧
    (∀ (g : Globals) (btInf : bt_interface_t) (calls : List LifecycleCall),
      (∀ c ∈ calls, ¬ initSucceeds k c) →
      ∀ (sCallbackEnv : CallbackEnv) (call : CallbackCall),
        javaCalls (runCallback k sCallbackEnv
          (runLifecycle k (cleanupNative (some btInf) g).1 calls).mCallbacksObj call) = []) := by
  have h1 : ∀ (sCallbackEnv : CallbackEnv) (call : CallbackCall),
      javaCalls (runCallback k sCallbackEnv none call) = [] := by
    intro env call
    cases call <;> simp only [runCallback, btavrcp_remote_features_callback,
      btavrcp_get_play_status_callback, btavrcp_get_player_attribute_id_callback,
      btavrcp_get_player_seeting_value_callback, btavrcp_getcurrent_player_app_setting_values,
      btavrcp_getPlayer_app_attribute_text, btavrcp_getPlayer_app_value_text,
      btavrcp_set_playerapp_setting_value_callback, btavrcp_get_element_attr_callback,
      btavrcp_register_notification_callback, btavrcp_volume_change_callback,
      btavrcp_passthrough_command_callback, btavrcp_set_addressed_player_callback,
      btavrcp_set_browsed_player_callback, btavrcp_get_folder_items_callback,
      btavrcp_change_path_callback, btavrcp_get_item_attr_callback, btavrcp_play_item_callback,
      btavrcp_get_total_num_items_callback, btavrcp_search_callback,
      btavrcp_add_to_play_list_callback, btavrcp_connection_state_callback,
      javaCalls_callbackFrame_none]
  refine ⟨h1, ?_⟩
  intro g btInf calls hc env call
  rw [runLifecycle_no_object k calls _ rfl hc]
  exact h1 env call

/-- C19 at a concrete sequence: a cleanup and an initialisation that finds no AVRCP
interface, then a play status request from the HAL. -/
theorem no_java_call_without_object_witness :
    javaCalls (runCallback aospHeaders sampleCallbackEnv
      (runLifecycle aospHeaders
        (cleanupNative (some sampleBtInterface)
          { sBluetoothAvrcpInterface := some sampleHal, mCallbacksObj := some 3 }).1
        [LifecycleCall.initNative sampleEnv (some { get_profile_interface := fun _ => none })
          4 1]).mCallbacksObj
      (CallbackCall.btavrcp_get_play_status_callback [0, 1, 2, 3, 4, 5])) = [] :=
  (no_java_call_without_object aospHeaders).2
    { sBluetoothAvrcpInterface := some sampleHal, mCallbacksObj := some 3 } sampleBtInterface
    [LifecycleCall.initNative sampleEnv (some { get_profile_interface := fun _ => none }) 4 1]
    (fun c hc => by
      simp only [List.mem_singleton] at hc
      subst hc
      simp [initSucceeds])
    sampleCallbackEnv (CallbackCall.btavrcp_get_play_status_callback [0, 1, 2, 3, 4, 5])

end Avrcp
